import Mathlib

/-!
Travel guide: map presentation layer and city resolution.

A shallow embedding of `src/components/CityMap.jsx` (MapUpdater, MapMarkers,
CityMap), of the city load routine of `src/pages/City.jsx`, and of the load
routine and the merged model of `src/pages/Country.jsx`.

Resolutions that overlap are modelled by an event machine over the state writes of
each routine.

JavaScript values that reach the code as coordinates are modelled by `JSVal`.
Calls into the map library (fitBounds, setView, flyTo, openPopup) are recorded
as commands; what the library does with a command is outside the embedding.
-/

namespace TravelGuide

/-! ## JavaScript values -/

/-- A JavaScript number. A finite number is represented by its mathematical
value (rounding to the nearest double is not represented, and the sign of zero
is not kept). -/
inductive JSNum where
  | nan
  | infinity (negative : Bool)
  | fin (q : ℚ)
  deriving DecidableEq

/-- The scalar values a coordinate field of a point can hold. -/
inductive JSVal where
  | undefined
  | null
  | num (n : JSNum)
  | str (s : String)
  deriving DecidableEq

/-- ToBoolean: what `v && ...`, `!v` and `if (v)` test. -/
def JSVal.truthy : JSVal → Bool
  | .undefined => false
  | .null => false
  | .num .nan => false
  | .num (.infinity _) => true
  | .num (.fin q) => decide (q ≠ 0)
  | .str s => !s.data.isEmpty

/-- Truthiness of an optional string (absent or empty is falsy). -/
def strTruthy : Option String → Bool
  | none => false
  | some s => !s.data.isEmpty

/-- The builtins of the JavaScript runtime whose results are taken as given:
`String.prototype.toLowerCase`, `String.prototype.toUpperCase` and
`Number::toString`. -/
structure JSBuiltins where
  toLowerCase : String → String
  toUpperCase : String → String
  numberToString : JSNum → String

/-- ToString, as applied by a template literal to an interpolated value. -/
def JSVal.toStr (B : JSBuiltins) : JSVal → String
  | .undefined => "undefined"
  | .null => "null"
  | .num n => B.numberToString n
  | .str s => s

/-! ### parseFloat -/

/-- Code points of StrWhiteSpaceChar (white space and line terminators). -/
def isStrWhiteSpaceChar (c : Char) : Bool :=
  let n := c.toNat
  n = 9 || n = 10 || n = 11 || n = 12 || n = 13 || n = 32 || n = 160 || n = 5760
    || (8192 ≤ n && n ≤ 8202) || n = 8232 || n = 8233 || n = 8239 || n = 8287
    || n = 12288 || n = 65279

/-- Value of a run of decimal digits. -/
def digitsValue (ds : List Char) : Nat :=
  ds.foldl (fun acc c => 10 * acc + (c.toNat - 48)) 0

/-- The number m × 10^e. -/
def scale10 (m : Nat) (e : Int) : ℚ :=
  if 0 ≤ e then mkRat ((m * 10 ^ e.toNat : Nat) : Int) 1 else mkRat (m : Int) (10 ^ (-e).toNat)

/-- Value of the ExponentPart the input starts with, 0 when it starts with none
(an `e` that is not followed by an optionally signed digit is not part of the
literal). -/
def exponentPart (cs : List Char) : Int :=
  match cs with
  | [] => 0
  | c :: rest =>
    if c.toNat = 101 || c.toNat = 69 then
      match rest with
      | [] => 0
      | s :: ds =>
        if s.toNat = 43 then (digitsValue (ds.takeWhile Char.isDigit) : Int)
        else if s.toNat = 45 then -(digitsValue (ds.takeWhile Char.isDigit) : Int)
        else (digitsValue (rest.takeWhile Char.isDigit) : Int)
    else 0

/-- The longest prefix that is a StrUnsignedDecimalLiteral, as a number;
NaN when no prefix is one. -/
def parseUnsigned (cs : List Char) : JSNum :=
  if "Infinity".data.isPrefixOf cs then .infinity false
  else
    let ip := cs.takeWhile Char.isDigit
    let r1 := cs.dropWhile Char.isDigit
    match r1 with
    | [] => if ip.isEmpty then .nan else .fin (scale10 (digitsValue ip) 0)
    | c :: r2 =>
      if c.toNat = 46 then
        let fp := r2.takeWhile Char.isDigit
        let r3 := r2.dropWhile Char.isDigit
        if ip.isEmpty && fp.isEmpty then .nan
        else .fin (scale10 (digitsValue (ip ++ fp)) (exponentPart r3 - (fp.length : Int)))
      else if ip.isEmpty then .nan
      else .fin (scale10 (digitsValue ip) (exponentPart r1))

/-- Negation of a number. -/
def JSNum.neg : JSNum → JSNum
  | .nan => .nan
  | .infinity b => .infinity (!b)
  | .fin q => .fin (-q)

/-- The builtin parseFloat on a string: leading white space is skipped, then the
longest prefix that is a StrDecimalLiteral is read; NaN when there is none. -/
def parseFloatChars (cs : List Char) : JSNum :=
  match cs.dropWhile isStrWhiteSpaceChar with
  | [] => .nan
  | c :: rest =>
    if c.toNat = 43 then parseUnsigned rest
    else if c.toNat = 45 then (parseUnsigned rest).neg
    else parseUnsigned (c :: rest)

/-- The builtin parseFloat. The argument is first converted to a string:
"undefined" and "null" have no numeric prefix, and the string of a number reads
back as that number. -/
def parseFloat : JSVal → JSNum
  | .undefined => .nan
  | .null => .nan
  | .num n => n
  | .str s => parseFloatChars s.data

/-! ## Data model -/

/-- An entry of a point list (a Place of the view model). `query` is the
search phrase a template entry carries; `link` the explicit override link. -/
structure Place where
  name : String
  query : Option String := none
  descriptor : Option String := none
  lat : JSVal := .undefined
  lon : JSVal := .undefined
  image : Option String := none
  link : Option String := none
  deriving DecidableEq

/-- A position handed to the map library: `[parseFloat(lat), parseFloat(lon)]`. -/
abbrev Position := JSNum × JSNum

/-- The `center` prop: the array `[coords.lat, coords.lon]`. -/
abbrev Center := JSVal × JSVal

/-- The argument of `L.latLngBounds`: the bounding region of these positions. -/
structure LatLngBounds where
  points : List Position
  deriving DecidableEq

/-- Calls into the map library. -/
inductive MapCmd where
  | fitBounds (bounds : LatLngBounds) (padding : Nat × Nat) (maxZoom : Nat)
  | setView (center : Center) (zoom : Nat)
  | flyTo (position : Position) (zoom : Nat) (duration : ℚ) (easeLinearity : ℚ)
  | openPopup (marker : Nat)
  deriving DecidableEq

/-! ## CityMap.jsx -/

/-- The filter predicate `p => p.lat && p.lon` of MapUpdater, which is also the
negation of the guard `!place.lat || !place.lon` of MapMarkers. -/
def hasCoords (p : Place) : Bool :=
  p.lat.truthy && p.lon.truthy

/-- The position `[parseFloat(p.lat), parseFloat(p.lon)]` of a point. -/
def positionOf (p : Place) : Position :=
  (parseFloat p.lat, parseFloat p.lon)

/-- The `markers` array of MapUpdater:
`places.filter(p => p.lat && p.lon).map(p => [parseFloat(p.lat), parseFloat(p.lon)])`. -/
def updaterMarkers (places : List Place) : List Position :=
  (places.filter hasCoords).map positionOf

/-- The fallback of MapUpdater: `if (center) map.setView(center, 13)`. -/
def updaterFallback (center : Option Center) : List MapCmd :=
  match center with
  | some c => [.setView c 13]
  | none => []

/-- The effect of MapUpdater: the map commands one run of it issues.
`places` is `none` when the prop is undefined or null. -/
def MapUpdater (center : Option Center) (places : Option (List Place)) : List MapCmd :=
  match places with
  | some ps =>
    if ps.length > 0 then
      let markers := updaterMarkers ps
      if markers.length > 0 then
        [.fitBounds ⟨markers⟩ (50, 50) 12]
      else updaterFallback center
    else updaterFallback center
  | none => updaterFallback center

/-- The events a marker has a handler for. -/
inductive MarkerEvent where
  | click
  | mouseover
  deriving DecidableEq

/-- The info panel of a marker. -/
structure Popup where
  image : Option String
  descriptor : Option String
  name : String
  directionsHref : String
  detailsTo : String
  deriving DecidableEq

/-- A rendered marker: its key (the index of the point in `places`), its
position, the image of its icon and its info panel. -/
structure Marker where
  key : Nat
  position : Position
  iconImage : Option String
  popup : Popup
  deriving DecidableEq

/-- The `eventHandlers` of a marker: click flies to the marker, mouseover opens
its popup. -/
def Marker.eventHandlers (m : Marker) : MarkerEvent → List MapCmd
  | .click => [.flyTo m.position 16 1.5 0.25]
  | .mouseover => [.openPopup m.key]

/-- The href of the directions anchor. -/
def directionsHref (B : JSBuiltins) (place : Place) : String :=
  "https://www.google.com/maps/dir/?api=1&destination=" ++ place.lat.toStr B ++ ","
    ++ place.lon.toStr B

/-- The slug `s.replace(/ /g, '-')`: every space becomes a hyphen. -/
def replaceSpaces (s : String) : String :=
  ⟨s.data.map (fun c => if c = ' ' then '-' else c)⟩

/-- The target of the details link:
`place.link || "/attraction/" + place.name.toLowerCase().replace(/ /g, '-')`. -/
def detailsTo (B : JSBuiltins) (place : Place) : String :=
  match place.link with
  | some l => if strTruthy (some l) then l else "/attraction/" ++ replaceSpaces (B.toLowerCase place.name)
  | none => "/attraction/" ++ replaceSpaces (B.toLowerCase place.name)

/-- The callback of `places.map((place, idx) => ...)` in MapMarkers:
`null` when a coordinate is falsy, a marker otherwise. -/
def renderMarker (B : JSBuiltins) (place : Place) (idx : Nat) : Option Marker :=
  if !place.lat.truthy || !place.lon.truthy then none
  else some
    { key := idx
      position := (parseFloat place.lat, parseFloat place.lon)
      iconImage := place.image
      popup :=
        { image := place.image
          descriptor := place.descriptor
          name := place.name
          directionsHref := directionsHref B place
          detailsTo := detailsTo B place } }

/-- The `places.map` with index, from index `idx` on. -/
def mapIdx (B : JSBuiltins) : List Place → Nat → List (Option Marker)
  | [], _ => []
  | p :: ps, idx => renderMarker B p idx :: mapIdx B ps (idx + 1)

/-- The children MapMarkers renders, one slot per point (`none` is the `null`
child). Calling `.map` on an undefined `places` is a TypeError. -/
def MapMarkers (B : JSBuiltins) (places : Option (List Place)) : Except String (List (Option Marker)) :=
  match places with
  | some ps => .ok (mapIdx B ps 0)
  | none => .error "TypeError: places is undefined"

/-- The markers that are on the map: the non-null children. -/
def renderedMarkers (slots : List (Option Marker)) : List Marker :=
  slots.filterMap id

/-- What CityMap puts on screen: the props of the map container, the commands
of the MapUpdater effect and the children of MapMarkers. -/
structure CityMapView where
  containerCenter : Center
  containerZoom : Nat
  updaterCmds : List MapCmd
  markerSlots : List (Option Marker)
  deriving DecidableEq

/-- The default centre `[51.505, -0.09]`. -/
def defaultCenter : Center :=
  (.num (.fin 51.505), .num (.fin (-0.09)))

/-- The component CityMap: `position = center || [51.505, -0.09]`, a container
at `position` and zoom 13, then MapUpdater and MapMarkers on the props. -/
def CityMap (B : JSBuiltins) (center : Option Center) (places : Option (List Place)) :
    Except String CityMapView :=
  let position := match center with
    | some c => c
    | none => defaultCenter
  match MapMarkers B places with
  | .ok slots =>
    .ok { containerCenter := position, containerZoom := 13,
          updaterCmds := MapUpdater center places, markerSlots := slots }
  | .error e => .error e

/-! ### The viewport as a state machine -/

/-- The view the map is showing: the one the container was created with, or the
one the last viewport command asked for. -/
inductive Viewport where
  | initial (center : Center) (zoom : Nat)
  | fitted (bounds : LatLngBounds) (padding : Nat × Nat) (maxZoom : Nat)
  | centered (center : Center) (zoom : Nat)
  | flown (position : Position) (zoom : Nat)
  deriving DecidableEq

/-- The view after a command (opening a popup moves nothing). -/
def Viewport.apply (v : Viewport) : MapCmd → Viewport
  | .fitBounds b p z => .fitted b p z
  | .setView c z => .centered c z
  | .flyTo pos z _ _ => .flown pos z
  | .openPopup _ => v

/-- One step of the map: the props change to `center` and `places`, the
MapUpdater effect runs again and its commands are applied in order. -/
def updateStep (v : Viewport) (center : Option Center) (places : Option (List Place)) : Viewport :=
  (MapUpdater center places).foldl Viewport.apply v

/-- A point that has only a name and its two coordinate fields. -/
def pointAt (name : String) (lat lon : JSVal) : Place :=
  { name := name, lat := lat, lon := lon }

/-- The three points of the map-filtering scenario. -/
def scenarioPoints : List Place :=
  [pointAt "a" (.str "10") (.str "20"), pointAt "b" .null (.str "5"),
   pointAt "c" (.str "bad") (.str "5")]

/-- Builtins for ASCII text and integral numbers: lower and upper case of the
letters A to Z, and the decimal digits of an integer. -/
def asciiBuiltins : JSBuiltins where
  toLowerCase s := ⟨s.data.map Char.toLower⟩
  toUpperCase s := ⟨s.data.map Char.toUpper⟩
  numberToString n :=
    match n with
    | .nan => "NaN"
    | .infinity b => if b then "-Infinity" else "Infinity"
    | .fin q => if q.num < 0 then "-" ++ toString (q.num.natAbs / q.den) else toString (q.num.natAbs / q.den)

/-- A coordinate field is present, in the words of the data model: it is
neither undefined, nor null, nor the empty string. -/
def JSVal.present : JSVal → Bool
  | .undefined => false
  | .null => false
  | .num _ => true
  | .str s => !s.data.isEmpty

/-- The value is the number 0 or NaN: the values that are present and falsy. -/
def JSVal.zeroOrNaN : JSVal → Bool
  | .num .nan => true
  | .num (.fin q) => decide (q = 0)
  | _ => false

/-! ## City.jsx -/

/-- The reason of a rejected promise. -/
abbrev Rejection := String

/-- The coordinate pair the geocoder resolves to. -/
structure Coords where
  lat : JSVal
  lon : JSVal
  deriving DecidableEq

/-- An entry of the nearby-cities list. -/
structure NeighborRef where
  name : String
  image : Option String := none
  distance : Option String := none
  description : Option String := none
  deriving DecidableEq

/-- The adapters the city page awaits. Each call either resolves to a value
(`null` is `none`) or rejects. -/
structure CityAdapters where
  getUnsplashImage : String → Except Rejection (Option String)
  getCityCoordinates : String → Except Rejection (Option Coords)
  fetchPlacesForCity : String → Except Rejection (Option (List Place))
  fetchCitiesNearCity : String → Except Rejection (List NeighborRef)

/-- An entry of `initialData.places` or `initialData.interests`. -/
structure TemplateEntry where
  name : String
  query : String
  descriptor : Option String := none
  deriving DecidableEq

/-- An interest tile. -/
structure Interest where
  name : String
  query : String
  image : Option String
  deriving DecidableEq

/-- The `quickFacts` of a city model. -/
structure QuickFacts where
  region : String
  bestTime : String
  knownFor : String
  duration : String
  vibe : String
  deriving DecidableEq

/-- The model `setCityInfo` commits. -/
structure CityInfo where
  name : String
  identity : String
  image : String
  quickFacts : QuickFacts
  places : List Place
  interests : List Interest
  tips : List String
  deriving DecidableEq

/-- The state of the City component that the load routines write. -/
structure CityPageState where
  cityInfo : Option CityInfo
  nearbyCities : List NeighborRef
  loading : Bool
  mapCenter : Option Center
  deriving DecidableEq

/-- The state of a freshly mounted City component. -/
def CityPageState.mounted : CityPageState :=
  { cityInfo := none, nearbyCities := [], loading := true, mapCenter := none }

/-- The expression `s ? s.charAt(0).toUpperCase() + s.slice(1) : fallback`.
`charAt(0)` and `slice(1)` split the string after its first UTF-16 code unit.
A first character in the Basic Multilingual Plane (code point below 65536) is
one code unit, so `charAt(0)` is that character and `slice(1)` the rest. A first
character outside that plane is two code units: `charAt(0)` is its high
surrogate alone, which has no upper case and which `toUpperCase` returns
unchanged, and `slice(1)` starts with its low surrogate, so the concatenation
is the string itself. -/
def capitalizeOr (B : JSBuiltins) (s : Option String) (fallback : String) : String :=
  match s with
  | none => fallback
  | some t =>
    match t.data with
    | [] => fallback
    | c :: cs => if c.toNat < 65536 then B.toUpperCase ⟨[c]⟩ ++ ⟨cs⟩ else t

/-- The `countryName` of the City component. -/
def cityCountryName (B : JSBuiltins) (country : Option String) : String :=
  capitalizeOr B country ""

/-- The `displayName` of the City component. -/
def cityDisplayName (B : JSBuiltins) (city : Option String) : String :=
  capitalizeOr B city "Destination"

/-- The expression `a || b` on strings: `b` when `a` is null or empty. -/
def orElse (a : Option String) (b : String) : String :=
  match a with
  | none => b
  | some u => if u.data.isEmpty then b else u

/-- The `initialData.places` template. -/
def templatePlaces : List TemplateEntry :=
  [ { name := "City Center", query := "downtown square", descriptor := some "Heart of the City" },
    { name := "National Museum", query := "museum architecture", descriptor := some "History & Art" },
    { name := "Central Park", query := "park garden", descriptor := some "Nature & Relax" },
    { name := "Local Market", query := "market food", descriptor := some "Shopping & Cuisine" },
    { name := "Historic Old Town", query := "old street", descriptor := some "Heritage" },
    { name := "Waterfront / Viewpoint", query := "river view", descriptor := some "Scenic Views" } ]

/-- The `initialData.interests` template. -/
def templateInterests : List TemplateEntry :=
  [ { name := "History & Landmarks", query := "history landmark" },
    { name := "Food & Dining", query := "food restaurant" },
    { name := "Art & Culture", query := "art gallery" },
    { name := "Nightlife", query := "night city" } ]

/-- The hero placeholder `initialData.image`. -/
def heroPlaceholder (city : String) : String :=
  "https://loremflickr.com/1600/900/" ++ city ++ ",city,landmark"

/-- The call `s.replace(a, b)` with a one-character string pattern: only the
first occurrence is replaced. -/
def replaceFirst (a b : Char) : List Char → List Char
  | [] => []
  | c :: cs => if c = a then b :: cs else c :: replaceFirst a b cs

/-- The expression `query.replace(' ', ',')`. -/
def queryTags (query : String) : String :=
  ⟨replaceFirst ' ' ',' query.data⟩

/-- The placeholder of a template place. -/
def placePlaceholder (city query : String) : String :=
  "https://loremflickr.com/800/600/" ++ city ++ "," ++ queryTags query

/-- The placeholder of a template interest. -/
def interestPlaceholder (city query : String) : String :=
  "https://loremflickr.com/600x800/" ++ city ++ "," ++ queryTags query

/-- The async callback mapped over `initialData.places`: one image call, then
the entry with its image. -/
def placePromise (A : CityAdapters) (city : String) (place : TemplateEntry) :
    Except Rejection Place :=
  match A.getUnsplashImage (city ++ " " ++ place.query) with
  | .error e => .error e
  | .ok img =>
    .ok { name := place.name, query := some place.query, descriptor := place.descriptor,
          image := some (orElse img (placePlaceholder city place.query)) }

/-- The async callback mapped over `initialData.interests`. -/
def interestPromise (A : CityAdapters) (city : String) (interest : TemplateEntry) :
    Except Rejection Interest :=
  match A.getUnsplashImage (city ++ " " ++ interest.query) with
  | .error e => .error e
  | .ok img =>
    .ok { name := interest.name, query := interest.query,
          image := some (orElse img (interestPlaceholder city interest.query)) }

/-- Awaiting `Promise.all`: the values in order, or a rejection when a promise
rejects. -/
def promiseAll {α : Type} : List (Except Rejection α) → Except Rejection (List α)
  | [] => .ok []
  | .error e :: _ => .error e
  | .ok a :: rest =>
    match promiseAll rest with
    | .error e => .error e
    | .ok as => .ok (a :: as)

/-- The object `initialData` without its places and interests, which the
committed model replaces. -/
def initialData (B : JSBuiltins) (city : String) (country : Option String) : CityInfo :=
  let countryName := cityCountryName B country
  let displayName := cityDisplayName B (some city)
  { name := displayName
    identity := "The heartbeat of " ++ orElse (some countryName) "the region"
    image := heroPlaceholder city
    quickFacts :=
      { region := orElse (some countryName) "Local Region"
        bestTime := "Year-round"
        knownFor := "Culture & Sights"
        duration := "3\u00e2\u20ac\u201c4 Days"
        vibe := "Vibrant & Welcoming" }
    places := templatePlaces.map (fun t =>
      { name := t.name, query := some t.query, descriptor := t.descriptor })
    interests := templateInterests.map (fun t =>
      { name := t.name, query := t.query, image := none })
    tips := [ "Explore " ++ displayName ++ " by walking to soak in the atmosphere.",
              "Try the local street food for authentic flavors.",
              "Visit main attractions early to avoid crowds." ] }

/-- The `try` block of loadCityData: the state after it and whether it threw.
The awaits are taken in source order; a rejected await leaves the block at once,
keeping the state written so far. -/
def loadCityDataTry (B : JSBuiltins) (A : CityAdapters) (city : String) (country : Option String)
    (s : CityPageState) : CityPageState × Except Rejection Unit :=
  match A.getUnsplashImage (city ++ " city landmark") with
  | .error e => (s, .error e)
  | .ok mainImage =>
    match A.getCityCoordinates city with
    | .error e => (s, .error e)
    | .ok coords =>
      let s1 := match coords with
        | some c => { s with mapCenter := some (c.lat, c.lon) }
        | none => s
      match A.fetchPlacesForCity city with
      | .error e => (s1, .error e)
      | .ok found =>
        let resolved : Except Rejection (List Place) :=
          match found with
          | some (p :: ps) => .ok (p :: ps)
          | _ => promiseAll (templatePlaces.map (placePromise A city))
        match resolved with
        | .error e => (s1, .error e)
        | .ok dynamicPlaces =>
          match promiseAll (templateInterests.map (interestPromise A city)) with
          | .error e => (s1, .error e)
          | .ok resolvedInterests =>
            let model : CityInfo :=
              { initialData B city country with
                image := orElse mainImage (initialData B city country).image
                places := dynamicPlaces
                interests := resolvedInterests }
            ({ s1 with cityInfo := some model }, .ok ())

/-- The routine loadCityData: loading is set, the `try` block runs, a thrown
error is caught and logged, and `finally` clears loading. -/
def loadCityData (B : JSBuiltins) (A : CityAdapters) (city : String) (country : Option String)
    (s : CityPageState) : CityPageState :=
  let s0 := { s with loading := true }
  let s1 := (loadCityDataTry B A city country s0).1
  { s1 with loading := false }

/-- The routine loadNearbyCities: the list is stored, a thrown error is caught. -/
def loadNearbyCities (A : CityAdapters) (city : String) (s : CityPageState) : CityPageState :=
  match A.fetchCitiesNearCity city with
  | .ok nearby => { s with nearbyCities := nearby }
  | .error _ => s

/-- The effect of the City component on `[city, countryName]`: both routines run
when `city` is truthy. -/
def cityEffect (B : JSBuiltins) (A : CityAdapters) (city country : Option String)
    (s : CityPageState) : CityPageState :=
  match city with
  | none => s
  | some c =>
    if c.data.isEmpty then s
    else loadNearbyCities A c (loadCityData B A c country s)

/-! ## Sample inputs -/

/-- A place with string coordinates and no override link. -/
def samplePlace : Place :=
  { name := "Eiffel Tower", descriptor := some "Landmark", lat := .str "48.8584",
    lon := .str "2.2945", image := some "https://img.example/eiffel.jpg" }

/-- The marker MapMarkers renders for `samplePlace` at index 0. -/
def sampleMarker : Marker :=
  { key := 0
    position := (.fin 48.8584, .fin 2.2945)
    iconImage := some "https://img.example/eiffel.jpg"
    popup :=
      { image := some "https://img.example/eiffel.jpg"
        descriptor := some "Landmark"
        name := "Eiffel Tower"
        directionsHref := "https://www.google.com/maps/dir/?api=1&destination=48.8584,2.2945"
        detailsTo := "/attraction/eiffel-tower" } }

/-- Adapters in which every call resolves to nothing. -/
def emptyAdapters : CityAdapters where
  getUnsplashImage _ := .ok none
  getCityCoordinates _ := .ok none
  fetchPlacesForCity _ := .ok (some [])
  fetchCitiesNearCity _ := .ok []

/-- Builtins that, beyond the letters A to Z, know the upper case of the Deseret
small letters U+10428 to U+1044F: the letter 40 code points below. -/
def deseretBuiltins : JSBuiltins where
  toLowerCase := asciiBuiltins.toLowerCase
  toUpperCase s := ⟨s.data.map (fun c =>
    if 0x10428 ≤ c.toNat ∧ c.toNat ≤ 0x1044F then Char.ofNat (c.toNat - 40) else c.toUpper)⟩
  numberToString := asciiBuiltins.numberToString

/-- A city slug whose first character, the Deseret small letter U+10437, lies
outside the Basic Multilingual Plane; its second character is the letter x. -/
def deseretSlug : String := ⟨[Char.ofNat 0x10437, 'x']⟩

/-! ## City.jsx: what the page shows -/

/-- What the City component returns: the spinner while loading, the
"City not found" message when there is no model, the page otherwise. -/
inductive CityView where
  | loading
  | notFound
  | page (model : CityInfo) (nearbyCities : List NeighborRef) (mapCenter : Option Center)
  deriving DecidableEq

/-- The return statements of the City component, in source order. -/
def cityView (s : CityPageState) : CityView :=
  if s.loading then .loading
  else
    match s.cityInfo with
    | none => .notFound
    | some model => .page model s.nearbyCities s.mapCenter

/-! ## Country.jsx -/

/-- The value of a property of a country object: a scalar or an array of
scalars. -/
inductive PropVal where
  | scalar (v : JSVal)
  | array (items : List JSVal)
  deriving DecidableEq

/-- ToBoolean of a property value (an array is truthy). -/
def PropVal.truthy : PropVal → Bool
  | .scalar v => v.truthy
  | .array _ => true

/-- ToString of a property value inside a template literal (an array joins its
elements with commas, undefined and null elements as empty strings). -/
def PropVal.toStr (B : JSBuiltins) : PropVal → String
  | .scalar v => v.toStr B
  | .array items =>
    ",".intercalate (items.map (fun v =>
      match v with
      | .undefined => ""
      | .null => ""
      | w => w.toStr B))

/-- The expression `a || b` on property values. -/
def PropVal.or (a b : PropVal) : PropVal :=
  if a.truthy then a else b

/-- The properties of an object literal in the order they are written; a later
property with the same key overwrites an earlier one. -/
abbrev Props := List (String × PropVal)

/-- The property read `o.k`: the last property written under `k`, undefined
when there is none. -/
def getProp (o : Props) (k : String) : PropVal :=
  match (o.filter (fun p => p.1 == k)).getLast? with
  | some p => p.2
  | none => .scalar .undefined

/-- The object has a property under `k`. -/
def hasKey (o : Props) (k : String) : Bool :=
  o.any (fun p => p.1 == k)

/-- A city of a country page. -/
structure CityRef where
  name : String
  image : Option String := none
  description : Option String := none
  lat : JSVal := .undefined
  lon : JSVal := .undefined
  deriving DecidableEq

/-- A category tile. -/
structure Category where
  name : String
  query : Option String := none
  description : Option String := none
  featured : Bool := false
  isMap : Bool := false
  image : Option String := none
  deriving DecidableEq

/-- An entry of the static catalog `countryData`. The four keys the page reads
by name are fields; `props` holds every other key of the entry. -/
structure StaticCountry where
  description : Option String := none
  image : Option String := none
  cities : Option (List CityRef) := none
  categories : Option (List Category) := none
  props : Props := []
  deriving DecidableEq

/-- The object `data.apiData.name`. -/
structure RawName where
  common : JSVal := .undefined
  deriving DecidableEq

/-- The object `data.apiData`. -/
structure RawCountry where
  name : Option RawName := none
  cca2 : JSVal := .undefined
  deriving DecidableEq

/-- What `fetchCountry` resolves to. `props` holds the keys with scalar or
array values (name, capital, region, subregion, population, ...),
`capitalLatlng` is `capitalInfo?.latlng` and `apiData` the nested record. -/
structure CountryRecord where
  props : Props := []
  capitalLatlng : Option (List JSVal) := none
  apiData : Option RawCountry := none
  deriving DecidableEq

/-- The adapters the country page calls. -/
structure CountryAdapters where
  fetchCountry : String → Except Rejection (Option CountryRecord)
  getUnsplashImage : String → Except Rejection (Option String)
  fetchCitiesByCountry : JSVal → JSVal → Except Rejection (List CityRef)

/-- The state of the Country component. -/
structure CountryPageState where
  apiData : Option CountryRecord := none
  dynamicCities : List CityRef := []
  countryImage : Option String := none
  dynamicCategories : List Category := []
  loading : Bool := true
  error : Option String := none
  deriving DecidableEq

/-- The state of a freshly mounted Country component. -/
def CountryPageState.mounted : CountryPageState := {}

/-- An adapter call getCountryData issues. -/
inductive CountryCall where
  | fetchCountry (countryName : String)
  | getUnsplashImage (query : String)
  | fetchCitiesByCountry (common cca2 : JSVal)
  deriving DecidableEq

/-- A state write made by a `then` handler once its promise has resolved. -/
inductive CountryUpdate where
  | setCountryImage (img : String)
  | setDynamicCities (cities : List CityRef)
  | setDynamicCategories (categories : List Category)
  deriving DecidableEq

/-- The state after a write. -/
def CountryUpdate.apply (s : CountryPageState) : CountryUpdate → CountryPageState
  | .setCountryImage img => { s with countryImage := some img }
  | .setDynamicCities cities => { s with dynamicCities := cities }
  | .setDynamicCategories categories => { s with dynamicCategories := categories }

/-- One run of getCountryData: the state when the routine itself has finished
(after `finally`), the adapter calls it issued in order, and the writes its
`then` handlers make afterwards, one for each promise that resolves. -/
structure CountryRun where
  state : CountryPageState
  calls : List CountryCall
  pending : List CountryUpdate
  deriving DecidableEq

/-- The state once every pending handler has run. -/
def CountryRun.settled (r : CountryRun) : CountryPageState :=
  r.pending.foldl CountryUpdate.apply r.state

/-- An entry of the `defaults` array of getCountryData. -/
structure CategoryTemplate where
  name : String
  query : String
  description : String
  featured : Bool := false
  deriving DecidableEq

/-- The `defaults` array of getCountryData. -/
def defaultCategories : List CategoryTemplate :=
  [ { name := "Culture", query := "culture tradition",
      description := "Heritage, arts, and local traditions", featured := true },
    { name := "Nature", query := "nature landscape",
      description := "Scenic landscapes and natural wonders" },
    { name := "Food", query := "food cuisine",
      description := "Local cuisine and culinary delights" },
    { name := "Adventure", query := "adventure travel",
      description := "Outdoor activities and exploration" } ]

/-- The fallback image of a default category. -/
def categoryPlaceholder (B : JSBuiltins) (common : String) (cat : CategoryTemplate) : String :=
  "https://loremflickr.com/800/600/" ++ common ++ "," ++ B.toLowerCase cat.name

/-- The async callback mapped over `defaults`: one image call, then the entry
with its image. -/
def categoryPromise (B : JSBuiltins) (A : CountryAdapters) (common : String)
    (cat : CategoryTemplate) : Except Rejection Category :=
  match A.getUnsplashImage (common ++ " " ++ cat.query) with
  | .error e => .error e
  | .ok img =>
    .ok { name := cat.name, query := some cat.query, description := some cat.description,
          featured := cat.featured,
          image := some (orElse img (categoryPlaceholder B common cat)) }

/-- The test `staticData?.cities?.length > 0`. -/
def hasStaticCities (staticData : Option StaticCountry) : Bool :=
  match staticData with
  | none => false
  | some entry =>
    match entry.cities with
    | none => false
    | some cities => decide (cities.length > 0)

/-- The message of the TypeError a property read on undefined or null throws. -/
def typeErrorMessage : String := "TypeError"

/-- The routine getCountryData. The only awaited call is fetchCountry; the image,
cities and category promises are left to their `then` handlers. Reading
`data.apiData.name.common` throws when `data`, `data.apiData` or
`data.apiData.name` is missing, after `setApiData(data)`. -/
def getCountryData (B : JSBuiltins) (A : CountryAdapters) (countryName : String)
    (staticData : Option StaticCountry) (s : CountryPageState) : CountryRun :=
  let s0 := { s with loading := true, error := none }
  match A.fetchCountry countryName with
  | .error e =>
    { state := { s0 with error := some e, loading := false },
      calls := [.fetchCountry countryName], pending := [] }
  | .ok data =>
    let s1 := { s0 with apiData := data }
    let thrown : CountryRun :=
      { state := { s1 with error := some typeErrorMessage, loading := false },
        calls := [.fetchCountry countryName], pending := [] }
    match data with
    | none => thrown
    | some d =>
      match d.apiData with
      | none => thrown
      | some raw =>
        match raw.name with
        | none => thrown
        | some rawName =>
          let common := rawName.common.toStr B
          let imageQuery := common ++ " country landmark"
          let imageWrite : List CountryUpdate :=
            match A.getUnsplashImage imageQuery with
            | .ok (some img) => if img.data.isEmpty then [] else [.setCountryImage img]
            | .ok none => []
            | .error _ => []
          let fetchCities := !hasStaticCities staticData && rawName.common.truthy
          let citiesCall : List CountryCall :=
            if fetchCities then [.fetchCitiesByCountry rawName.common raw.cca2] else []
          let citiesWrite : List CountryUpdate :=
            if fetchCities then
              match A.fetchCitiesByCountry rawName.common raw.cca2 with
              | .ok cities => [.setDynamicCities cities]
              | .error _ => []
            else []
          let categoryCalls : List CountryCall :=
            defaultCategories.map (fun cat => .getUnsplashImage (common ++ " " ++ cat.query))
          let categoriesWrite : List CountryUpdate :=
            match promiseAll (defaultCategories.map (categoryPromise B A common)) with
            | .ok categories => [.setDynamicCategories categories]
            | .error _ => []
          { state := { s1 with loading := false },
            calls := [.fetchCountry countryName, .getUnsplashImage imageQuery] ++ citiesCall
              ++ categoryCalls,
            pending := imageWrite ++ citiesWrite ++ categoriesWrite }

/-- The effect of the Country component on `[countryName]`. -/
def countryEffect (B : JSBuiltins) (A : CountryAdapters) (countryName : Option String)
    (staticData : Option StaticCountry) (s : CountryPageState) : CountryRun :=
  match countryName with
  | none => { state := s, calls := [], pending := [] }
  | some n =>
    if n.data.isEmpty then { state := s, calls := [], pending := [] }
    else getCountryData B A n staticData s

/-- The lookup `countryData[countryName?.toLowerCase()]`. -/
def staticDataOf (B : JSBuiltins) (countryData : String → Option StaticCountry)
    (countryName : Option String) : Option StaticCountry :=
  match countryName with
  | none => countryData "undefined"
  | some n => countryData (B.toLowerCase n)

/-- The capital entry pushed when no city was found. A truthy `capital` is
taken as its string. -/
def capitalCity (B : JSBuiltins) (countryName : String) (apiData : CountryRecord) : CityRef :=
  let capital := getProp apiData.props "capital"
  { name := if capital.truthy then capital.toStr B else "Capital City"
    image := some ("https://loremflickr.com/800/600/"
      ++ (if capital.truthy then capital.toStr B else countryName) ++ ",city")
    description := some ("The bustling heart of " ++ (getProp apiData.props "name").toStr B
      ++ ", full of history and life.")
    lat := (apiData.capitalLatlng.bind (fun l => l[0]?)).getD .undefined
    lon := (apiData.capitalLatlng.bind (fun l => l[1]?)).getD .undefined }

/-- The array `citiesToUse` after the fallback push. -/
def citiesToUse (B : JSBuiltins) (countryName : String) (staticData : Option StaticCountry)
    (st : CountryPageState) : List CityRef :=
  let base : List CityRef :=
    match staticData.bind (fun entry => entry.cities) with
    | some (c :: cs) => c :: cs
    | _ => if st.dynamicCities.length > 0 then st.dynamicCities else []
  match st.apiData with
  | some apiData => if base.length = 0 then base ++ [capitalCity B countryName apiData] else base
  | none => base

/-- The value `categoriesToUse`. -/
def categoriesToUse (staticData : Option StaticCountry) (st : CountryPageState) : List Category :=
  match staticData.bind (fun entry => entry.categories) with
  | some categories => categories
  | none => if st.dynamicCategories.length > 0 then st.dynamicCategories else []

/-- The object `country` the page renders. `props` are the keys of the two
spreads, static first; the four keys written after the spreads are fields. -/
structure CountryModel where
  props : Props
  description : String
  image : String
  cities : List CityRef
  categories : List Category
  deriving DecidableEq

/-- The object literal `country`. -/
def countryModel (B : JSBuiltins) (countryName : String) (staticData : Option StaticCountry)
    (st : CountryPageState) : CountryModel :=
  { props :=
      (match staticData with
        | some entry => entry.props
        | none => [])
      ++ (match st.apiData with
        | some apiData => apiData.props
        | none => [])
    description := orElse (staticData.bind (fun entry => entry.description))
      (match st.apiData with
        | some apiData =>
          "Explore " ++ (getProp apiData.props "name").toStr B ++ " located in "
            ++ ((getProp apiData.props "subregion").or (getProp apiData.props "region")).toStr B
            ++ "."
        | none => "")
    image := orElse st.countryImage
      (orElse (staticData.bind (fun entry => entry.image))
        (match st.apiData with
          | some apiData =>
            "https://loremflickr.com/1600/900/" ++ (getProp apiData.props "name").toStr B
              ++ ",landmark"
          | none => ""))
    cities := citiesToUse B countryName staticData st
    categories := categoriesToUse staticData st }

/-- What the Country component returns. -/
inductive CountryView where
  | notFound
  | loading
  | page (country : CountryModel)
  deriving DecidableEq

/-- The return statements of the Country component, in source order. -/
def countryView (B : JSBuiltins) (countryName : String) (staticData : Option StaticCountry)
    (st : CountryPageState) : CountryView :=
  if staticData.isNone && st.apiData.isNone && !st.loading then .notFound
  else if st.loading then .loading
  else .page (countryModel B countryName staticData st)

/-! ## Sample inputs of the pages -/

/-- City adapters whose geocoder rejects and whose other calls resolve. -/
def geocodeRejects : CityAdapters where
  getUnsplashImage _ := .ok (some "https://img.example/x.jpg")
  getCityCoordinates _ := .error "network error"
  fetchPlacesForCity _ := .ok (some [])
  fetchCitiesNearCity _ := .ok []

/-- City adapters whose place finder returns one place without an image. -/
def placeWithoutImage : CityAdapters where
  getUnsplashImage _ := .ok none
  getCityCoordinates _ := .ok none
  fetchPlacesForCity _ := .ok (some [{ name := "Louvre" }])
  fetchCitiesNearCity _ := .ok []

/-- A record of the country data source for France. -/
def sampleRecord : CountryRecord :=
  { props := [("name", .scalar (.str "France")), ("capital", .scalar (.str "Paris")),
              ("region", .scalar (.str "Europe")), ("subregion", .scalar (.str "Western Europe")),
              ("population", .scalar (.num (.fin 67391582)))]
    capitalLatlng := some [.num (.fin 48.87), .num (.fin 2.33)]
    apiData := some { name := some { common := .str "France" }, cca2 := .str "FR" } }

/-- A record without a capital. -/
def recordWithoutCapital : CountryRecord :=
  { props := [("name", .scalar (.str "Antarctica")), ("region", .scalar (.str "Antarctic"))]
    apiData := some { name := some { common := .str "Antarctica" }, cca2 := .str "AQ" } }

/-- A static entry with cities, categories, a description and an image. -/
def sampleStatic : StaticCountry :=
  { description := some "Art, wine and the Alps."
    image := some "https://img.example/france.jpg"
    cities := some [{ name := "Lyon", image := some "https://img.example/lyon.jpg" },
                    { name := "Nice" }]
    categories := some [{ name := "Wine", image := some "https://img.example/wine.jpg" }]
    props := [("name", .scalar (.str "La France")), ("motto", .scalar (.str "Liberté"))] }

/-- A static entry that has only a name. -/
def bareStatic : StaticCountry :=
  { props := [("name", .scalar (.str "Atlantis"))] }

/-- Country adapters in which the data source resolves to `sampleRecord` and
every other call resolves to nothing. -/
def sampleCountryAdapters : CountryAdapters where
  fetchCountry _ := .ok (some sampleRecord)
  getUnsplashImage _ := .ok none
  fetchCitiesByCountry _ _ := .ok []

/-- Country adapters whose data source rejects. -/
def countryRejects : CountryAdapters where
  fetchCountry _ := .error "Country not found"
  getUnsplashImage _ := .ok none
  fetchCitiesByCountry _ _ := .ok []

/-- Country adapters in which the data source resolves to the record without a
capital and every other call resolves to nothing. -/
def noCapitalAdapters : CountryAdapters where
  fetchCountry _ := .ok (some recordWithoutCapital)
  getUnsplashImage _ := .ok none
  fetchCitiesByCountry _ _ := .ok []

/-- The state of a Country page on which the resolution of the slug "france",
started on the freshly mounted page, has settled. -/
def franceSettled : CountryPageState :=
  (getCountryData asciiBuiltins sampleCountryAdapters "france" none .mounted).settled

/-! ## Page sections that depend on the lists -/

/-- Whether the "Explore Nearby" section is on screen: it is part of the page the
City component returns last, under `nearbyCities.length > 0 &&`. -/
def exploreNearbyShown : CityView → Bool
  | .page _ nearbyCities _ => decide (nearbyCities.length > 0)
  | .loading => false
  | .notFound => false

/-- The `places` prop of the country map:
`country.cities.map(c => ({...c, descriptor: "Major City", link: ...}))`. The
description of a city, which the map never reads, is not carried. -/
def countryMapPoints (B : JSBuiltins) (countryName : String) (cities : List CityRef) :
    List Place :=
  cities.map (fun c =>
    { name := c.name, image := c.image, lat := c.lat, lon := c.lon
      descriptor := some "Major City"
      link := some ("/country/" ++ countryName ++ "/city/" ++ B.toLowerCase c.name) })

/-- The guard `country.latlng ?` of the map section. -/
def countryMapShown (country : CountryModel) : Bool :=
  (getProp country.props "latlng").truthy

/-- The children MapMarkers renders on the country page; `none` when the guard
fails and "Map data unavailable" is shown instead of the map. -/
def countryMapMarkers (B : JSBuiltins) (countryName : String) (country : CountryModel) :
    Option (Except String (List (Option Marker))) :=
  if countryMapShown country then
    some (MapMarkers B (some (countryMapPoints B countryName country.cities)))
  else none

/-- City adapters for "lyon": every call resolves, the neighbour lookup to one
neighbour. -/
def lyonAdapters : CityAdapters where
  getUnsplashImage _ := .ok none
  getCityCoordinates _ := .ok (some { lat := .str "45.76", lon := .str "4.83" })
  fetchPlacesForCity _ := .ok (some [])
  fetchCitiesNearCity _ := .ok [{ name := "Vienne" }]

/-- City adapters whose neighbour lookup rejects and whose other calls resolve
to nothing. -/
def neighborRejects : CityAdapters where
  getUnsplashImage _ := .ok none
  getCityCoordinates _ := .ok none
  fetchPlacesForCity _ := .ok (some [])
  fetchCitiesNearCity _ := .error "network error"

/-! ## Resolutions that overlap

The pages start a resolution in an effect and never cancel one. A resolution is
a set of routines; each routine runs in segments, one for each response it
awaits, and a segment makes its state writes when that response arrives. -/

/-- An event of a page: a resolution is started for an identifier, or the
response that a routine in flight awaits arrives. -/
inductive PageEvent (ι : Type) where
  | start (id : ι)
  | respond (routine : Nat)
  deriving DecidableEq

/-- The part of a routine that runs when one awaited response arrives: its state
writes, and the writes of the `then` handlers of the promises it starts (each
handler runs later, when its own promise resolves). -/
structure Segment (W : Type) where
  writes : List W
  handlers : List (List W) := []
  deriving DecidableEq

/-- What starting a resolution does: the writes made at once, before the first
await, and the routines left in flight. -/
structure Resolution (W : Type) where
  atStart : List W
  routines : List (List (Segment W))

/-- A page with resolutions in flight: its state, the segments each routine has
still to run, and the writes made so far in the order they were made. -/
structure PageConfig (σ W : Type) where
  state : σ
  inFlight : List (List (Segment W)) := []
  log : List W := []

/-- One event. A start makes the writes of the synchronous part and puts the
routines in flight next to those already there; a response runs the next
segment of its routine. An event for a routine that awaits nothing is not
possible. -/
def PageConfig.step {σ W ι : Type} (apply : σ → W → σ) (resolve : ι → Resolution W)
    (c : PageConfig σ W) : PageEvent ι → Option (PageConfig σ W)
  | .start id =>
    some { state := (resolve id).atStart.foldl apply c.state
           inFlight := c.inFlight ++ (resolve id).routines
           log := c.log ++ (resolve id).atStart }
  | .respond i =>
    match c.inFlight[i]? with
    | some (seg :: rest) =>
      some { state := seg.writes.foldl apply c.state
             inFlight := c.inFlight.set i rest ++ seg.handlers.map (fun h => [{ writes := h }])
             log := c.log ++ seg.writes }
    | _ => none

/-- A sequence of events, `none` when one of them is not possible. -/
def PageConfig.run {σ W ι : Type} (apply : σ → W → σ) (resolve : ι → Resolution W) :
    PageConfig σ W → List (PageEvent ι) → Option (PageConfig σ W)
  | c, [] => some c
  | c, e :: es =>
    match c.step apply resolve e with
    | some c2 => PageConfig.run apply resolve c2 es
    | none => none

/-- Every response has arrived: no routine has a segment left. -/
def PageConfig.quiescent {σ W : Type} (c : PageConfig σ W) : Bool :=
  c.inFlight.all List.isEmpty

/-- All writes of a segment, its handlers included. -/
def Segment.allWrites {W : Type} (seg : Segment W) : List W :=
  seg.writes ++ seg.handlers.flatten

/-- All writes of the routines. -/
def routineWrites {W : Type} (routines : List (List (Segment W))) : List W :=
  (routines.flatten.map Segment.allWrites).flatten

/-- A write to the state of the City component. -/
inductive CityWrite where
  | setLoading (b : Bool)
  | setMapCenter (center : Center)
  | setCityInfo (model : CityInfo)
  | setNearbyCities (cities : List NeighborRef)
  deriving DecidableEq

/-- The state after a write. -/
def CityWrite.apply (s : CityPageState) : CityWrite → CityPageState
  | .setLoading b => { s with loading := b }
  | .setMapCenter center => { s with mapCenter := some center }
  | .setCityInfo model => { s with cityInfo := some model }
  | .setNearbyCities cities => { s with nearbyCities := cities }

/-- The segments of loadCityData after its synchronous start, one for each
await in source order: the hero image, the coordinates, the places, the images
of the template places (when the places are missing), the images of the
interests. A rejected await ends the routine with the write of `finally`. -/
def loadCityDataSegments (B : JSBuiltins) (A : CityAdapters) (city : String)
    (country : Option String) : List (Segment CityWrite) :=
  match A.getUnsplashImage (city ++ " city landmark") with
  | .error _ => [{ writes := [.setLoading false] }]
  | .ok mainImage =>
    { writes := [] } ::
    match A.getCityCoordinates city with
    | .error _ => [{ writes := [.setLoading false] }]
    | .ok coords =>
      { writes := match coords with
          | some c => [.setMapCenter (c.lat, c.lon)]
          | none => [] } ::
      match A.fetchPlacesForCity city with
      | .error _ => [{ writes := [.setLoading false] }]
      | .ok found =>
        let commit (dynamicPlaces : List Place) : List (Segment CityWrite) :=
          match promiseAll (templateInterests.map (interestPromise A city)) with
          | .error _ => [{ writes := [.setLoading false] }]
          | .ok resolvedInterests =>
            [{ writes :=
                [.setCityInfo
                    { initialData B city country with
                      image := orElse mainImage (initialData B city country).image
                      places := dynamicPlaces
                      interests := resolvedInterests },
                 .setLoading false] }]
        match found with
        | some (p :: ps) => { writes := [] } :: commit (p :: ps)
        | _ =>
          { writes := [] } ::
          match promiseAll (templatePlaces.map (placePromise A city)) with
          | .error _ => [{ writes := [.setLoading false] }]
          | .ok dynamicPlaces => { writes := [] } :: commit dynamicPlaces

/-- The one segment of loadNearbyCities. -/
def loadNearbyCitiesSegments (A : CityAdapters) (city : String) : List (Segment CityWrite) :=
  match A.fetchCitiesNearCity city with
  | .ok nearby => [{ writes := [.setNearbyCities nearby] }]
  | .error _ => [{ writes := [] }]

/-- Starting the resolution of a city: `setLoading(true)` at once, then the two
routines loadCityData and loadNearbyCities in flight. -/
def cityResolution (B : JSBuiltins) (A : CityAdapters) (id : String × Option String) :
    Resolution CityWrite :=
  { atStart := [.setLoading true]
    routines := [loadCityDataSegments B A id.1 id.2, loadNearbyCitiesSegments A id.1] }

/-- A write to the state of the Country component. -/
inductive CountryWrite where
  | setLoading (b : Bool)
  | setError (e : Option String)
  | setApiData (data : Option CountryRecord)
  | update (u : CountryUpdate)
  deriving DecidableEq

/-- The state after a write. -/
def CountryWrite.apply (s : CountryPageState) : CountryWrite → CountryPageState
  | .setLoading b => { s with loading := b }
  | .setError e => { s with error := e }
  | .setApiData data => { s with apiData := data }
  | .update u => CountryUpdate.apply s u

/-- The segment of getCountryData that runs when the response of fetchCountry
arrives, with the handlers of the promises it starts and that resolve. -/
def getCountryDataSegment (B : JSBuiltins) (A : CountryAdapters) (countryName : String)
    (staticData : Option StaticCountry) : Segment CountryWrite :=
  match A.fetchCountry countryName with
  | .error e => { writes := [.setError (some e), .setLoading false] }
  | .ok data =>
    let thrown : Segment CountryWrite :=
      { writes := [.setApiData data, .setError (some typeErrorMessage), .setLoading false] }
    match data with
    | none => thrown
    | some d =>
      match d.apiData with
      | none => thrown
      | some raw =>
        match raw.name with
        | none => thrown
        | some _ =>
          { writes := [.setApiData data, .setLoading false]
            handlers :=
              (getCountryData B A countryName staticData .mounted).pending.map
                (fun u => [.update u]) }

/-- Starting the resolution of a country: `setLoading(true)` and
`setError(null)` at once, then getCountryData in flight. -/
def countryResolution (B : JSBuiltins) (A : CountryAdapters)
    (id : String × Option StaticCountry) : Resolution CountryWrite :=
  { atStart := [.setLoading true, .setError none]
    routines := [[getCountryDataSegment B A id.1 id.2]] }

/-- City adapters that answer for "lyon" with coordinates and one neighbour and
for every other city with nothing. -/
def lyonNiceAdapters : CityAdapters where
  getUnsplashImage _ := .ok none
  getCityCoordinates city :=
    if city = "lyon" then .ok (some { lat := .str "45.76", lon := .str "4.83" }) else .ok none
  fetchPlacesForCity _ := .ok (some [])
  fetchCitiesNearCity city := if city = "lyon" then .ok [{ name := "Vienne" }] else .ok []

/-- The schedule in which "lyon" is started, then "nice", the five responses of
loadCityData and the response of loadNearbyCities for "nice" arrive, and then
those for "lyon". -/
def lyonLate : List (PageEvent (String × Option String)) :=
  [.start ("lyon", some "france"), .start ("nice", some "france"),
   .respond 2, .respond 2, .respond 2, .respond 2, .respond 2, .respond 3,
   .respond 0, .respond 0, .respond 0, .respond 0, .respond 0, .respond 1]

/-! ## Lemmas on the embedding -/

theorem truthy_eq_present_and (v : JSVal) : v.truthy = (v.present && !v.zeroOrNaN) := by
  cases v with
  | undefined => rfl
  | null => rfl
  | str s => simp [JSVal.truthy, JSVal.present, JSVal.zeroOrNaN]
  | num n =>
    cases n with
    | nan => rfl
    | infinity b => rfl
    | fin q => by_cases h : q = 0 <;> simp [JSVal.truthy, JSVal.present, JSVal.zeroOrNaN, h]

theorem present_of_truthy {v : JSVal} (h : v.truthy = true) : v.present = true := by
  rw [truthy_eq_present_and] at h
  simp at h
  exact h.1

theorem renderMarker_eq_some {B : JSBuiltins} {p : Place} {i : Nat} {m : Marker}
    (h : renderMarker B p i = some m) :
    hasCoords p = true ∧ m.key = i ∧ m.position = positionOf p ∧ m.iconImage = p.image
      ∧ m.popup = ⟨p.image, p.descriptor, p.name, directionsHref B p, detailsTo B p⟩ := by
  unfold renderMarker at h
  split at h
  · cases h
  · rename_i hc
    simp only [Option.some.injEq] at h
    subst h
    simp only [Bool.or_eq_true, Bool.not_eq_true_eq_eq_false, not_or, Bool.not_eq_false] at hc
    simp [hasCoords, positionOf, hc.1, hc.2]

theorem renderMarker_eq_none {B : JSBuiltins} {p : Place} {i : Nat} :
    renderMarker B p i = none ↔ hasCoords p = false := by
  unfold renderMarker hasCoords
  cases p.lat.truthy <;> cases p.lon.truthy <;> simp

theorem mem_mapIdx {B : JSBuiltins} {ps : List Place} {k : Nat} {o : Option Marker} :
    o ∈ mapIdx B ps k ↔ ∃ i p, ps[i]? = some p ∧ o = renderMarker B p (k + i) := by
  induction ps generalizing k with
  | nil => simp [mapIdx]
  | cons q qs ih =>
    simp only [mapIdx, List.mem_cons, ih]
    constructor
    · rintro (h | ⟨i, p, hp, ho⟩)
      · exact ⟨0, q, by simp, by simpa using h⟩
      · exact ⟨i + 1, p, by simpa using hp, by rw [ho]; congr 1; omega⟩
    · rintro ⟨i, p, hp, ho⟩
      cases i with
      | zero =>
        left
        simp at hp
        subst hp
        simpa using ho
      | succ j =>
        right
        exact ⟨j, p, by simpa using hp, by rw [ho]; congr 1; omega⟩

theorem mem_renderedMarkers {B : JSBuiltins} {ps : List Place} {m : Marker} :
    m ∈ renderedMarkers (mapIdx B ps 0) ↔ ∃ i p, ps[i]? = some p ∧ renderMarker B p i = some m := by
  unfold renderedMarkers
  simp only [List.mem_filterMap, id_eq, exists_eq_right, mem_mapIdx, Nat.zero_add]
  constructor
  · rintro ⟨i, p, hp, h⟩
    exact ⟨i, p, hp, h.symm⟩
  · rintro ⟨i, p, hp, h⟩
    exact ⟨i, p, hp, h.symm⟩

theorem updaterMarkers_eq_nil {ps : List Place} :
    updaterMarkers ps = [] ↔ ∀ p ∈ ps, hasCoords p = false := by
  simp [updaterMarkers, List.filter_eq_nil_iff]

theorem MapUpdater_of_markers {center : Option Center} {ps : List Place}
    (h : updaterMarkers ps ≠ []) :
    MapUpdater center (some ps) = [.fitBounds ⟨updaterMarkers ps⟩ (50, 50) 12] := by
  have hps : ps ≠ [] := by
    rintro rfl
    exact h rfl
  have h1 : 0 < ps.length := List.length_pos.mpr hps
  have h2 : 0 < (updaterMarkers ps).length := List.length_pos.mpr h
  simp [MapUpdater, h1, h2]

theorem MapUpdater_of_no_markers {center : Option Center} {places : Option (List Place)}
    (h : ∀ ps, places = some ps → updaterMarkers ps = []) :
    MapUpdater center places = updaterFallback center := by
  cases places with
  | none => rfl
  | some ps =>
    have := h ps rfl
    simp [MapUpdater, this]

theorem mapIdx_of_no_coords {B : JSBuiltins} {ps : List Place} {k : Nat}
    (h : ∀ p ∈ ps, hasCoords p = false) : mapIdx B ps k = List.replicate ps.length none := by
  induction ps generalizing k with
  | nil => rfl
  | cons q qs ih =>
    have hq := h q (List.mem_cons_self _ _)
    have hqs : ∀ p ∈ qs, hasCoords p = false := fun p hp => h p (List.mem_cons_of_mem _ hp)
    simp [mapIdx, renderMarker_eq_none.mpr hq, ih hqs, List.replicate_succ]

theorem renderedMarkers_positions (B : JSBuiltins) (ps : List Place) (k : Nat) :
    (renderedMarkers (mapIdx B ps k)).map Marker.position = updaterMarkers ps := by
  induction ps generalizing k with
  | nil => rfl
  | cons q qs ih =>
    have ih := ih (k + 1)
    unfold renderedMarkers updaterMarkers at *
    cases hq : hasCoords q with
    | false =>
      simp [mapIdx, renderMarker_eq_none.mpr hq, List.filter_cons, hq, ih]
    | true =>
      cases hr : renderMarker B q k with
      | none => rw [renderMarker_eq_none] at hr; simp [hq] at hr
      | some m =>
        have hm := (renderMarker_eq_some hr).2.2.1
        simp [mapIdx, hr, List.filter_cons, hq, ih, hm]

theorem filter_hasCoords_eq_present {ps : List Place}
    (h : ∀ p ∈ ps, p.lat.zeroOrNaN = false ∧ p.lon.zeroOrNaN = false) :
    ps.filter hasCoords = ps.filter (fun p => p.lat.present && p.lon.present) := by
  apply List.filter_congr
  intro p hp
  have := h p hp
  simp [hasCoords, truthy_eq_present_and, this.1, this.2]

theorem MapUpdater_fit_of_exists (center : Option Center) (ps : List Place)
    (h : ∃ p ∈ ps, (p.lat.truthy && p.lon.truthy) = true) :
    MapUpdater center (some ps)
      = [.fitBounds
          ⟨(ps.filter (fun p => p.lat.truthy && p.lon.truthy)).map
            (fun p => (parseFloat p.lat, parseFloat p.lon))⟩ (50, 50) 12] := by
  obtain ⟨p, hp, hc⟩ := h
  have hne : updaterMarkers ps ≠ [] := by
    intro hnil
    have := updaterMarkers_eq_nil.mp hnil p hp
    simp [hasCoords, hc] at this
  exact MapUpdater_of_markers hne

theorem MapUpdater_fallback_of_forall (center : Option Center) (places : Option (List Place))
    (h : ∀ ps, places = some ps → ∀ p ∈ ps, (p.lat.truthy && p.lon.truthy) = false) :
    MapUpdater center places = updaterFallback center := by
  apply MapUpdater_of_no_markers
  intro ps hps
  exact updaterMarkers_eq_nil.mpr (h ps hps)

/-! ## Map filtering (C1, C2) -/

/-- C1, as stated, fails on the scenario points: the third point, whose lat
"bad" does not parse to a number, is used for the bounds computation and gets a
marker, with a NaN latitude. -/
theorem C1_scenario_uses_unparseable_point :
    MapUpdater none (some scenarioPoints)
        = [.fitBounds ⟨[(.fin 10, .fin 20), (.nan, .fin 5)]⟩ (50, 50) 12]
      ∧ (MapMarkers asciiBuiltins (some scenarioPoints)).map
          (List.map (Option.map Marker.position))
        = .ok [some (.fin 10, .fin 20), none, some (.nan, .fin 5)]
      ∧ parseFloat (.str "bad") = .nan := by
  refine ⟨by decide!, by rfl, by decide!⟩

/-- C1, amended: every position used for the bounds computation and every
rendered marker comes from a point of the list whose lat and lon are both
present (not undefined, not null, not empty), with the parsed coordinates of
that point as position; that the coordinates parse to a number is not checked,
and of the three scenario points the first and the third are used. -/
theorem C1_used_points_have_present_coords (B : JSBuiltins) (center : Option Center)
    (ps : List Place) :
    (∀ b pad z, MapCmd.fitBounds b pad z ∈ MapUpdater center (some ps) →
        ∀ pos ∈ b.points, ∃ p ∈ ps, p.lat.present = true ∧ p.lon.present = true
          ∧ pos = (parseFloat p.lat, parseFloat p.lon))
      ∧ (∀ slots, MapMarkers B (some ps) = .ok slots → ∀ m ∈ renderedMarkers slots,
          ∃ p, ps[m.key]? = some p ∧ p.lat.present = true ∧ p.lon.present = true
            ∧ m.position = (parseFloat p.lat, parseFloat p.lon))
      ∧ updaterMarkers scenarioPoints = [(.fin 10, .fin 20), (.nan, .fin 5)]
      ∧ (renderedMarkers (mapIdx B scenarioPoints 0)).map Marker.key = [0, 2] := by
  refine ⟨?_, ?_, by decide!, ?_⟩
  · intro b pad z hmem pos hpos
    by_cases hm : updaterMarkers ps = []
    · rw [MapUpdater_of_no_markers (by intro qs hqs; cases hqs; exact hm)] at hmem
      cases center <;> simp [updaterFallback] at hmem
    · rw [MapUpdater_of_markers hm] at hmem
      simp only [List.mem_singleton, MapCmd.fitBounds.injEq] at hmem
      obtain ⟨hb, -, -⟩ := hmem
      subst hb
      simp only [updaterMarkers, List.mem_map, List.mem_filter] at hpos
      obtain ⟨p, ⟨hp, hc⟩, rfl⟩ := hpos
      simp only [hasCoords, Bool.and_eq_true] at hc
      exact ⟨p, hp, present_of_truthy hc.1, present_of_truthy hc.2, rfl⟩
  · intro slots hs m hm
    simp only [MapMarkers, Except.ok.injEq] at hs
    subst hs
    obtain ⟨i, p, hp, hr⟩ := mem_renderedMarkers.mp hm
    obtain ⟨hc, hk, hpos, -⟩ := renderMarker_eq_some hr
    simp only [hasCoords, Bool.and_eq_true] at hc
    exact ⟨p, by rw [hk]; exact hp, present_of_truthy hc.1, present_of_truthy hc.2, hpos⟩
  · rfl

/-- Witness of C1 (amended) on the scenario points: the position with the NaN
latitude comes from a point with both fields present. -/
theorem C1_used_points_have_present_coords_witness :
    ∃ p ∈ scenarioPoints, p.lat.present = true ∧ p.lon.present = true
      ∧ ((.nan, .fin 5) : Position) = (parseFloat p.lat, parseFloat p.lon) :=
  (C1_used_points_have_present_coords asciiBuiltins none scenarioPoints).1
    ⟨[(.fin 10, .fin 20), (.nan, .fin 5)]⟩ (50, 50) 12 (by decide!) (.nan, .fin 5) (by decide!)

/-- C2, as stated, fails both ways: a point whose lat is the number 0 and whose
lon is 5 is dropped (no fit, no marker), and a point whose lat "bad" fails
numeric parsing is kept (it is fitted and gets a marker). -/
theorem C2_zero_dropped_unparseable_kept :
    MapUpdater (some (.str "1", .str "2"))
        (some [pointAt "equator" (.num (.fin 0)) (.num (.fin 5))])
        = [.setView (.str "1", .str "2") 13]
      ∧ mapIdx asciiBuiltins [pointAt "equator" (.num (.fin 0)) (.num (.fin 5))] 0 = [none]
      ∧ MapUpdater none (some [pointAt "c" (.str "bad") (.str "5")])
        = [.fitBounds ⟨[(.nan, .fin 5)]⟩ (50, 50) 12]
      ∧ (mapIdx asciiBuiltins [pointAt "c" (.str "bad") (.str "5")] 0).map
          (Option.map Marker.position) = [some (.nan, .fin 5)] := by
  refine ⟨by decide!, by decide!, by decide!, by rfl⟩

/-- C2, amended: for every list of points none of whose coordinates is the
number 0 or NaN, the points the map keeps are exactly the sublist, in original
order, of the points whose lat and lon are both present (whether or not they
parse to a number), both for the bounds and for the markers, and no error is
raised. -/
theorem C2_kept_points_are_present_points (B : JSBuiltins) (ps : List Place)
    (h : ∀ p ∈ ps, p.lat.zeroOrNaN = false ∧ p.lon.zeroOrNaN = false) :
    updaterMarkers ps
        = (ps.filter (fun p => p.lat.present && p.lon.present)).map
            (fun p => (parseFloat p.lat, parseFloat p.lon))
      ∧ ∃ slots, MapMarkers B (some ps) = .ok slots
          ∧ (renderedMarkers slots).map Marker.position
            = (ps.filter (fun p => p.lat.present && p.lon.present)).map
                (fun p => (parseFloat p.lat, parseFloat p.lon)) := by
  have hf := filter_hasCoords_eq_present h
  have hu : updaterMarkers ps
      = (ps.filter (fun p => p.lat.present && p.lon.present)).map
          (fun p => (parseFloat p.lat, parseFloat p.lon)) := by
    unfold updaterMarkers
    rw [hf]
    rfl
  refine ⟨hu, mapIdx B ps 0, rfl, ?_⟩
  rw [renderedMarkers_positions, hu]

/-- Witness of C2 (amended) on the scenario points, none of whose coordinates
is the number 0 or NaN. -/
theorem C2_kept_points_are_present_points_witness :
    updaterMarkers scenarioPoints
      = (scenarioPoints.filter (fun p => p.lat.present && p.lon.present)).map
          (fun p => (parseFloat p.lat, parseFloat p.lon)) :=
  (C2_kept_points_are_present_points asciiBuiltins scenarioPoints (by decide)).1

/-! ## Viewport commands of MapUpdater (C3, C4, C5, C6) -/

/-- C3: when at least one place passes the coordinate filter, MapUpdater issues
exactly one command, fitBounds on the bounds of the parsed coordinates of the
surviving places with padding [50, 50] and maxZoom 12, and no setView, whatever
the center. -/
theorem C3_fit_bounds_when_a_place_survives (center : Option Center) (ps : List Place)
    (h : ∃ p ∈ ps, (p.lat.truthy && p.lon.truthy) = true) :
    MapUpdater center (some ps)
        = [.fitBounds
            ⟨(ps.filter (fun p => p.lat.truthy && p.lon.truthy)).map
              (fun p => (parseFloat p.lat, parseFloat p.lon))⟩ (50, 50) 12]
      ∧ ∀ c z, MapCmd.setView c z ∉ MapUpdater center (some ps) := by
  have hfit := MapUpdater_fit_of_exists center ps h
  refine ⟨hfit, ?_⟩
  intro c z hmem
  rw [hfit] at hmem
  simp at hmem

/-- Witness of C3: the scenario points with a center supplied. -/
theorem C3_fit_bounds_when_a_place_survives_witness :
    MapUpdater (some (.str "1", .str "2")) (some scenarioPoints)
        = [.fitBounds
            ⟨(scenarioPoints.filter (fun p => p.lat.truthy && p.lon.truthy)).map
              (fun p => (parseFloat p.lat, parseFloat p.lon))⟩ (50, 50) 12]
      ∧ ∀ c z, MapCmd.setView c z ∉ MapUpdater (some (.str "1", .str "2")) (some scenarioPoints) :=
  C3_fit_bounds_when_a_place_survives (some (.str "1", .str "2")) scenarioPoints
    ⟨pointAt "a" (.str "10") (.str "20"), by decide, by decide⟩

/-- C4: when no place passes the coordinate filter (places absent, empty, or
without a mappable point) and a center is supplied, MapUpdater issues exactly
one command, setView(center, 13), and no fitBounds. -/
theorem C4_set_view_when_no_place_survives (c : Center) (places : Option (List Place))
    (h : ∀ ps, places = some ps → ∀ p ∈ ps, (p.lat.truthy && p.lon.truthy) = false) :
    MapUpdater (some c) places = [.setView c 13]
      ∧ ∀ b pad z, MapCmd.fitBounds b pad z ∉ MapUpdater (some c) places := by
  have hset : MapUpdater (some c) places = [.setView c 13] :=
    MapUpdater_fallback_of_forall (some c) places h
  refine ⟨hset, ?_⟩
  intro b pad z hmem
  rw [hset] at hmem
  simp at hmem

/-- Witness of C4: a non-empty list whose only point has a null latitude. -/
theorem C4_set_view_when_no_place_survives_witness :
    MapUpdater (some (.str "1", .str "2")) (some [pointAt "b" .null (.str "5")])
        = [.setView (.str "1", .str "2") 13]
      ∧ ∀ b pad z, MapCmd.fitBounds b pad z
          ∉ MapUpdater (some (.str "1", .str "2")) (some [pointAt "b" .null (.str "5")]) :=
  C4_set_view_when_no_place_survives (.str "1", .str "2") (some [pointAt "b" .null (.str "5")])
    (by
      intro ps hps
      cases hps
      decide)

/-- C5: when no place passes the coordinate filter and no center is supplied,
CityMap renders no marker, MapUpdater issues no command, and the container is
created at center [51.505, -0.09] and zoom 13. -/
theorem C5_neutral_default_view (B : JSBuiltins) (ps : List Place)
    (h : ∀ p ∈ ps, (p.lat.truthy && p.lon.truthy) = false) :
    ∃ view, CityMap B none (some ps) = .ok view
      ∧ renderedMarkers view.markerSlots = []
      ∧ view.updaterCmds = []
      ∧ MapUpdater none (some ps) = []
      ∧ view.containerCenter = (.num (.fin 51.505), .num (.fin (-0.09)))
      ∧ view.containerZoom = 13 := by
  have hu : MapUpdater none (some ps) = [] :=
    MapUpdater_fallback_of_forall none (some ps) (by intro qs hqs; cases hqs; exact h)
  refine ⟨_, rfl, ?_, hu, hu, rfl, rfl⟩
  show renderedMarkers (mapIdx B ps 0) = []
  rw [mapIdx_of_no_coords h]
  simp [renderedMarkers]

/-- Witness of C5: two points, one without latitude and one without longitude. -/
theorem C5_neutral_default_view_witness :
    ∃ view, CityMap asciiBuiltins none
          (some [pointAt "b" .null (.str "5"), pointAt "d" (.str "5") .undefined]) = .ok view
      ∧ renderedMarkers view.markerSlots = []
      ∧ view.updaterCmds = []
      ∧ MapUpdater none (some [pointAt "b" .null (.str "5"), pointAt "d" (.str "5") .undefined]) = []
      ∧ view.containerCenter = (.num (.fin 51.505), .num (.fin (-0.09)))
      ∧ view.containerZoom = 13 :=
  C5_neutral_default_view asciiBuiltins
    [pointAt "b" .null (.str "5"), pointAt "d" (.str "5") .undefined] (by decide)

/-- C6, as stated, fails: the map is fitted to one point, then the point set
changes to the empty list with no center; the viewport after the change is still
the fit computed for the previous point set, while the new points and focus
alone give the view the container was created with. -/
theorem C6_stale_fit_after_change :
    updateStep
        (updateStep (.initial defaultCenter 13) none (some [pointAt "a" (.str "10") (.str "20")]))
        none (some [])
        = .fitted ⟨[(.fin 10, .fin 20)]⟩ (50, 50) 12
      ∧ updateStep (.initial defaultCenter 13) none (some [pointAt "a" (.str "10") (.str "20")])
        = .fitted ⟨[(.fin 10, .fin 20)]⟩ (50, 50) 12
      ∧ updateStep (.initial defaultCenter 13) none (some []) = .initial defaultCenter 13 := by
  refine ⟨by decide!, by decide!, by decide!⟩

/-- C6, amended: after a change of the props, if a place passes the coordinate
filter the viewport is the fit of the new points, and if none does and a center
is supplied it is that center at zoom 13, in both cases whatever the viewport
was before; if none does and no center is supplied, no command is issued and
the viewport stays as it was. -/
theorem C6_viewport_after_change (v : Viewport) (center : Option Center) (ps : List Place) :
    ((∃ p ∈ ps, (p.lat.truthy && p.lon.truthy) = true) →
        updateStep v center (some ps)
          = .fitted
              ⟨(ps.filter (fun p => p.lat.truthy && p.lon.truthy)).map
                (fun p => (parseFloat p.lat, parseFloat p.lon))⟩ (50, 50) 12)
      ∧ ((∀ p ∈ ps, (p.lat.truthy && p.lon.truthy) = false) → ∀ c, center = some c →
          updateStep v center (some ps) = .centered c 13)
      ∧ ((∀ p ∈ ps, (p.lat.truthy && p.lon.truthy) = false) → center = none →
          MapUpdater center (some ps) = [] ∧ updateStep v center (some ps) = v) := by
  refine ⟨?_, ?_, ?_⟩
  · intro h
    unfold updateStep
    rw [MapUpdater_fit_of_exists center ps h]
    rfl
  · intro h c hc
    subst hc
    unfold updateStep
    rw [MapUpdater_fallback_of_forall (some c) (some ps) (by intro qs hqs; cases hqs; exact h)]
    rfl
  · intro h hc
    subst hc
    have hu : MapUpdater none (some ps) = [] :=
      MapUpdater_fallback_of_forall none (some ps) (by intro qs hqs; cases hqs; exact h)
    unfold updateStep
    rw [hu]
    exact ⟨rfl, rfl⟩

/-- Witness of C6 (amended): a map fitted to one point whose points change to
the scenario points is fitted to the scenario points. -/
theorem C6_viewport_after_change_witness :
    updateStep (.fitted ⟨[(.fin 1, .fin 2)]⟩ (50, 50) 12) none (some scenarioPoints)
      = .fitted
          ⟨(scenarioPoints.filter (fun p => p.lat.truthy && p.lon.truthy)).map
            (fun p => (parseFloat p.lat, parseFloat p.lon))⟩ (50, 50) 12 :=
  (C6_viewport_after_change (.fitted ⟨[(.fin 1, .fin 2)]⟩ (50, 50) 12) none scenarioPoints).1
    ⟨pointAt "a" (.str "10") (.str "20"), by decide, by decide⟩

/-! ## Markers (C7, C8, C9) -/

theorem strTruthy_some_iff (l : String) : strTruthy (some l) = true ↔ l ≠ "" := by
  cases l with
  | mk data =>
    cases data with
    | nil => simp [strTruthy]
    | cons c cs =>
      simp only [strTruthy, List.isEmpty_cons, Bool.not_false, ne_eq, true_iff]
      intro h
      have := congrArg String.data h
      simp at this

theorem MapMarkers_some (B : JSBuiltins) (ps : List Place) :
    MapMarkers B (some ps) = .ok (mapIdx B ps 0) := rfl

theorem marker_of_MapMarkers {B : JSBuiltins} {ps : List Place} {slots : List (Option Marker)}
    {m : Marker} (h : MapMarkers B (some ps) = .ok slots) (hm : m ∈ renderedMarkers slots) :
    ∃ p, ps[m.key]? = some p ∧ renderMarker B p m.key = some m := by
  simp only [MapMarkers, Except.ok.injEq] at h
  subst h
  obtain ⟨i, p, hp, hr⟩ := mem_renderedMarkers.mp hm
  have hk := (renderMarker_eq_some hr).2.1
  exact ⟨p, by rw [hk]; exact hp, by rw [hk]; exact hr⟩

/-- C7, as stated, fails for pointer enter: the mouseover handler of a rendered
marker only opens the popup; it issues no flyTo and the viewport stays where it
was. -/
theorem C7_pointer_enter_keeps_viewport :
    MapMarkers asciiBuiltins (some [samplePlace]) = .ok [some sampleMarker]
      ∧ sampleMarker.eventHandlers .mouseover = [.openPopup 0]
      ∧ (∀ pos z d e, MapCmd.flyTo pos z d e ∉ sampleMarker.eventHandlers .mouseover)
      ∧ (sampleMarker.eventHandlers .mouseover).foldl Viewport.apply (.initial defaultCenter 13)
        = .initial defaultCenter 13 := by
  refine ⟨(MapMarkers_some _ _).trans (congrArg Except.ok (by decide!)), by decide!, ?_,
    by decide!⟩
  intro pos z d e h
  simp [Marker.eventHandlers] at h

/-- C7, amended: for every rendered marker, pointer enter opens the info panel
of that marker and leaves the viewport as it is; click transitions the viewport
to the parsed position of the marker's place at zoom 16, above the fit ceiling
of every fitBounds MapUpdater issues, with duration 1.5 and ease linearity
0.25. -/
theorem C7_marker_selection (B : JSBuiltins) (ps : List Place) (slots : List (Option Marker))
    (h : MapMarkers B (some ps) = .ok slots) (m : Marker) (hm : m ∈ renderedMarkers slots)
    (v : Viewport) :
    ∃ p, ps[m.key]? = some p
      ∧ m.eventHandlers .mouseover = [.openPopup m.key]
      ∧ (m.eventHandlers .mouseover).foldl Viewport.apply v = v
      ∧ m.eventHandlers .click = [.flyTo (parseFloat p.lat, parseFloat p.lon) 16 1.5 0.25]
      ∧ (m.eventHandlers .click).foldl Viewport.apply v
        = .flown (parseFloat p.lat, parseFloat p.lon) 16
      ∧ ∀ center places b pad z, MapCmd.fitBounds b pad z ∈ MapUpdater center places → z < 16 := by
  obtain ⟨p, hp, hr⟩ := marker_of_MapMarkers h hm
  have hpos : m.position = (parseFloat p.lat, parseFloat p.lon) := (renderMarker_eq_some hr).2.2.1
  refine ⟨p, hp, rfl, rfl, ?_, ?_, ?_⟩
  · simp [Marker.eventHandlers, hpos]
  · simp [Marker.eventHandlers, hpos, Viewport.apply]
  · intro center places b pad z hmem
    cases places with
    | none => cases center <;> simp [MapUpdater, updaterFallback] at hmem
    | some qs =>
      by_cases hq : updaterMarkers qs = []
      · rw [MapUpdater_of_no_markers (by intro rs hrs; cases hrs; exact hq)] at hmem
        cases center <;> simp [updaterFallback] at hmem
      · rw [MapUpdater_of_markers hq] at hmem
        simp only [List.mem_singleton, MapCmd.fitBounds.injEq] at hmem
        omega

/-- Witness of C7 (amended): the marker of the sample place. -/
theorem C7_marker_selection_witness :
    ∃ p, [samplePlace][sampleMarker.key]? = some p
      ∧ sampleMarker.eventHandlers .mouseover = [.openPopup sampleMarker.key]
      ∧ (sampleMarker.eventHandlers .mouseover).foldl Viewport.apply (.initial defaultCenter 13)
        = .initial defaultCenter 13
      ∧ sampleMarker.eventHandlers .click
        = [.flyTo (parseFloat p.lat, parseFloat p.lon) 16 1.5 0.25]
      ∧ (sampleMarker.eventHandlers .click).foldl Viewport.apply (.initial defaultCenter 13)
        = .flown (parseFloat p.lat, parseFloat p.lon) 16
      ∧ ∀ center places b pad z, MapCmd.fitBounds b pad z ∈ MapUpdater center places → z < 16 :=
  C7_marker_selection asciiBuiltins [samplePlace] [some sampleMarker]
    ((MapMarkers_some _ _).trans (congrArg Except.ok (by decide!))) sampleMarker
    (by decide!) (.initial defaultCenter 13)

/-- C8: for every rendered marker the details link of its info panel is the
override link of the place when one is supplied and non-empty, and otherwise
"/attraction/" followed by the lower-cased name with every space replaced by a
hyphen. -/
theorem C8_details_link (B : JSBuiltins) (ps : List Place) (slots : List (Option Marker))
    (h : MapMarkers B (some ps) = .ok slots) (m : Marker) (hm : m ∈ renderedMarkers slots) :
    ∃ p, ps[m.key]? = some p
      ∧ (∀ l, p.link = some l → l ≠ "" → m.popup.detailsTo = l)
      ∧ ((p.link = none ∨ p.link = some "") →
          m.popup.detailsTo
            = "/attraction/"
              ++ String.mk ((B.toLowerCase p.name).data.map (fun c => if c = ' ' then '-' else c))) := by
  obtain ⟨p, hp, hr⟩ := marker_of_MapMarkers h hm
  have hpop := (renderMarker_eq_some hr).2.2.2.2
  have hd : m.popup.detailsTo = detailsTo B p := by rw [hpop]
  refine ⟨p, hp, ?_, ?_⟩
  · intro l hl hne
    rw [hd]
    unfold detailsTo
    rw [hl]
    simp [(strTruthy_some_iff l).mpr hne]
  · intro hl
    rw [hd]
    unfold detailsTo
    rcases hl with hl | hl
    · rw [hl]
      rfl
    · rw [hl]
      rfl

/-- Witness of C8: the sample place, which has no override link. -/
theorem C8_details_link_witness :
    ∃ p, [samplePlace][sampleMarker.key]? = some p
      ∧ (∀ l, p.link = some l → l ≠ "" → sampleMarker.popup.detailsTo = l)
      ∧ ((p.link = none ∨ p.link = some "") →
          sampleMarker.popup.detailsTo
            = "/attraction/"
              ++ String.mk ((asciiBuiltins.toLowerCase p.name).data.map
                  (fun c => if c = ' ' then '-' else c))) :=
  C8_details_link asciiBuiltins [samplePlace] [some sampleMarker]
    ((MapMarkers_some _ _).trans (congrArg Except.ok (by decide!))) sampleMarker (by decide!)

/-- C9: for every rendered marker the directions link of its info panel is
"https://www.google.com/maps/dir/?api=1&destination=" followed by lat, a comma
and lon of the place, and any place with the same lat and lon gets the same
link, whatever its name, image, descriptor, query or link. -/
theorem C9_directions_link (B : JSBuiltins) (ps : List Place) (slots : List (Option Marker))
    (h : MapMarkers B (some ps) = .ok slots) (m : Marker) (hm : m ∈ renderedMarkers slots) :
    ∃ p, ps[m.key]? = some p
      ∧ m.popup.directionsHref
        = "https://www.google.com/maps/dir/?api=1&destination=" ++ p.lat.toStr B ++ ","
          ++ p.lon.toStr B
      ∧ ∀ (q : Place) (i : Nat) (n : Marker), q.lat = p.lat → q.lon = p.lon →
          renderMarker B q i = some n → n.popup.directionsHref = m.popup.directionsHref := by
  obtain ⟨p, hp, hr⟩ := marker_of_MapMarkers h hm
  have hpop := (renderMarker_eq_some hr).2.2.2.2
  have hd : m.popup.directionsHref = directionsHref B p := by rw [hpop]
  refine ⟨p, hp, by rw [hd]; rfl, ?_⟩
  intro q i n hlat hlon hn
  have hq := (renderMarker_eq_some hn).2.2.2.2
  rw [hd, hq]
  simp [directionsHref, hlat, hlon]

/-- Witness of C9: the sample place. -/
theorem C9_directions_link_witness :
    ∃ p, [samplePlace][sampleMarker.key]? = some p
      ∧ sampleMarker.popup.directionsHref
        = "https://www.google.com/maps/dir/?api=1&destination=" ++ p.lat.toStr asciiBuiltins
          ++ "," ++ p.lon.toStr asciiBuiltins
      ∧ ∀ (q : Place) (i : Nat) (n : Marker), q.lat = p.lat → q.lon = p.lon →
          renderMarker asciiBuiltins q i = some n →
          n.popup.directionsHref = sampleMarker.popup.directionsHref :=
  C9_directions_link asciiBuiltins [samplePlace] [some sampleMarker]
    ((MapMarkers_some _ _).trans (congrArg Except.ok (by decide!))) sampleMarker (by decide!)

/-! ## City resolution (C10) -/

theorem promiseAll_map_ok {α β : Type} (f : α → Except Rejection β) (g : α → β) (l : List α)
    (h : ∀ x ∈ l, f x = .ok (g x)) : promiseAll (l.map f) = .ok (l.map g) := by
  induction l with
  | nil => rfl
  | cons a as ih =>
    have ha := h a (List.mem_cons_self _ _)
    have has := ih (fun x hx => h x (List.mem_cons_of_mem _ hx))
    simp only [List.map_cons, ha, promiseAll, has]

theorem placePromise_ok {A : CityAdapters} {city : String} {t : TemplateEntry}
    {img : Option String} (h : A.getUnsplashImage (city ++ " " ++ t.query) = .ok img) :
    placePromise A city t
      = .ok { name := t.name, query := some t.query, descriptor := t.descriptor,
              image := some (orElse img (placePlaceholder city t.query)) } := by
  simp only [placePromise, h]

theorem interestPromise_ok {A : CityAdapters} {city : String} {t : TemplateEntry}
    {img : Option String} (h : A.getUnsplashImage (city ++ " " ++ t.query) = .ok img) :
    interestPromise A city t
      = .ok { name := t.name, query := t.query,
              image := some (orElse img (interestPlaceholder city t.query)) } := by
  simp only [interestPromise, h]

theorem orElse_eq (a : Option String) (b : String) :
    orElse a b = match a with
      | some u => if u = "" then b else u
      | none => b := by
  cases a with
  | none => rfl
  | some u =>
    have h := strTruthy_some_iff u
    simp only [strTruthy, Bool.not_eq_true_eq_eq_false, ne_eq] at h
    by_cases hu : u = ""
    · subst hu
      rfl
    · simp only [orElse, h.mpr hu, hu, if_false, Bool.false_eq_true]

/-- The places of the model a city resolution commits when every adapter call
resolves: the found list when it is non-empty, the imaged template otherwise. -/
theorem loadCityData_places (B : JSBuiltins) (A : CityAdapters) (city : String)
    (country : Option String) (s : CityPageState) (img : String → Option String)
    (coords : Option Coords) (found : Option (List Place))
    (hImg : ∀ q, A.getUnsplashImage q = .ok (img q))
    (hGeo : A.getCityCoordinates city = .ok coords)
    (hPl : A.fetchPlacesForCity city = .ok found) :
    ∃ model, (loadCityData B A city country s).cityInfo = some model
      ∧ model.places =
        match found with
        | some (p :: ps) => p :: ps
        | _ => templatePlaces.map (fun t =>
            { name := t.name, query := some t.query, descriptor := t.descriptor,
              image := some (orElse (img (city ++ " " ++ t.query))
                (placePlaceholder city t.query)) }) := by
  have hP := promiseAll_map_ok (placePromise A city) _ templatePlaces
    (fun t _ => placePromise_ok (hImg (city ++ " " ++ t.query)))
  have hI := promiseAll_map_ok (interestPromise A city) _ templateInterests
    (fun t _ => interestPromise_ok (hImg (city ++ " " ++ t.query)))
  unfold loadCityData loadCityDataTry
  simp only [hImg, hGeo, hPl]
  cases found with
  | none => simp only [hP, hI]; exact ⟨_, rfl, rfl⟩
  | some l =>
    cases l with
    | nil => simp only [hP, hI]; exact ⟨_, rfl, rfl⟩
    | cons p ps => simp only [hI]; exact ⟨_, rfl, rfl⟩

/-- C10: in a city resolution whose adapter calls resolve, the places of the
committed model are the list PlaceFinder returned, unchanged, when that list is
non-empty; otherwise (null or empty) they are the six template entries in
template order, entry i with the image ImageResolver returned for
"{city} {entry.query}" when that is non-empty and with the placeholder
"https://loremflickr.com/800/600/{city},{tags}" otherwise. -/
theorem C10_city_places (B : JSBuiltins) (A : CityAdapters) (city : String)
    (country : Option String) (s : CityPageState) (img : String → Option String)
    (coords : Option Coords) (found : Option (List Place))
    (hImg : ∀ q, A.getUnsplashImage q = .ok (img q))
    (hGeo : A.getCityCoordinates city = .ok coords)
    (hPl : A.fetchPlacesForCity city = .ok found) :
    ∃ model, (loadCityData B A city country s).cityInfo = some model
      ∧ (∀ ps, found = some ps → ps ≠ [] → model.places = ps)
      ∧ ((found = none ∨ found = some []) →
          model.places.length = 6
          ∧ model.places.map Place.name
            = ["City Center", "National Museum", "Central Park", "Local Market",
               "Historic Old Town", "Waterfront / Viewpoint"]
          ∧ model.places = templatePlaces.map (fun t =>
              { name := t.name, query := some t.query, descriptor := t.descriptor,
                image := some
                  (match img (city ++ " " ++ t.query) with
                   | some u =>
                     if u = "" then
                       "https://loremflickr.com/800/600/" ++ city ++ "," ++ queryTags t.query
                     else u
                   | none =>
                     "https://loremflickr.com/800/600/" ++ city ++ "," ++ queryTags t.query) })) := by
  obtain ⟨model, hm, hp⟩ := loadCityData_places B A city country s img coords found hImg hGeo hPl
  refine ⟨model, hm, ?_, ?_⟩
  · intro ps hf hne
    subst hf
    cases ps with
    | nil => exact absurd rfl hne
    | cons p qs => exact hp
  · intro hf
    have hp2 : model.places = templatePlaces.map (fun t =>
        { name := t.name, query := some t.query, descriptor := t.descriptor,
          image := some (orElse (img (city ++ " " ++ t.query))
            (placePlaceholder city t.query)) }) := by
      rcases hf with hf | hf <;> subst hf <;> exact hp
    refine ⟨by rw [hp2]; rfl, by rw [hp2]; rfl, ?_⟩
    rw [hp2]
    apply List.map_congr_left
    intro t _
    rw [orElse_eq]
    rfl

/-- Witness of C10: the city "paris" with adapters that all resolve to nothing. -/
theorem C10_city_places_witness :
    ∃ model, (loadCityData asciiBuiltins emptyAdapters "paris" (some "france") .mounted).cityInfo
        = some model
      ∧ (∀ ps, some ([] : List Place) = some ps → ps ≠ [] → model.places = ps)
      ∧ ((some ([] : List Place) = none ∨ some ([] : List Place) = some []) →
          model.places.length = 6
          ∧ model.places.map Place.name
            = ["City Center", "National Museum", "Central Park", "Local Market",
               "Historic Old Town", "Waterfront / Viewpoint"]
          ∧ model.places = templatePlaces.map (fun t =>
              { name := t.name, query := some t.query, descriptor := t.descriptor,
                image := some
                  (match (fun _ => (none : Option String)) ("paris" ++ " " ++ t.query) with
                   | some u =>
                     if u = "" then
                       "https://loremflickr.com/800/600/" ++ "paris" ++ "," ++ queryTags t.query
                     else u
                   | none =>
                     "https://loremflickr.com/800/600/" ++ "paris" ++ "," ++ queryTags t.query) })) :=
  C10_city_places asciiBuiltins emptyAdapters "paris" (some "france") .mounted (fun _ => none)
    none (some []) (fun _ => rfl) rfl rfl

/-! ## City resolution with failing adapters (C11, C12) -/

theorem append_ne_empty {a b : String} (h : a ≠ "") : a ++ b ≠ "" := by
  intro hab
  apply h
  have hd := congrArg String.data hab
  simp only [String.data_append, List.append_eq_nil] at hd
  cases a with
  | mk data =>
    simp only at hd
    rw [hd.1]

theorem orElse_ne_empty (a : Option String) {b : String} (h : b ≠ "") : orElse a b ≠ "" := by
  rw [orElse_eq]
  cases a with
  | none => exact h
  | some u =>
    by_cases hu : u = ""
    · simp [hu, h]
    · simp [hu]

/-- The model a city resolution commits when every adapter call resolves, with
the loading flag and the map centre after the run. -/
theorem loadCityData_resolved (B : JSBuiltins) (A : CityAdapters) (city : String)
    (country : Option String) (s : CityPageState) (img : String → Option String)
    (coords : Option Coords) (found : Option (List Place))
    (hImg : ∀ q, A.getUnsplashImage q = .ok (img q))
    (hGeo : A.getCityCoordinates city = .ok coords)
    (hPl : A.fetchPlacesForCity city = .ok found) :
    (loadCityData B A city country s).cityInfo = some
        { name := (initialData B city country).name
          identity := (initialData B city country).identity
          image := orElse (img (city ++ " city landmark")) (heroPlaceholder city)
          quickFacts := (initialData B city country).quickFacts
          places :=
            (found.filter (fun l => !l.isEmpty)).getD
              (templatePlaces.map (fun t =>
                { name := t.name, query := some t.query, descriptor := t.descriptor,
                  image := some (orElse (img (city ++ " " ++ t.query))
                    (placePlaceholder city t.query)) }))
          interests := templateInterests.map (fun t =>
            { name := t.name, query := t.query,
              image := some (orElse (img (city ++ " " ++ t.query))
                (interestPlaceholder city t.query)) })
          tips := (initialData B city country).tips }
      ∧ (loadCityData B A city country s).loading = false := by
  have hP := promiseAll_map_ok (placePromise A city) _ templatePlaces
    (fun t _ => placePromise_ok (hImg (city ++ " " ++ t.query)))
  have hI := promiseAll_map_ok (interestPromise A city) _ templateInterests
    (fun t _ => interestPromise_ok (hImg (city ++ " " ++ t.query)))
  unfold loadCityData loadCityDataTry
  simp only [hImg, hGeo, hPl]
  cases found with
  | none => simp only [hP, hI]; constructor <;> first | rfl | trivial
  | some l =>
    cases l with
    | nil => simp only [hP, hI]; constructor <;> first | rfl | trivial
    | cons p ps => simp only [hI]; constructor <;> first | rfl | trivial

/-- C11: when ImageResolver and GeocodeResolver return null and PlaceFinder
returns an empty list, the resolved model has exactly six places, the image of
each is the placeholder "https://loremflickr.com/800/600/{city},{tags}" with the
tags of its template entry, and the hero image is the non-empty placeholder
"https://loremflickr.com/1600/900/{city},city,landmark". -/
theorem C11_all_adapters_fail (B : JSBuiltins) (A : CityAdapters) (city : String)
    (country : Option String) (s : CityPageState)
    (hImg : ∀ q, A.getUnsplashImage q = .ok none)
    (hGeo : A.getCityCoordinates city = .ok none)
    (hPl : A.fetchPlacesForCity city = .ok (some [])) :
    ∃ model, (loadCityData B A city country s).cityInfo = some model
      ∧ model.places.length = 6
      ∧ model.places.map Place.image
        = ["downtown,square", "museum,architecture", "park,garden", "market,food", "old,street",
            "river,view"].map
            (fun tags => some ("https://loremflickr.com/800/600/" ++ city ++ "," ++ tags))
      ∧ model.image = "https://loremflickr.com/1600/900/" ++ city ++ ",city,landmark"
      ∧ model.image ≠ ""
      ∧ (city = "paris" → model.places.head?.bind Place.image
          = some "https://loremflickr.com/800/600/paris,downtown,square") := by
  obtain ⟨hm, -⟩ := loadCityData_resolved B A city country s (fun _ => none) none (some [])
    hImg hGeo hPl
  refine ⟨_, hm, rfl, rfl, rfl, ?_, ?_⟩
  · show orElse none (heroPlaceholder city) ≠ ""
    apply orElse_ne_empty
    unfold heroPlaceholder
    rw [String.append_assoc]
    exact append_ne_empty (by decide)
  · intro hc
    rw [hc]
    exact congrArg some (by decide)

/-- Witness of C11: the city "paris" with adapters that all resolve to nothing. -/
theorem C11_all_adapters_fail_witness :
    ∃ model, (loadCityData asciiBuiltins emptyAdapters "paris" none .mounted).cityInfo = some model
      ∧ model.places.length = 6
      ∧ model.places.map Place.image
        = ["downtown,square", "museum,architecture", "park,garden", "market,food", "old,street",
            "river,view"].map
            (fun tags => some ("https://loremflickr.com/800/600/" ++ "paris" ++ "," ++ tags))
      ∧ model.image = "https://loremflickr.com/1600/900/" ++ "paris" ++ ",city,landmark"
      ∧ model.image ≠ ""
      ∧ ("paris" = "paris" → model.places.head?.bind Place.image
          = some "https://loremflickr.com/800/600/paris,downtown,square") :=
  C11_all_adapters_fail asciiBuiltins emptyAdapters "paris" none .mounted (fun _ => rfl) rfl rfl

/-- C12 fails on the code: with a geocoder that rejects, and every other
adapter resolving, the resolution of "paris" on a freshly mounted page commits
no model; loading is cleared and the page shows "City not found". -/
theorem C12_rejected_call_leaves_no_model :
    (loadCityData asciiBuiltins geocodeRejects "paris" (some "france") .mounted).cityInfo = none
      ∧ (loadCityData asciiBuiltins geocodeRejects "paris" (some "france") .mounted).loading = false
      ∧ cityView (loadCityData asciiBuiltins geocodeRejects "paris" (some "france") .mounted)
        = .notFound := by
  refine ⟨by decide!, by decide!, by decide!⟩

/-! ## Country page (C13, C14, C15, C16) -/

theorem getProp_append (a b : Props) (k : String) :
    getProp (a ++ b) k = if hasKey b k then getProp b k else getProp a k := by
  unfold getProp hasKey
  rw [List.filter_append, List.getLast?_append]
  by_cases h : (b.any fun p => p.1 == k) = true
  · rw [if_pos h]
    obtain ⟨x, hx, hk⟩ := List.any_eq_true.mp h
    have hne : b.filter (fun p => p.1 == k) ≠ [] := by
      intro hnil
      exact (List.filter_eq_nil_iff.mp hnil) x hx hk
    cases hl : (b.filter fun p => p.1 == k).getLast? with
    | none => exact absurd (List.getLast?_eq_none_iff.mp hl) hne
    | some y => rfl
  · rw [if_neg h]
    have hnil : b.filter (fun p => p.1 == k) = [] := by
      apply List.filter_eq_nil_iff.mpr
      intro x hx hk
      exact h (List.any_eq_true.mpr ⟨x, hx, hk⟩)
    rw [hnil]
    rfl

theorem hasStaticCities_eq_false_iff (staticData : Option StaticCountry) :
    hasStaticCities staticData = false
      ↔ ¬ ∃ entry cities, staticData = some entry ∧ entry.cities = some cities ∧ cities ≠ [] := by
  unfold hasStaticCities
  cases staticData with
  | none => simp
  | some entry =>
    cases hc : entry.cities with
    | none => simp [hc]
    | some cities =>
      cases cities with
      | nil => simp [hc]
      | cons c cs => simp [hc]

theorem countryView_eq_notFound_iff (B : JSBuiltins) (countryName : String)
    (staticData : Option StaticCountry) (st : CountryPageState) :
    countryView B countryName staticData st = .notFound
      ↔ staticData = none ∧ st.apiData = none ∧ st.loading = false := by
  unfold countryView
  cases staticData <;> cases st.apiData <;> cases st.loading <;> simp

theorem citiesToUse_static (B : JSBuiltins) (countryName : String) (entry : StaticCountry)
    (st : CountryPageState) (cities : List CityRef) (h : entry.cities = some cities)
    (hne : cities ≠ []) : citiesToUse B countryName (some entry) st = cities := by
  unfold citiesToUse
  cases cities with
  | nil => exact absurd rfl hne
  | cons c cs =>
    simp only [Option.bind, h]
    cases st.apiData <;> simp

theorem foldl_apply_loading (us : List CountryUpdate) (s : CountryPageState) :
    (us.foldl CountryUpdate.apply s).loading = s.loading := by
  induction us generalizing s with
  | nil => rfl
  | cons u us ih =>
    simp only [List.foldl_cons, ih]
    cases u <;> rfl

theorem getCountryData_state_loading (B : JSBuiltins) (A : CountryAdapters) (countryName : String)
    (staticData : Option StaticCountry) (s : CountryPageState) :
    (getCountryData B A countryName staticData s).state.loading = false := by
  cases hf : A.fetchCountry countryName with
  | error e => simp only [getCountryData, hf]
  | ok data =>
    cases data with
    | none => simp only [getCountryData, hf]
    | some d =>
      cases hr : d.apiData with
      | none => simp only [getCountryData, hf, hr]
      | some raw =>
        cases hn : raw.name with
        | none => simp only [getCountryData, hf, hr, hn]
        | some nm => simp only [getCountryData, hf, hr, hn]

theorem foldl_apply_apiData (us : List CountryUpdate) (s : CountryPageState) :
    (us.foldl CountryUpdate.apply s).apiData = s.apiData := by
  induction us generalizing s with
  | nil => rfl
  | cons u us ih =>
    simp only [List.foldl_cons, ih]
    cases u <;> rfl

theorem getCountryData_state_apiData_rejected (B : JSBuiltins) (A : CountryAdapters)
    (countryName : String) (staticData : Option StaticCountry) (s : CountryPageState)
    (e : Rejection) (hf : A.fetchCountry countryName = .error e) :
    (getCountryData B A countryName staticData s).state.apiData = s.apiData := by
  simp only [getCountryData, hf]

theorem getCountryData_state_apiData_resolved (B : JSBuiltins) (A : CountryAdapters)
    (countryName : String) (staticData : Option StaticCountry) (s : CountryPageState)
    (data : Option CountryRecord) (hf : A.fetchCountry countryName = .ok data) :
    (getCountryData B A countryName staticData s).state.apiData = data := by
  cases data with
  | none => simp only [getCountryData, hf]
  | some d =>
    cases hr : d.apiData with
    | none => simp only [getCountryData, hf, hr]
    | some raw =>
      cases hn : raw.name with
      | none => simp only [getCountryData, hf, hr, hn]
      | some nm => simp only [getCountryData, hf, hr, hn]

theorem getCountryData_notFound_iff (B : JSBuiltins) (A : CountryAdapters)
    (countryName : String) (staticData : Option StaticCountry) (s : CountryPageState) :
    (countryView B countryName staticData (getCountryData B A countryName staticData s).state
        = .notFound
      ↔ staticData = none
        ∧ ((∃ e, A.fetchCountry countryName = .error e ∧ s.apiData = none)
          ∨ A.fetchCountry countryName = .ok none))
    ∧ (countryView B countryName staticData (getCountryData B A countryName staticData s).settled
        = .notFound
      ↔ staticData = none
        ∧ ((∃ e, A.fetchCountry countryName = .error e ∧ s.apiData = none)
          ∨ A.fetchCountry countryName = .ok none)) := by
  have hl := getCountryData_state_loading B A countryName staticData s
  have key : (getCountryData B A countryName staticData s).state.apiData = none
      ↔ ((∃ e, A.fetchCountry countryName = .error e ∧ s.apiData = none)
          ∨ A.fetchCountry countryName = .ok none) := by
    cases hf : A.fetchCountry countryName with
    | error e =>
      rw [getCountryData_state_apiData_rejected B A countryName staticData s e hf]
      simp
    | ok data =>
      rw [getCountryData_state_apiData_resolved B A countryName staticData s data hf]
      simp
  constructor
  · rw [countryView_eq_notFound_iff, key]
    simp [hl]
  · rw [countryView_eq_notFound_iff]
    unfold CountryRun.settled
    rw [foldl_apply_apiData, foldl_apply_loading, key]
    simp [hl]

/-- C13, as stated, fails on a page that is reused for another slug: the page
holds the record of France, the slug "atlantis" has no static entry, the data
source rejects, so this resolution obtains no API country data and loading has
finished; yet the page shown is not "Destination not found" but a page built
from the record of France. -/
theorem C13_stale_record_suppresses_not_found :
    franceSettled.apiData = some sampleRecord
      ∧ countryRejects.fetchCountry "atlantis" = .error "Country not found"
      ∧ (getCountryData asciiBuiltins countryRejects "atlantis" none franceSettled).calls
        = [.fetchCountry "atlantis"]
      ∧ (getCountryData asciiBuiltins countryRejects "atlantis" none franceSettled).settled.loading
        = false
      ∧ (getCountryData asciiBuiltins countryRejects "atlantis" none franceSettled).settled.error
        = some "Country not found"
      ∧ countryView asciiBuiltins "atlantis" none
          (getCountryData asciiBuiltins countryRejects "atlantis" none franceSettled).settled
        ≠ .notFound
      ∧ ∃ country,
          countryView asciiBuiltins "atlantis" none
            (getCountryData asciiBuiltins countryRejects "atlantis" none franceSettled).settled
            = .page country
          ∧ getProp country.props "name" = .scalar (.str "France")
          ∧ getProp country.props "capital" = .scalar (.str "Paris") := by
  refine ⟨by decide!, rfl, by decide!, by decide!, by decide!, by decide!, _, rfl, by decide!,
    by decide!⟩

/-- C13: the country page shows "Destination not found" exactly when the static
catalog has no entry, the page holds no API country data and loading has
finished. The API data the page holds is not reset by a resolution: after a
rejected call of the data source it is the data the page held before, after a
resolved call it is the resolved data, and loading has finished after every
resolution. So after a resolution not-found is shown exactly when there is no
static entry and either the call rejected on a page that held no API data or
the call resolved to no record; on a page that held a record, a rejected call
shows a page, not not-found. With a static entry the not-found state is never
shown, whatever the data source does. -/
theorem C13_not_found_state (B : JSBuiltins) (countryName : String)
    (staticData : Option StaticCountry) (st : CountryPageState) :
    (countryView B countryName staticData st = .notFound
        ↔ staticData = none ∧ st.apiData = none ∧ st.loading = false)
      ∧ (∀ (entry : StaticCountry) (A : CountryAdapters) (s : CountryPageState),
          countryView B countryName (some entry)
              (getCountryData B A countryName (some entry) s).state ≠ .notFound
            ∧ countryView B countryName (some entry)
              (getCountryData B A countryName (some entry) s).settled ≠ .notFound)
      ∧ (∀ (A : CountryAdapters) (s : CountryPageState) (e : Rejection),
          A.fetchCountry countryName = .error e → s.apiData = none →
          countryView B countryName none (getCountryData B A countryName none s).settled
            = .notFound)
      ∧ (∀ (A : CountryAdapters) (s : CountryPageState),
          (getCountryData B A countryName staticData s).state.loading = false
            ∧ (getCountryData B A countryName staticData s).settled.loading = false
            ∧ (∀ e, A.fetchCountry countryName = .error e →
                (getCountryData B A countryName staticData s).settled.apiData = s.apiData)
            ∧ (∀ data, A.fetchCountry countryName = .ok data →
                (getCountryData B A countryName staticData s).settled.apiData = data)
            ∧ (countryView B countryName staticData
                  (getCountryData B A countryName staticData s).state = .notFound
                ↔ staticData = none
                  ∧ ((∃ e, A.fetchCountry countryName = .error e ∧ s.apiData = none)
                    ∨ A.fetchCountry countryName = .ok none))
            ∧ (countryView B countryName staticData
                  (getCountryData B A countryName staticData s).settled = .notFound
                ↔ staticData = none
                  ∧ ((∃ e, A.fetchCountry countryName = .error e ∧ s.apiData = none)
                    ∨ A.fetchCountry countryName = .ok none))
            ∧ (∀ e held, A.fetchCountry countryName = .error e → s.apiData = some held →
                countryView B countryName staticData
                    (getCountryData B A countryName staticData s).settled
                  = .page (countryModel B countryName staticData
                      (getCountryData B A countryName staticData s).settled))) := by
  refine ⟨countryView_eq_notFound_iff B countryName staticData st, ?_, ?_, ?_⟩
  · intro entry A s
    constructor
    · intro h
      have := (countryView_eq_notFound_iff _ _ _ _).mp h
      simp at this
    · intro h
      have := (countryView_eq_notFound_iff _ _ _ _).mp h
      simp at this
  · intro A s e hf hs
    rw [countryView_eq_notFound_iff]
    simp [getCountryData, hf, CountryRun.settled, hs]
  · intro A s
    have hl := getCountryData_state_loading B A countryName staticData s
    have hsl : (getCountryData B A countryName staticData s).settled.loading = false := by
      unfold CountryRun.settled
      rw [foldl_apply_loading, hl]
    have hsa : (getCountryData B A countryName staticData s).settled.apiData
        = (getCountryData B A countryName staticData s).state.apiData := by
      unfold CountryRun.settled
      rw [foldl_apply_apiData]
    refine ⟨hl, hsl, ?_, ?_, (getCountryData_notFound_iff B A countryName staticData s).1,
      (getCountryData_notFound_iff B A countryName staticData s).2, ?_⟩
    · intro e hf
      rw [hsa, getCountryData_state_apiData_rejected B A countryName staticData s e hf]
    · intro data hf
      rw [hsa, getCountryData_state_apiData_resolved B A countryName staticData s data hf]
    · intro e held hf hs
      have ha : (getCountryData B A countryName staticData s).settled.apiData = some held := by
        rw [hsa, getCountryData_state_apiData_rejected B A countryName staticData s e hf, hs]
      unfold countryView
      simp [ha, hsl]

/-- Witness of C13: the data source rejects for a slug without static entry on
a freshly mounted page. -/
theorem C13_not_found_state_witness :
    countryView asciiBuiltins "atlantis" none
        (getCountryData asciiBuiltins countryRejects "atlantis" none .mounted).settled
      = .notFound :=
  (C13_not_found_state asciiBuiltins "atlantis" none .mounted).2.2.1 countryRejects .mounted
    "Country not found" rfl rfl

/-- C14: when the static entry has a non-empty cities list, the cities of the
model are that list, entry for entry and in order, whatever the state holds as
dynamic cities and API data. -/
theorem C14_static_cities_take_precedence (B : JSBuiltins) (countryName : String)
    (entry : StaticCountry) (cities : List CityRef) (st : CountryPageState)
    (h : entry.cities = some cities) (hne : cities ≠ []) :
    (countryModel B countryName (some entry) st).cities = cities
      ∧ (countryModel B countryName (some entry) st).cities.length = cities.length := by
  have hc : (countryModel B countryName (some entry) st).cities = cities :=
    citiesToUse_static B countryName entry st cities h hne
  exact ⟨hc, by rw [hc]⟩

/-- Witness of C14: the sample static entry against a state that holds a
dynamic city and API data. -/
theorem C14_static_cities_take_precedence_witness :
    (countryModel asciiBuiltins "france" (some sampleStatic)
        { apiData := some sampleRecord, dynamicCities := [{ name := "Marseille" }],
          loading := false }).cities
        = [{ name := "Lyon", image := some "https://img.example/lyon.jpg" }, { name := "Nice" }]
      ∧ (countryModel asciiBuiltins "france" (some sampleStatic)
        { apiData := some sampleRecord, dynamicCities := [{ name := "Marseille" }],
          loading := false }).cities.length
        = [({ name := "Lyon", image := some "https://img.example/lyon.jpg" } : CityRef),
            { name := "Nice" }].length :=
  C14_static_cities_take_precedence asciiBuiltins "france" sampleStatic _ _ rfl (by decide)

theorem getCountryData_calls_named (B : JSBuiltins) (A : CountryAdapters) (countryName : String)
    (staticData : Option StaticCountry) (s : CountryPageState) (d : CountryRecord)
    (raw : RawCountry) (nm : RawName) (hf : A.fetchCountry countryName = .ok (some d))
    (hr : d.apiData = some raw) (hn : raw.name = some nm) :
    (getCountryData B A countryName staticData s).calls
      = [.fetchCountry countryName, .getUnsplashImage (nm.common.toStr B ++ " country landmark")]
        ++ (if (!hasStaticCities staticData && nm.common.truthy) = true
            then [.fetchCitiesByCountry nm.common raw.cca2] else [])
        ++ defaultCategories.map
            (fun cat => .getUnsplashImage (nm.common.toStr B ++ " " ++ cat.query)) := by
  simp only [getCountryData, hf, hr, hn]

theorem getCountryData_calls_thrown (B : JSBuiltins) (A : CountryAdapters) (countryName : String)
    (staticData : Option StaticCountry) (s : CountryPageState)
    (h : ¬ ∃ d raw nm, A.fetchCountry countryName = .ok (some d) ∧ d.apiData = some raw
      ∧ raw.name = some nm) :
    (getCountryData B A countryName staticData s).calls = [.fetchCountry countryName] := by
  cases hf : A.fetchCountry countryName with
  | error e => simp only [getCountryData, hf]
  | ok data =>
    cases data with
    | none => simp only [getCountryData, hf]
    | some d =>
      cases hr : d.apiData with
      | none => simp only [getCountryData, hf, hr]
      | some raw =>
        cases hn : raw.name with
        | none => simp only [getCountryData, hf, hr, hn]
        | some nm => exact absurd ⟨d, raw, nm, hf, hr, hn⟩ h

/-- C15: getCountryData calls fetchCitiesByCountry if and only if the static
catalog supplies no non-empty cities list and the country data source returned
a record with a common name; the call is then made once, with that common name
and the country code; with a non-empty static cities list it is never made. -/
theorem C15_city_enumeration_call (B : JSBuiltins) (A : CountryAdapters) (countryName : String)
    (staticData : Option StaticCountry) (s : CountryPageState) :
    ((∃ c z, CountryCall.fetchCitiesByCountry c z
          ∈ (getCountryData B A countryName staticData s).calls)
        ↔ ((¬ ∃ entry cities, staticData = some entry ∧ entry.cities = some cities ∧ cities ≠ [])
          ∧ ∃ d raw nm, A.fetchCountry countryName = .ok (some d) ∧ d.apiData = some raw
            ∧ raw.name = some nm ∧ nm.common.truthy = true))
      ∧ (∀ entry cities, staticData = some entry → entry.cities = some cities → cities ≠ [] →
          ∀ c z, CountryCall.fetchCitiesByCountry c z
            ∉ (getCountryData B A countryName staticData s).calls)
      ∧ (∀ d raw nm, A.fetchCountry countryName = .ok (some d) → d.apiData = some raw →
          raw.name = some nm → nm.common.truthy = true →
          (¬ ∃ entry cities, staticData = some entry ∧ entry.cities = some cities ∧ cities ≠ []) →
          (getCountryData B A countryName staticData s).calls.filter
              (fun call => match call with
                | .fetchCitiesByCountry _ _ => true
                | _ => false)
            = [.fetchCitiesByCountry nm.common raw.cca2]) := by
  have key : (∃ c z, CountryCall.fetchCitiesByCountry c z
          ∈ (getCountryData B A countryName staticData s).calls)
        ↔ ((¬ ∃ entry cities, staticData = some entry ∧ entry.cities = some cities ∧ cities ≠ [])
          ∧ ∃ d raw nm, A.fetchCountry countryName = .ok (some d) ∧ d.apiData = some raw
            ∧ raw.name = some nm ∧ nm.common.truthy = true) := by
    rw [← hasStaticCities_eq_false_iff]
    by_cases h : ∃ d raw nm, A.fetchCountry countryName = .ok (some d) ∧ d.apiData = some raw
        ∧ raw.name = some nm
    · obtain ⟨d, raw, nm, hf, hr, hn⟩ := h
      rw [getCountryData_calls_named B A countryName staticData s d raw nm hf hr hn]
      constructor
      · rintro ⟨c, z, hmem⟩
        cases hs : hasStaticCities staticData <;> cases ht : nm.common.truthy <;>
          simp [hs, ht] at hmem
        exact ⟨rfl, d, raw, nm, hf, hr, hn, ht⟩
      · rintro ⟨hs, d2, raw2, nm2, hf2, hr2, hn2, ht2⟩
        rw [hf] at hf2
        cases hf2
        rw [hr] at hr2
        cases hr2
        rw [hn] at hn2
        cases hn2
        exact ⟨nm.common, raw.cca2, by simp [hs, ht2]⟩
    · rw [getCountryData_calls_thrown B A countryName staticData s h]
      constructor
      · rintro ⟨c, z, hmem⟩
        simp at hmem
      · rintro ⟨-, d, raw, nm, hf, hr, hn, -⟩
        exact absurd ⟨d, raw, nm, hf, hr, hn⟩ h
  refine ⟨key, ?_, ?_⟩
  · intro entry cities he hc hne c z hmem
    exact (key.mp ⟨c, z, hmem⟩).1 ⟨entry, cities, he, hc, hne⟩
  · intro d raw nm hf hr hn ht hs
    rw [← hasStaticCities_eq_false_iff] at hs
    rw [getCountryData_calls_named B A countryName staticData s d raw nm hf hr hn]
    simp [hs, ht, List.filter, defaultCategories]

/-- Witness of C15: without static entry and with a record that has a common
name, the enumeration is called once with the common name and the country
code. -/
theorem C15_city_enumeration_call_witness :
    (getCountryData asciiBuiltins sampleCountryAdapters "france" none .mounted).calls.filter
        (fun call => match call with
          | .fetchCitiesByCountry _ _ => true
          | _ => false)
      = [.fetchCitiesByCountry (.str "France") (.str "FR")] :=
  (C15_city_enumeration_call asciiBuiltins sampleCountryAdapters "france" none .mounted).2.2
    sampleRecord { name := some { common := .str "France" }, cca2 := .str "FR" }
    { common := .str "France" } rfl rfl rfl (by decide) (by simp)

theorem citiesToUse_fallback (B : JSBuiltins) (countryName : String)
    (staticData : Option StaticCountry) (st : CountryPageState) (api : CountryRecord)
    (hs : ¬ ∃ entry cities, staticData = some entry ∧ entry.cities = some cities ∧ cities ≠ [])
    (hd : st.dynamicCities = []) (ha : st.apiData = some api) :
    citiesToUse B countryName staticData st = [capitalCity B countryName api] := by
  unfold citiesToUse
  rw [ha, hd]
  cases staticData with
  | none => rfl
  | some entry =>
    cases hc : entry.cities with
    | none => simp [Option.bind, hc]
    | some cities =>
      cases cities with
      | nil => simp [Option.bind, hc]
      | cons c cs => exact absurd ⟨entry, c :: cs, rfl, hc, by simp⟩ hs

theorem push_if_empty_ne_nil {α : Type} (base : List α) (c : α) :
    (if base.length = 0 then base ++ [c] else base) ≠ [] := by
  cases base with
  | nil => simp
  | cons a as => simp

theorem citiesToUse_ne_nil (B : JSBuiltins) (countryName : String)
    (staticData : Option StaticCountry) (st : CountryPageState) (api : CountryRecord)
    (ha : st.apiData = some api) : citiesToUse B countryName staticData st ≠ [] := by
  unfold citiesToUse
  rw [ha]
  exact push_if_empty_ne_nil _ _

/-- C16, as stated, fails for a record without a capital: the single entry is
named "Capital City", not after a capital, its image is built from the country
slug and its coordinates are undefined. -/
theorem C16_record_without_capital :
    (getCountryData asciiBuiltins noCapitalAdapters "antarctica" none .mounted).settled.apiData
        = some recordWithoutCapital
      ∧ getProp recordWithoutCapital.props "capital" = .scalar .undefined
      ∧ (countryModel asciiBuiltins "antarctica" none
          (getCountryData asciiBuiltins noCapitalAdapters "antarctica" none .mounted).settled).cities
        = [{ name := "Capital City"
             image := some "https://loremflickr.com/800/600/antarctica,city"
             description := some "The bustling heart of Antarctica, full of history and life." }] := by
  refine ⟨by decide!, by decide!, by decide!⟩

/-- C16, amended: with no non-empty static cities list and no dynamic city,
once country data is available the cities of the model are exactly one entry:
named after the capital of the record, with the placeholder image built from the
capital, when the record has a non-empty capital, and named "Capital City", with
the placeholder built from the country slug, when it has none; its coordinates
are the two elements of the capital coordinates of the record (undefined when
absent). In every state that holds country data the cities list is non-empty. -/
theorem C16_capital_entry (B : JSBuiltins) (countryName : String)
    (staticData : Option StaticCountry) (st : CountryPageState) (api : CountryRecord)
    (hs : ¬ ∃ entry cities, staticData = some entry ∧ entry.cities = some cities ∧ cities ≠ [])
    (hd : st.dynamicCities = []) (ha : st.apiData = some api) :
    (∃ c, (countryModel B countryName staticData st).cities = [c]
        ∧ (∀ capital, getProp api.props "capital" = .scalar (.str capital) → capital ≠ "" →
            c.name = capital
              ∧ c.image = some ("https://loremflickr.com/800/600/" ++ capital ++ ",city"))
        ∧ ((getProp api.props "capital").truthy = false →
            c.name = "Capital City"
              ∧ c.image = some ("https://loremflickr.com/800/600/" ++ countryName ++ ",city"))
        ∧ c.lat = ((api.capitalLatlng.bind (fun l => l[0]?)).getD .undefined)
        ∧ c.lon = ((api.capitalLatlng.bind (fun l => l[1]?)).getD .undefined))
      ∧ ∀ (sd : Option StaticCountry) (st2 : CountryPageState) (api2 : CountryRecord),
          st2.apiData = some api2 → (countryModel B countryName sd st2).cities ≠ [] := by
  refine ⟨⟨capitalCity B countryName api,
    citiesToUse_fallback B countryName staticData st api hs hd ha, ?_, ?_, rfl, rfl⟩, ?_⟩
  · intro capital hcap hne
    have ht : (PropVal.scalar (JSVal.str capital)).truthy = true :=
      (strTruthy_some_iff capital).mpr hne
    simp only [capitalCity, hcap, ht, if_true, PropVal.toStr, JSVal.toStr, and_self]
  · intro hf
    simp only [capitalCity, hf, Bool.false_eq_true, if_false, and_self]
  · intro sd st2 api2 h2
    exact citiesToUse_ne_nil B countryName sd st2 api2 h2

/-- Witness of C16 (amended): the sample record on a page without static entry
and without dynamic cities gives the single entry "Paris". -/
theorem C16_capital_entry_witness :
    ∃ c, (countryModel asciiBuiltins "france" none
          { apiData := some sampleRecord, loading := false }).cities = [c]
      ∧ (∀ capital, getProp sampleRecord.props "capital" = .scalar (.str capital) →
          capital ≠ "" →
          c.name = capital
            ∧ c.image = some ("https://loremflickr.com/800/600/" ++ capital ++ ",city"))
      ∧ ((getProp sampleRecord.props "capital").truthy = false →
          c.name = "Capital City"
            ∧ c.image = some ("https://loremflickr.com/800/600/" ++ "france" ++ ",city"))
      ∧ c.lat = ((sampleRecord.capitalLatlng.bind (fun l => l[0]?)).getD .undefined)
      ∧ c.lon = ((sampleRecord.capitalLatlng.bind (fun l => l[1]?)).getD .undefined) :=
  (C16_capital_entry asciiBuiltins "france" none { apiData := some sampleRecord, loading := false }
    sampleRecord (by simp) rfl rfl).1

/-! ## Images and merged fields of the models (C17, C18, C19, C20) -/

/-- The state once every handler of a run has run, when the record of the data
source has a name object: each of the three promises either wrote its field or,
when it rejected (or resolved to no image), left the field as it was. -/
theorem getCountryData_settled_named (B : JSBuiltins) (A : CountryAdapters) (countryName : String)
    (staticData : Option StaticCountry) (s : CountryPageState) (d : CountryRecord)
    (raw : RawCountry) (nm : RawName) (hf : A.fetchCountry countryName = .ok (some d))
    (hr : d.apiData = some raw) (hn : raw.name = some nm) :
    (getCountryData B A countryName staticData s).settled
      = { apiData := some d
          dynamicCities :=
            if (!hasStaticCities staticData && nm.common.truthy) = true then
              match A.fetchCitiesByCountry nm.common raw.cca2 with
              | .ok cities => cities
              | .error _ => s.dynamicCities
            else s.dynamicCities
          countryImage :=
            match A.getUnsplashImage (nm.common.toStr B ++ " country landmark") with
            | .ok (some img) => if img.data.isEmpty then s.countryImage else some img
            | _ => s.countryImage
          dynamicCategories :=
            match promiseAll (defaultCategories.map (categoryPromise B A (nm.common.toStr B))) with
            | .ok categories => categories
            | .error _ => s.dynamicCategories
          loading := false
          error := none } := by
  simp only [getCountryData, hf, hr, hn, CountryRun.settled]
  cases A.getUnsplashImage (nm.common.toStr B ++ " country landmark") with
  | error e =>
    cases (!hasStaticCities staticData && nm.common.truthy) <;>
      cases A.fetchCitiesByCountry nm.common raw.cca2 <;>
      cases promiseAll (defaultCategories.map (categoryPromise B A (nm.common.toStr B))) <;> rfl
  | ok img =>
    cases img with
    | none =>
      cases (!hasStaticCities staticData && nm.common.truthy) <;>
        cases A.fetchCitiesByCountry nm.common raw.cca2 <;>
        cases promiseAll (defaultCategories.map (categoryPromise B A (nm.common.toStr B))) <;> rfl
    | some u =>
      cases hu : u.data.isEmpty <;>
        cases (!hasStaticCities staticData && nm.common.truthy) <;>
        cases A.fetchCitiesByCountry nm.common raw.cca2 <;>
        cases promiseAll (defaultCategories.map (categoryPromise B A (nm.common.toStr B))) <;>
        simp [hu, CountryUpdate.apply]

theorem countryModel_image (B : JSBuiltins) (countryName : String)
    (staticData : Option StaticCountry) (st : CountryPageState) :
    (countryModel B countryName staticData st).image
      = orElse st.countryImage
          (orElse (staticData.bind (fun entry => entry.image))
            (match st.apiData with
              | some apiData =>
                "https://loremflickr.com/1600/900/" ++ (getProp apiData.props "name").toStr B
                  ++ ",landmark"
              | none => "")) := rfl

theorem orElse_of_truthy {u : String} (b : String) (h : u ≠ "") : orElse (some u) b = u := by
  rw [orElse_eq]
  simp [h]

theorem orElse_of_falsy {a : Option String} (b : String) (h : a = none ∨ a = some "") :
    orElse a b = b := by
  rcases h with h | h <;> subst h <;> rfl

/-- C17, as stated, fails for the third tier: with a static entry that has no
image and a data source that rejected, the page is shown and its hero image is
the empty string, not a placeholder. -/
theorem C17_no_api_data_gives_empty_image :
    countryView asciiBuiltins "atlantis" (some bareStatic)
        (getCountryData asciiBuiltins countryRejects "atlantis" (some bareStatic) .mounted).settled
        = .page (countryModel asciiBuiltins "atlantis" (some bareStatic)
            (getCountryData asciiBuiltins countryRejects "atlantis" (some bareStatic)
              .mounted).settled)
      ∧ (countryModel asciiBuiltins "atlantis" (some bareStatic)
          (getCountryData asciiBuiltins countryRejects "atlantis" (some bareStatic)
            .mounted).settled).image = "" := by
  refine ⟨by decide!, by decide!⟩

/-- C17, amended: the hero image of a country model is the dynamically resolved
image when one is held; otherwise the static catalog image when it is non-empty;
otherwise, when API country data is held, the placeholder
"https://loremflickr.com/1600/900/{name},landmark" built from the name of the API
record, and the empty string when no API data is held. A run whose image call
resolves to a non-empty URL ends with that URL held as the dynamic image. For a
city model the hero image is the dynamic image when one resolved and the
placeholder otherwise. -/
theorem C17_hero_image_order (B : JSBuiltins) (countryName : String)
    (staticData : Option StaticCountry) (st : CountryPageState) :
    (∀ img, st.countryImage = some img → img ≠ "" →
        (countryModel B countryName staticData st).image = img)
      ∧ ((st.countryImage = none ∨ st.countryImage = some "") →
          ∀ entry simg, staticData = some entry → entry.image = some simg → simg ≠ "" →
            (countryModel B countryName staticData st).image = simg)
      ∧ ((st.countryImage = none ∨ st.countryImage = some "") →
          (∀ entry, staticData = some entry → entry.image = none ∨ entry.image = some "") →
          (∀ api, st.apiData = some api →
              (countryModel B countryName staticData st).image
                = "https://loremflickr.com/1600/900/" ++ (getProp api.props "name").toStr B
                  ++ ",landmark")
            ∧ (st.apiData = none → (countryModel B countryName staticData st).image = ""))
      ∧ (∀ (A : CountryAdapters) (s : CountryPageState) (d : CountryRecord) (raw : RawCountry)
          (nm : RawName) (u : String),
          A.fetchCountry countryName = .ok (some d) → d.apiData = some raw → raw.name = some nm →
          A.getUnsplashImage (nm.common.toStr B ++ " country landmark") = .ok (some u) → u ≠ "" →
          (getCountryData B A countryName staticData s).settled.countryImage = some u)
      ∧ (∀ (A : CityAdapters) (city : String) (country : Option String) (s : CityPageState)
          (img : String → Option String) (coords : Option Coords) (found : Option (List Place)),
          (∀ q, A.getUnsplashImage q = .ok (img q)) → A.getCityCoordinates city = .ok coords →
          A.fetchPlacesForCity city = .ok found →
          ∃ model, (loadCityData B A city country s).cityInfo = some model
            ∧ model.image =
              match img (city ++ " city landmark") with
              | some u =>
                if u = "" then "https://loremflickr.com/1600/900/" ++ city ++ ",city,landmark"
                else u
              | none => "https://loremflickr.com/1600/900/" ++ city ++ ",city,landmark") := by
  refine ⟨?_, ?_, ?_, ?_, ?_⟩
  · intro img hi hne
    rw [countryModel_image, hi, orElse_of_truthy _ hne]
  · intro hd entry simg he hs hne
    rw [countryModel_image, orElse_of_falsy _ hd, he]
    simp only [Option.bind, hs]
    exact orElse_of_truthy _ hne
  · intro hd hs
    have hst : orElse (staticData.bind (fun entry => entry.image))
        (match st.apiData with
          | some apiData =>
            "https://loremflickr.com/1600/900/" ++ (getProp apiData.props "name").toStr B
              ++ ",landmark"
          | none => "")
        = (match st.apiData with
          | some apiData =>
            "https://loremflickr.com/1600/900/" ++ (getProp apiData.props "name").toStr B
              ++ ",landmark"
          | none => "") := by
      apply orElse_of_falsy
      cases staticData with
      | none => left; rfl
      | some entry => exact hs entry rfl
    constructor
    · intro api ha
      rw [countryModel_image, orElse_of_falsy _ hd, hst, ha]
    · intro ha
      rw [countryModel_image, orElse_of_falsy _ hd, hst, ha]
  · intro A s d raw nm u hf hr hn hu hne
    rw [getCountryData_settled_named B A countryName staticData s d raw nm hf hr hn]
    have hnd : u.data.isEmpty = false := by
      have := (strTruthy_some_iff u).mpr hne
      simpa [strTruthy] using this
    simp only [hu, hnd, Bool.false_eq_true, if_false]
  · intro A city country s img coords found hImg hGeo hPl
    obtain ⟨hm, -⟩ := loadCityData_resolved B A city country s img coords found hImg hGeo hPl
    refine ⟨_, hm, ?_⟩
    show orElse (img (city ++ " city landmark")) (heroPlaceholder city) = _
    rw [orElse_eq]
    rfl

/-- Witness of C17 (amended): a state that holds a dynamic image shows it, over
the image of the static entry. -/
theorem C17_hero_image_order_witness :
    (countryModel asciiBuiltins "france" (some sampleStatic)
        { countryImage := some "https://img.example/dynamic.jpg", loading := false }).image
      = "https://img.example/dynamic.jpg" :=
  (C17_hero_image_order asciiBuiltins "france" (some sampleStatic)
    { countryImage := some "https://img.example/dynamic.jpg", loading := false }).1
    "https://img.example/dynamic.jpg" rfl (by decide)

theorem orElse_ne_empty_of_truthy (a : Option String) (b : String)
    (h : strTruthy a = true ∨ b ≠ "") : orElse a b ≠ "" := by
  rcases h with h | h
  · cases a with
    | none => simp [strTruthy] at h
    | some u =>
      have hu := (strTruthy_some_iff u).mp h
      rw [orElse_of_truthy _ hu]
      exact hu
  · exact orElse_ne_empty a h

theorem promiseAll_ok_mem {α : Type} {l : List (Except Rejection α)} {r : List α}
    (h : promiseAll l = .ok r) : ∀ c ∈ r, .ok c ∈ l := by
  induction l generalizing r with
  | nil =>
    simp only [promiseAll, Except.ok.injEq] at h
    subst h
    simp
  | cons x xs ih =>
    cases x with
    | error e => simp [promiseAll] at h
    | ok a =>
      cases hx : promiseAll xs with
      | error e => simp [promiseAll, hx] at h
      | ok as =>
        simp only [promiseAll, hx, Except.ok.injEq] at h
        subst h
        intro c hc
        rcases List.mem_cons.mp hc with hc | hc
        · subst hc
          exact List.mem_cons_self _ _
        · exact List.mem_cons_of_mem _ (ih hx c hc)

theorem categoryPromise_image {B : JSBuiltins} {A : CountryAdapters} {common : String}
    {cat : CategoryTemplate} {c : Category} (h : categoryPromise B A common cat = .ok c) :
    ∃ u, c.image = some u ∧ u ≠ "" := by
  unfold categoryPromise at h
  cases hi : A.getUnsplashImage (common ++ " " ++ cat.query) with
  | error e => simp [hi] at h
  | ok img =>
    simp only [hi, Except.ok.injEq] at h
    subst h
    refine ⟨_, rfl, ?_⟩
    apply orElse_ne_empty
    unfold categoryPlaceholder
    exact append_ne_empty (append_ne_empty (append_ne_empty (by decide)))

theorem setDynamicCategories_mem_pending {B : JSBuiltins} {A : CountryAdapters}
    {countryName : String} {staticData : Option StaticCountry} {s : CountryPageState}
    {cats : List Category}
    (h : CountryUpdate.setDynamicCategories cats
      ∈ (getCountryData B A countryName staticData s).pending) :
    ∃ common, promiseAll (defaultCategories.map (categoryPromise B A common)) = .ok cats := by
  cases hf : A.fetchCountry countryName with
  | error e => simp [getCountryData, hf] at h
  | ok data =>
    cases data with
    | none => simp [getCountryData, hf] at h
    | some d =>
      cases hr : d.apiData with
      | none => simp [getCountryData, hf, hr] at h
      | some raw =>
        cases hn : raw.name with
        | none => simp [getCountryData, hf, hr, hn] at h
        | some nm =>
          refine ⟨nm.common.toStr B, ?_⟩
          simp only [getCountryData, hf, hr, hn, List.mem_append] at h
          rcases h with (h | h) | h
          · split at h
            · split at h <;> simp at h
            · simp at h
            · simp at h
          · split at h
            · split at h <;> simp at h
            · simp at h
          · split at h
            · rename_i cs hcs
              simp only [List.mem_singleton, CountryUpdate.setDynamicCategories.injEq] at h
              rw [hcs, h]
            · simp at h

/-- C18, as stated, fails: a place PlaceFinder returns without an image is
committed without one, a city of the static list that has no image keeps none,
and the hero image of a country page shown from a static entry without image,
after the data source rejected, is the empty string. -/
theorem C18_entries_without_image :
    (loadCityData asciiBuiltins placeWithoutImage "paris" none .mounted).cityInfo.map
        (fun model => model.places.map Place.image) = some [none]
      ∧ (countryModel asciiBuiltins "france" (some sampleStatic)
          (getCountryData asciiBuiltins sampleCountryAdapters "france" (some sampleStatic)
            .mounted).settled).cities.map CityRef.image
        = [some "https://img.example/lyon.jpg", none]
      ∧ countryView asciiBuiltins "atlantis" (some bareStatic)
          (getCountryData asciiBuiltins countryRejects "atlantis" (some bareStatic)
            .mounted).settled
        = .page
            { props := [("name", .scalar (.str "Atlantis"))], description := "", image := "",
              cities := [], categories := [] } := by
  refine ⟨by decide!, by decide!, by decide!⟩

/-- C18, amended: in a city model whose adapter calls resolved, the hero image
and the image of every interest are non-empty, and so is the image of every
place when PlaceFinder returned null or an empty list. In a country model the
hero image is non-empty whenever a dynamic image is held, the static entry has
a non-empty image or API data is held; the synthesized capital entry and every
default category the fan-out writes have a non-empty image. Entries of lists
taken from the static catalog or returned by a finder keep the image they came
with. -/
theorem C18_images_present (B : JSBuiltins) :
    (∀ (A : CityAdapters) (city : String) (country : Option String) (s : CityPageState)
        (img : String → Option String) (coords : Option Coords) (found : Option (List Place)),
        (∀ q, A.getUnsplashImage q = .ok (img q)) → A.getCityCoordinates city = .ok coords →
        A.fetchPlacesForCity city = .ok found →
        ∃ model, (loadCityData B A city country s).cityInfo = some model
          ∧ model.image ≠ ""
          ∧ (∀ i ∈ model.interests, ∃ u, i.image = some u ∧ u ≠ "")
          ∧ ((found = none ∨ found = some []) → ∀ p ∈ model.places, ∃ u, p.image = some u ∧ u ≠ "")
          ∧ (∀ ps, found = some ps → ps ≠ [] → model.places = ps))
      ∧ (∀ (countryName : String) (staticData : Option StaticCountry) (st : CountryPageState),
          (strTruthy st.countryImage = true
            ∨ strTruthy (staticData.bind (fun entry => entry.image)) = true
            ∨ st.apiData ≠ none) →
          (countryModel B countryName staticData st).image ≠ "")
      ∧ (∀ (countryName : String) (api : CountryRecord),
          ∃ u, (capitalCity B countryName api).image = some u ∧ u ≠ "")
      ∧ (∀ (A : CountryAdapters) (countryName : String) (staticData : Option StaticCountry)
          (s : CountryPageState) (cats : List Category),
          CountryUpdate.setDynamicCategories cats
            ∈ (getCountryData B A countryName staticData s).pending →
          ∀ c ∈ cats, ∃ u, c.image = some u ∧ u ≠ "") := by
  refine ⟨?_, ?_, ?_, ?_⟩
  · intro A city country s img coords found hImg hGeo hPl
    obtain ⟨hm, -⟩ := loadCityData_resolved B A city country s img coords found hImg hGeo hPl
    refine ⟨_, hm, ?_, ?_, ?_, ?_⟩
    · show orElse _ (heroPlaceholder city) ≠ ""
      apply orElse_ne_empty
      unfold heroPlaceholder
      exact append_ne_empty (append_ne_empty (by decide))
    · intro i hi
      simp only [List.mem_map] at hi
      obtain ⟨t, -, rfl⟩ := hi
      refine ⟨_, rfl, ?_⟩
      apply orElse_ne_empty
      unfold interestPlaceholder
      exact append_ne_empty (append_ne_empty (append_ne_empty (by decide)))
    · intro hf p hp
      have hfilter : (found.filter (fun l => !l.isEmpty)) = none := by
        rcases hf with hf | hf <;> subst hf <;> rfl
      simp only [hfilter, Option.getD_none, List.mem_map] at hp
      obtain ⟨t, -, rfl⟩ := hp
      refine ⟨_, rfl, ?_⟩
      apply orElse_ne_empty
      unfold placePlaceholder
      exact append_ne_empty (append_ne_empty (append_ne_empty (by decide)))
    · intro ps hf hne
      subst hf
      cases ps with
      | nil => exact absurd rfl hne
      | cons p qs => rfl
  · intro countryName staticData st h
    rw [countryModel_image]
    apply orElse_ne_empty_of_truthy
    rcases h with h | h | h
    · exact Or.inl h
    · exact Or.inr (orElse_ne_empty_of_truthy _ _ (Or.inl h))
    · refine Or.inr (orElse_ne_empty_of_truthy _ _ (Or.inr ?_))
      cases ha : st.apiData with
      | none => exact absurd ha h
      | some api => exact append_ne_empty (append_ne_empty (by decide))
  · intro countryName api
    refine ⟨_, rfl, ?_⟩
    exact append_ne_empty (append_ne_empty (by decide))
  · intro A countryName staticData s cats hmem c hc
    obtain ⟨common, hall⟩ := setDynamicCategories_mem_pending hmem
    have hin := promiseAll_ok_mem hall c hc
    simp only [List.mem_map] at hin
    obtain ⟨t, -, ht⟩ := hin
    exact categoryPromise_image ht

/-- Witness of C18 (amended): a page that holds the sample record has a
non-empty hero image though neither a dynamic nor a static image exists. -/
theorem C18_images_present_witness :
    (countryModel asciiBuiltins "france" none
        { apiData := some sampleRecord, loading := false }).image ≠ "" :=
  (C18_images_present asciiBuiltins).2.1 "france" none
    { apiData := some sampleRecord, loading := false } (Or.inr (Or.inr (by simp)))

theorem countryModel_props (B : JSBuiltins) (countryName : String) (entry : StaticCountry)
    (st : CountryPageState) (k : String) :
    getProp (countryModel B countryName (some entry) st).props k
      = match st.apiData with
        | some api => if hasKey api.props k then getProp api.props k else getProp entry.props k
        | none => getProp entry.props k := by
  unfold countryModel
  cases st.apiData with
  | none => simp
  | some api => simp only [getProp_append]

/-- C19, as stated, fails for the identity field name: the static entry is named
"La France", the API record "France", and the merged model carries the name of
the API record. -/
theorem C19_api_name_overrides_static_name :
    getProp sampleStatic.props "name" = .scalar (.str "La France")
      ∧ getProp sampleRecord.props "name" = .scalar (.str "France")
      ∧ getProp (countryModel asciiBuiltins "france" (some sampleStatic)
          (getCountryData asciiBuiltins sampleCountryAdapters "france" (some sampleStatic)
            .mounted).settled).props "name"
        = .scalar (.str "France") := by
  refine ⟨by decide!, by decide!, by decide!⟩

/-- C19, amended: in the merged country model the description, the cities list
and the categories list of the static entry are kept whenever they are
non-empty (present, for categories), and so is its image unless a dynamic image
is held. Every other key (name, capital, region, population, ...) has the value
of the API record when that record has the key, and the value of the static
entry only when the API record lacks the key or no API data is held. -/
theorem C19_merge_precedence (B : JSBuiltins) (countryName : String) (entry : StaticCountry)
    (st : CountryPageState) :
    (∀ k, getProp (countryModel B countryName (some entry) st).props k
        = match st.apiData with
          | some api => if hasKey api.props k then getProp api.props k else getProp entry.props k
          | none => getProp entry.props k)
      ∧ (∀ d, entry.description = some d → d ≠ "" →
          (countryModel B countryName (some entry) st).description = d)
      ∧ (∀ cities, entry.cities = some cities → cities ≠ [] →
          (countryModel B countryName (some entry) st).cities = cities)
      ∧ (∀ cats, entry.categories = some cats →
          (countryModel B countryName (some entry) st).categories = cats)
      ∧ (∀ simg, entry.image = some simg → simg ≠ "" →
          (st.countryImage = none ∨ st.countryImage = some "") →
          (countryModel B countryName (some entry) st).image = simg) := by
  refine ⟨countryModel_props B countryName entry st, ?_, ?_, ?_, ?_⟩
  · intro d hd hne
    show orElse (Option.bind (some entry) (fun e => e.description)) _ = d
    simp only [Option.bind, hd]
    exact orElse_of_truthy _ hne
  · intro cities hc hne
    exact citiesToUse_static B countryName entry st cities hc hne
  · intro cats hc
    show categoriesToUse (some entry) st = cats
    simp only [categoriesToUse, Option.bind, hc]
  · intro simg hi hne hd
    rw [countryModel_image, orElse_of_falsy _ hd]
    simp only [Option.bind, hi]
    exact orElse_of_truthy _ hne

/-- Witness of C19 (amended): the description of the sample static entry is kept
when the page holds the sample record. -/
theorem C19_merge_precedence_witness :
    (countryModel asciiBuiltins "france" (some sampleStatic)
        { apiData := some sampleRecord, loading := false }).description
      = "Art, wine and the Alps." :=
  (C19_merge_precedence asciiBuiltins "france" sampleStatic
    { apiData := some sampleRecord, loading := false }).2.1 "Art, wine and the Alps." rfl
    (by decide)

theorem categoryPromise_ok {B : JSBuiltins} {A : CountryAdapters} {common : String}
    {t : CategoryTemplate} {img : Option String}
    (h : A.getUnsplashImage (common ++ " " ++ t.query) = .ok img) :
    categoryPromise B A common t
      = .ok { name := t.name, query := some t.query, description := some t.description,
              featured := t.featured,
              image := some (orElse img (categoryPlaceholder B common t)) } := by
  simp only [categoryPromise, h]

/-- C20: when the static entry has a categories list the categories of the model
are that list. Otherwise, after a run whose data source returned a record with a
name object and whose image calls resolved, once the handlers have run the
categories are the four defaults Culture, Nature, Food, Adventure in that order,
each with the image ImageResolver returned for "{common name} {query}" when that
is non-empty and with the placeholder
"https://loremflickr.com/800/600/{common name},{lower-cased category name}"
otherwise. -/
theorem C20_categories (B : JSBuiltins) (countryName : String) :
    (∀ (entry : StaticCountry) (cats : List Category) (st : CountryPageState),
        entry.categories = some cats →
        (countryModel B countryName (some entry) st).categories = cats)
      ∧ (∀ (A : CountryAdapters) (staticData : Option StaticCountry) (s : CountryPageState)
          (d : CountryRecord) (raw : RawCountry) (nm : RawName) (img : String → Option String),
          (∀ entry, staticData = some entry → entry.categories = none) →
          A.fetchCountry countryName = .ok (some d) → d.apiData = some raw →
          raw.name = some nm → (∀ q, A.getUnsplashImage q = .ok (img q)) →
          ((countryModel B countryName staticData
              (getCountryData B A countryName staticData s).settled).categories.map Category.name
              = ["Culture", "Nature", "Food", "Adventure"])
            ∧ (countryModel B countryName staticData
                (getCountryData B A countryName staticData s).settled).categories
              = defaultCategories.map (fun t =>
                  { name := t.name, query := some t.query, description := some t.description,
                    featured := t.featured,
                    image := some
                      (match img (nm.common.toStr B ++ " " ++ t.query) with
                       | some u =>
                         if u = "" then
                           "https://loremflickr.com/800/600/" ++ nm.common.toStr B ++ ","
                             ++ B.toLowerCase t.name
                         else u
                       | none =>
                         "https://loremflickr.com/800/600/" ++ nm.common.toStr B ++ ","
                           ++ B.toLowerCase t.name) })) := by
  refine ⟨?_, ?_⟩
  · intro entry cats st hc
    show categoriesToUse (some entry) st = cats
    simp only [categoriesToUse, Option.bind, hc]
  · intro A staticData s d raw nm img hs hf hr hn hImg
    have hall := promiseAll_map_ok (categoryPromise B A (nm.common.toStr B)) _ defaultCategories
      (fun t _ => categoryPromise_ok (hImg (nm.common.toStr B ++ " " ++ t.query)))
    have hcat : (countryModel B countryName staticData
        (getCountryData B A countryName staticData s).settled).categories
        = defaultCategories.map (fun t =>
            { name := t.name, query := some t.query, description := some t.description,
              featured := t.featured,
              image := some (orElse (img (nm.common.toStr B ++ " " ++ t.query))
                (categoryPlaceholder B (nm.common.toStr B) t)) }) := by
      show categoriesToUse staticData _ = _
      rw [getCountryData_settled_named B A countryName staticData s d raw nm hf hr hn]
      have hnone : staticData.bind (fun entry => entry.categories) = none := by
        cases staticData with
        | none => rfl
        | some entry => exact hs entry rfl
      simp only [categoriesToUse, hnone, hall]
      rfl
    refine ⟨by rw [hcat]; rfl, ?_⟩
    rw [hcat]
    apply List.map_congr_left
    intro t _
    rw [orElse_eq]
    rfl

/-- Witness of C20: the sample adapters, whose image calls resolve to nothing,
on a page without static entry. -/
theorem C20_categories_witness :
    (countryModel asciiBuiltins "france" none
        (getCountryData asciiBuiltins sampleCountryAdapters "france" none
          .mounted).settled).categories.map Category.name
      = ["Culture", "Nature", "Food", "Adventure"] :=
  ((C20_categories asciiBuiltins "france").2 sampleCountryAdapters none .mounted sampleRecord
    { name := some { common := .str "France" }, cca2 := .str "FR" } { common := .str "France" }
    (fun _ => none) (by simp) rfl rfl rfl (fun _ => rfl)).1

theorem renderedMarkers_keys_positions (B : JSBuiltins) (ps : List Place) (k : Nat) :
    (renderedMarkers (mapIdx B ps k)).map (fun m => (m.key, m.position))
      = ((ps.enumFrom k).filter (fun ip => ip.2.lat.truthy && ip.2.lon.truthy)).map
          (fun ip => (ip.1, (parseFloat ip.2.lat, parseFloat ip.2.lon))) := by
  induction ps generalizing k with
  | nil => rfl
  | cons q qs ih =>
    have ih := ih (k + 1)
    unfold renderedMarkers at *
    cases hq : hasCoords q with
    | false =>
      have hq2 : (q.lat.truthy && q.lon.truthy) = false := hq
      simp [mapIdx, renderMarker_eq_none.mpr hq, List.enumFrom_cons, List.filter_cons, hq2, ih]
    | true =>
      have hq2 : (q.lat.truthy && q.lon.truthy) = true := hq
      cases hr : renderMarker B q k with
      | none => rw [renderMarker_eq_none] at hr; simp [hq] at hr
      | some m =>
        obtain ⟨-, hk, hm, -⟩ := renderMarker_eq_some hr
        simp [mapIdx, hr, List.enumFrom_cons, List.filter_cons, hq2, ih, hm, hk, positionOf]

theorem updaterMarkers_eq_enum (ps : List Place) (k : Nat) :
    updaterMarkers ps
      = ((ps.enumFrom k).filter (fun ip => ip.2.lat.truthy && ip.2.lon.truthy)).map
          (fun ip => (parseFloat ip.2.lat, parseFloat ip.2.lon)) := by
  induction ps generalizing k with
  | nil => rfl
  | cons q qs ih =>
    have ih := ih (k + 1)
    unfold updaterMarkers at *
    cases hq : hasCoords q with
    | false =>
      have hq2 : (q.lat.truthy && q.lon.truthy) = false := hq
      simp [List.enumFrom_cons, List.filter_cons, hq, hq2, ih]
    | true =>
      have hq2 : (q.lat.truthy && q.lon.truthy) = true := hq
      simp [List.enumFrom_cons, List.filter_cons, hq, hq2, ih, positionOf]

/-! ## The two paths of the map agree (C24) -/

/-- C24: for every places list the positions MapUpdater feeds to the bounds
computation are the positions of the markers MapMarkers renders, in the same
order. When MapMarkers renders a marker, MapUpdater issues exactly one fitBounds
and its bounds are built from the marker positions, so every marker is in the
fitted bounds; when it renders none, MapUpdater runs its fallback and fits
nothing. Index by index: the indexed points that pass the filter of MapUpdater
are the keys and positions of the markers, and the point at an index passes the
filter if and only if MapMarkers renders a marker for that index. -/
theorem C24_bounds_positions_are_marker_positions (B : JSBuiltins) (center : Option Center)
    (ps : List Place) :
    ∃ slots, MapMarkers B (some ps) = .ok slots
      ∧ (renderedMarkers slots).map Marker.position
        = (ps.filter (fun p => p.lat.truthy && p.lon.truthy)).map
            (fun p => (parseFloat p.lat, parseFloat p.lon))
      ∧ (∀ b pad z, MapCmd.fitBounds b pad z ∈ MapUpdater center (some ps) →
          b.points = (renderedMarkers slots).map Marker.position)
      ∧ (∀ i p, ps[i]? = some p →
          ((∃ m ∈ renderedMarkers slots, m.key = i) ↔ (p.lat.truthy && p.lon.truthy) = true))
      ∧ (renderedMarkers slots ≠ [] →
          MapUpdater center (some ps)
            = [.fitBounds ⟨(renderedMarkers slots).map Marker.position⟩ (50, 50) 12])
      ∧ (renderedMarkers slots = [] →
          MapUpdater center (some ps) = updaterFallback center
            ∧ ∀ b pad z, MapCmd.fitBounds b pad z ∉ MapUpdater center (some ps))
      ∧ (∀ m ∈ renderedMarkers slots, ∃ b pad z,
          MapCmd.fitBounds b pad z ∈ MapUpdater center (some ps) ∧ m.position ∈ b.points)
      ∧ (renderedMarkers slots).map (fun m => (m.key, m.position))
        = (ps.enum.filter (fun ip => ip.2.lat.truthy && ip.2.lon.truthy)).map
            (fun ip => (ip.1, (parseFloat ip.2.lat, parseFloat ip.2.lon)))
      ∧ ((ps.enum.filter (fun ip => ip.2.lat.truthy && ip.2.lon.truthy)) ≠ [] →
          MapUpdater center (some ps)
            = [.fitBounds
                ⟨(ps.enum.filter (fun ip => ip.2.lat.truthy && ip.2.lon.truthy)).map
                  (fun ip => (parseFloat ip.2.lat, parseFloat ip.2.lon))⟩ (50, 50) 12]) := by
  have hpos := renderedMarkers_positions B ps 0
  have hfit : renderedMarkers (mapIdx B ps 0) ≠ [] →
      MapUpdater center (some ps)
        = [.fitBounds ⟨(renderedMarkers (mapIdx B ps 0)).map Marker.position⟩ (50, 50) 12] := by
    intro hne
    rw [hpos]
    apply MapUpdater_of_markers
    intro hnil
    rw [← hpos] at hnil
    exact hne (List.map_eq_nil_iff.mp hnil)
  refine ⟨mapIdx B ps 0, rfl, hpos, ?_, ?_, hfit, ?_, ?_,
    renderedMarkers_keys_positions B ps 0, ?_⟩
  · intro b pad z hmem
    rw [renderedMarkers_positions]
    by_cases hm : updaterMarkers ps = []
    · rw [MapUpdater_of_no_markers (by intro qs hqs; cases hqs; exact hm)] at hmem
      cases center <;> simp [updaterFallback] at hmem
    · rw [MapUpdater_of_markers hm] at hmem
      simp only [List.mem_singleton, MapCmd.fitBounds.injEq] at hmem
      rw [hmem.1]
  · intro i p hp
    constructor
    · rintro ⟨m, hm, hk⟩
      obtain ⟨j, q, hq, hr⟩ := mem_renderedMarkers.mp hm
      obtain ⟨hc, hkey, -⟩ := renderMarker_eq_some hr
      rw [hkey] at hk
      subst hk
      rw [hq] at hp
      cases hp
      exact hc
    · intro hc
      cases hr : renderMarker B p i with
      | none =>
        rw [renderMarker_eq_none] at hr
        simp [hasCoords, hc] at hr
      | some m =>
        exact ⟨m, mem_renderedMarkers.mpr ⟨i, p, hp, hr⟩, (renderMarker_eq_some hr).2.1⟩
  · intro hnil
    have hm : updaterMarkers ps = [] := by rw [← hpos, hnil]; rfl
    have hfb : MapUpdater center (some ps) = updaterFallback center :=
      MapUpdater_of_no_markers (by intro qs hqs; cases hqs; exact hm)
    refine ⟨hfb, ?_⟩
    intro b pad z hmem
    rw [hfb] at hmem
    cases center <;> simp [updaterFallback] at hmem
  · intro m hm
    refine ⟨⟨(renderedMarkers (mapIdx B ps 0)).map Marker.position⟩, (50, 50), 12, ?_, ?_⟩
    · rw [hfit (List.ne_nil_of_mem hm)]
      exact List.mem_singleton.mpr rfl
    · exact List.mem_map_of_mem _ hm
  · intro hne
    have hen : updaterMarkers ps
        = (ps.enum.filter (fun ip => ip.2.lat.truthy && ip.2.lon.truthy)).map
            (fun ip => (parseFloat ip.2.lat, parseFloat ip.2.lon)) :=
      updaterMarkers_eq_enum ps 0
    rw [← hen]
    apply MapUpdater_of_markers
    intro hnil
    rw [hen] at hnil
    exact hne (List.map_eq_nil_iff.mp hnil)

/-- Witness of C24 on the scenario points: the first and the third point have a
marker, and the one fitBounds command is built from the positions of these two
markers. -/
theorem C24_bounds_positions_are_marker_positions_witness :
    ∃ slots, MapMarkers asciiBuiltins (some scenarioPoints) = .ok slots
      ∧ (renderedMarkers slots).map Marker.position
        = (scenarioPoints.filter (fun p => p.lat.truthy && p.lon.truthy)).map
            (fun p => (parseFloat p.lat, parseFloat p.lon))
      ∧ (∀ b pad z, MapCmd.fitBounds b pad z ∈ MapUpdater none (some scenarioPoints) →
          b.points = (renderedMarkers slots).map Marker.position)
      ∧ (∀ i p, scenarioPoints[i]? = some p →
          ((∃ m ∈ renderedMarkers slots, m.key = i) ↔ (p.lat.truthy && p.lon.truthy) = true))
      ∧ (renderedMarkers slots ≠ [] →
          MapUpdater none (some scenarioPoints)
            = [.fitBounds ⟨(renderedMarkers slots).map Marker.position⟩ (50, 50) 12])
      ∧ (renderedMarkers slots = [] →
          MapUpdater none (some scenarioPoints) = updaterFallback none
            ∧ ∀ b pad z, MapCmd.fitBounds b pad z ∉ MapUpdater none (some scenarioPoints))
      ∧ (∀ m ∈ renderedMarkers slots, ∃ b pad z,
          MapCmd.fitBounds b pad z ∈ MapUpdater none (some scenarioPoints) ∧ m.position ∈ b.points)
      ∧ (renderedMarkers slots).map (fun m => (m.key, m.position))
        = (scenarioPoints.enum.filter (fun ip => ip.2.lat.truthy && ip.2.lon.truthy)).map
            (fun ip => (ip.1, (parseFloat ip.2.lat, parseFloat ip.2.lon)))
      ∧ ((scenarioPoints.enum.filter (fun ip => ip.2.lat.truthy && ip.2.lon.truthy)) ≠ [] →
          MapUpdater none (some scenarioPoints)
            = [.fitBounds
                ⟨(scenarioPoints.enum.filter (fun ip => ip.2.lat.truthy && ip.2.lon.truthy)).map
                  (fun ip => (parseFloat ip.2.lat, parseFloat ip.2.lon))⟩ (50, 50) 12]) :=
  C24_bounds_positions_are_marker_positions asciiBuiltins none scenarioPoints

/-! ## Placeholders without spaces (C25) -/

theorem replaceFirst_count (a b : Char) (hab : b ≠ a) (l : List Char) :
    (replaceFirst a b l).count a = l.count a - 1 := by
  induction l with
  | nil => rfl
  | cons c cs ih =>
    unfold replaceFirst
    by_cases hc : c = a
    · subst hc
      simp [List.count_cons, hab]
    · have hca : ¬ (c == a) = true := by simpa using hc
      simp only [hc, if_false, List.count_cons, hca, ih]
      simp

theorem not_mem_data_append {c : Char} {a b : String} (ha : c ∉ a.data) (hb : c ∉ b.data) :
    c ∉ (a ++ b).data := by
  rw [String.data_append, List.mem_append]
  exact fun h => h.elim ha hb

/-- C25: for a city slug without a space the placeholder URL of each of the six
template places and of each of the four template interests has no space: every
template query has exactly one space, and the placeholder turns the first space
of the query, and only that one, into a comma. -/
theorem C25_placeholders_have_no_space (city : String) (h : ' ' ∉ city.data) :
    (∀ t ∈ templatePlaces, ' ' ∉ (placePlaceholder city t.query).data)
      ∧ (∀ t ∈ templateInterests, ' ' ∉ (interestPlaceholder city t.query).data)
      ∧ templatePlaces.length = 6 ∧ templateInterests.length = 4
      ∧ (∀ t ∈ templatePlaces ++ templateInterests, t.query.data.count ' ' = 1)
      ∧ (∀ query : String, (queryTags query).data.count ' ' = query.data.count ' ' - 1) := by
  have hp : ∀ t ∈ templatePlaces, ' ' ∉ (queryTags t.query).data := by decide
  have hi : ∀ t ∈ templateInterests, ' ' ∉ (queryTags t.query).data := by decide
  refine ⟨?_, ?_, rfl, rfl, by decide, ?_⟩
  · intro t ht
    unfold placePlaceholder
    exact not_mem_data_append
      (not_mem_data_append (not_mem_data_append (by decide) h) (by decide)) (hp t ht)
  · intro t ht
    unfold interestPlaceholder
    exact not_mem_data_append
      (not_mem_data_append (not_mem_data_append (by decide) h) (by decide)) (hi t ht)
  · intro query
    exact replaceFirst_count ' ' ',' (by decide) query.data

/-- Witness of C25: the slug "paris". -/
theorem C25_placeholders_have_no_space_witness :
    (∀ t ∈ templatePlaces, ' ' ∉ (placePlaceholder "paris" t.query).data)
      ∧ (∀ t ∈ templateInterests, ' ' ∉ (interestPlaceholder "paris" t.query).data)
      ∧ templatePlaces.length = 6 ∧ templateInterests.length = 4
      ∧ (∀ t ∈ templatePlaces ++ templateInterests, t.query.data.count ' ' = 1)
      ∧ (∀ query : String, (queryTags query).data.count ' ' = query.data.count ' ' - 1) :=
  C25_placeholders_have_no_space "paris" (by decide)

/-! ## Points of the country map (C26) -/

theorem attraction_not_prefix_of_country (rest : List Char) :
    ¬ ("/attraction/".data <+: "/country/".data ++ rest) := by
  rintro ⟨t, ht⟩
  have ha : "/attraction/".data = '/' :: 'a' :: "ttraction/".data := rfl
  have hc : "/country/".data = '/' :: 'c' :: "ountry/".data := rfl
  rw [ha, hc] at ht
  simp at ht

/-- C26: the points handed to the country map are one for each city, in the
order of the cities; each keeps the name, image and coordinates of its city and
carries the descriptor "Major City" and the link
"/country/{countryName}/city/{lower-cased city name}". Every marker on that map
has this link as its details link, which is not an "/attraction/..." link. -/
theorem C26_country_map_points (B : JSBuiltins) (countryName : String) (cities : List CityRef) :
    (countryMapPoints B countryName cities).length = cities.length
      ∧ (∀ (i : Nat) (c : CityRef), cities[i]? = some c →
          (countryMapPoints B countryName cities)[i]?
            = some ({ name := c.name, image := c.image, lat := c.lat, lon := c.lon
                      descriptor := some "Major City"
                      link := some ("/country/" ++ countryName ++ "/city/"
                        ++ B.toLowerCase c.name) } : Place))
      ∧ (∀ slots m, MapMarkers B (some (countryMapPoints B countryName cities)) = .ok slots →
          m ∈ renderedMarkers slots →
          ∃ c, cities[m.key]? = some c
            ∧ m.popup.detailsTo
              = "/country/" ++ countryName ++ "/city/" ++ B.toLowerCase c.name
            ∧ ¬ ("/attraction/".data <+: m.popup.detailsTo.data)) := by
  refine ⟨by simp [countryMapPoints], ?_, ?_⟩
  · intro i c hc
    simp [countryMapPoints, List.getElem?_map, hc]
  · intro slots m hs hm
    obtain ⟨p, hp, hr⟩ := marker_of_MapMarkers hs hm
    simp only [countryMapPoints, List.getElem?_map] at hp
    cases hc : cities[m.key]? with
    | none => simp [hc] at hp
    | some c =>
      simp only [hc, Option.map_some', Option.some.injEq] at hp
      have hpop := (renderMarker_eq_some hr).2.2.2.2
      have hlink : m.popup.detailsTo
          = "/country/" ++ countryName ++ "/city/" ++ B.toLowerCase c.name := by
        rw [hpop, ← hp]
        simp only [detailsTo]
        have hne : ("/country/" ++ countryName ++ "/city/" ++ B.toLowerCase c.name) ≠ "" :=
          append_ne_empty (append_ne_empty (append_ne_empty (by decide)))
        simp [(strTruthy_some_iff _).mpr hne]
      refine ⟨c, rfl, hlink, ?_⟩
      rw [hlink]
      simp only [String.data_append, List.append_assoc]
      exact attraction_not_prefix_of_country _

/-- Witness of C26: the two cities of the sample static entry. -/
theorem C26_country_map_points_witness :
    (countryMapPoints asciiBuiltins "france"
        [{ name := "Lyon", image := some "https://img.example/lyon.jpg" }, { name := "Nice" }])[1]?
      = some ({ name := "Nice", image := none, lat := .undefined, lon := .undefined
                descriptor := some "Major City"
                link := some ("/country/" ++ "france" ++ "/city/"
                  ++ asciiBuiltins.toLowerCase "Nice") } : Place) :=
  (C26_country_map_points asciiBuiltins "france"
    [{ name := "Lyon", image := some "https://img.example/lyon.jpg" }, { name := "Nice" }]).2.1
    1 { name := "Nice" } rfl

/-! ## Neighbour list (C23, C27) -/

theorem loadNearbyCities_frame (A : CityAdapters) (city : String) (s : CityPageState) :
    (loadNearbyCities A city s).cityInfo = s.cityInfo
      ∧ (loadNearbyCities A city s).loading = s.loading
      ∧ (loadNearbyCities A city s).mapCenter = s.mapCenter := by
  unfold loadNearbyCities
  cases A.fetchCitiesNearCity city <;> exact ⟨rfl, rfl, rfl⟩

theorem cityView_eq_notFound_iff (s : CityPageState) :
    cityView s = .notFound ↔ s.loading = false ∧ s.cityInfo = none := by
  unfold cityView
  cases s.loading <;> cases s.cityInfo <;> simp

/-- C23: in every state in which the city page is shown (loading finished, a
model present) the "Explore Nearby" section is rendered if and only if the
neighbour list is non-empty, and in no state is it rendered with an empty list.
A NeighborFinder call that rejects or resolves to an empty list leaves the
model, the loading flag and the map centre as they were, so it never turns the
page into the "City not found" state; an empty result leaves the section out. -/
theorem C23_explore_nearby_section (s : CityPageState) :
    (∀ model, s.loading = false → s.cityInfo = some model →
        (exploreNearbyShown (cityView s) = true ↔ s.nearbyCities ≠ []))
      ∧ (exploreNearbyShown (cityView s) = true → s.nearbyCities ≠ [])
      ∧ (∀ (A : CityAdapters) (city : String),
          ((∃ e, A.fetchCitiesNearCity city = .error e) ∨ A.fetchCitiesNearCity city = .ok []) →
          (loadNearbyCities A city s).cityInfo = s.cityInfo
            ∧ (loadNearbyCities A city s).loading = s.loading
            ∧ (loadNearbyCities A city s).mapCenter = s.mapCenter
            ∧ (cityView (loadNearbyCities A city s) = .notFound ↔ cityView s = .notFound))
      ∧ (∀ (A : CityAdapters) (city : String), A.fetchCitiesNearCity city = .ok [] →
          exploreNearbyShown (cityView (loadNearbyCities A city s)) = false) := by
  refine ⟨?_, ?_, ?_, ?_⟩
  · intro model hl hm
    simp only [cityView, hl, hm, exploreNearbyShown]
    cases s.nearbyCities <;> simp
  · unfold cityView
    cases s.loading <;> cases s.cityInfo <;> cases hn : s.nearbyCities <;>
      simp [exploreNearbyShown, hn]
  · intro A city _
    obtain ⟨h1, h2, h3⟩ := loadNearbyCities_frame A city s
    refine ⟨h1, h2, h3, ?_⟩
    rw [cityView_eq_notFound_iff, cityView_eq_notFound_iff, h1, h2]
  · intro A city h
    unfold loadNearbyCities
    rw [h]
    unfold cityView
    cases s.loading <;> cases s.cityInfo <;> simp [exploreNearbyShown]

/-- Witness of C23: a shown page with one neighbour renders the section. -/
theorem C23_explore_nearby_section_witness :
    exploreNearbyShown
        (cityView (cityEffect asciiBuiltins lyonAdapters (some "lyon") (some "france") .mounted))
        = true
      ↔ (cityEffect asciiBuiltins lyonAdapters (some "lyon") (some "france")
          .mounted).nearbyCities ≠ [] :=
  match h : (cityEffect asciiBuiltins lyonAdapters (some "lyon") (some "france")
      .mounted).cityInfo with
  | some model =>
    (C23_explore_nearby_section
      (cityEffect asciiBuiltins lyonAdapters (some "lyon") (some "france") .mounted)).1
      model (by decide!) h
  | none => absurd h (by decide!)

theorem loadCityDataTry_nearbyCities (B : JSBuiltins) (A : CityAdapters) (city : String)
    (country : Option String) (s : CityPageState) :
    (loadCityDataTry B A city country s).1.nearbyCities = s.nearbyCities := by
  unfold loadCityDataTry
  cases A.getUnsplashImage (city ++ " city landmark") with
  | error e => rfl
  | ok mainImage =>
    cases A.getCityCoordinates city with
    | error e => rfl
    | ok coords =>
      cases A.fetchPlacesForCity city with
      | error e => cases coords <;> rfl
      | ok found =>
        cases promiseAll (templateInterests.map (interestPromise A city)) with
        | error e =>
          cases promiseAll (templatePlaces.map (placePromise A city)) <;>
            cases coords <;> cases found with
            | none => rfl
            | some l => cases l <;> rfl
        | ok interests =>
          cases promiseAll (templatePlaces.map (placePromise A city)) <;>
            cases coords <;> cases found with
            | none => rfl
            | some l => cases l <;> rfl

theorem loadCityData_nearbyCities (B : JSBuiltins) (A : CityAdapters) (city : String)
    (country : Option String) (s : CityPageState) :
    (loadCityData B A city country s).nearbyCities = s.nearbyCities :=
  loadCityDataTry_nearbyCities B A city country { s with loading := true }

/-- C27: when the NeighborFinder call of a city load rejects, the neighbour list
is left exactly as it was before the load; it is not reset to empty. After the
load of a city A that found neighbours, the load of a city B whose lookup
rejects leaves the neighbours of A in the state. -/
theorem C27_failed_lookup_keeps_neighbours (B : JSBuiltins) (A : CityAdapters) (city : String)
    (country : Option String) (s : CityPageState) (e : Rejection)
    (hc : city.data.isEmpty = false) (h : A.fetchCitiesNearCity city = .error e) :
    (cityEffect B A (some city) country s).nearbyCities = s.nearbyCities
      ∧ loadNearbyCities A city s = s
      ∧ ∀ (A0 : CityAdapters) (city0 : String) (country0 : Option String) (s0 : CityPageState)
          (found : List NeighborRef),
          city0.data.isEmpty = false → A0.fetchCitiesNearCity city0 = .ok found →
          s = cityEffect B A0 (some city0) country0 s0 →
          (cityEffect B A (some city) country s).nearbyCities = found := by
  have h1 : (cityEffect B A (some city) country s).nearbyCities = s.nearbyCities := by
    simp only [cityEffect, hc, Bool.false_eq_true, if_false, loadNearbyCities, h]
    exact loadCityData_nearbyCities B A city country s
  refine ⟨h1, by simp only [loadNearbyCities, h], ?_⟩
  intro A0 city0 country0 s0 found hc0 h0 hs
  rw [h1, hs]
  simp only [cityEffect, hc0, Bool.false_eq_true, if_false, loadNearbyCities, h0]

/-- Witness of C27: after the load of "lyon", which found the neighbour
"Vienne", the load of "nice" with a rejecting lookup still holds "Vienne". -/
theorem C27_failed_lookup_keeps_neighbours_witness :
    (cityEffect asciiBuiltins neighborRejects (some "nice") (some "france")
        (cityEffect asciiBuiltins lyonAdapters (some "lyon") (some "france")
          .mounted)).nearbyCities
      = [{ name := "Vienne" }] :=
  (C27_failed_lookup_keeps_neighbours asciiBuiltins neighborRejects "nice" (some "france")
    (cityEffect asciiBuiltins lyonAdapters (some "lyon") (some "france") .mounted)
    "network error" rfl rfl).2.2 lyonAdapters "lyon" (some "france") .mounted
    [{ name := "Vienne" }] rfl rfl rfl

/-! ## The loading flag (C29) -/

/-- C29: whatever the adapters do (resolve or reject at any awaited call), the
loading flag is false when loadCityData has finished and when getCountryData has
finished, and stays false when the handlers of getCountryData run; the page is
not in the loading state afterwards. -/
theorem C29_loading_cleared (B : JSBuiltins) :
    (∀ (A : CityAdapters) (city : String) (country : Option String) (s : CityPageState),
        (loadCityData B A city country s).loading = false
          ∧ (loadNearbyCities A city (loadCityData B A city country s)).loading = false
          ∧ cityView (loadCityData B A city country s) ≠ .loading)
      ∧ (∀ (A : CountryAdapters) (countryName : String) (staticData : Option StaticCountry)
          (s : CountryPageState),
          (getCountryData B A countryName staticData s).state.loading = false
            ∧ (getCountryData B A countryName staticData s).settled.loading = false
            ∧ countryView B countryName staticData
                (getCountryData B A countryName staticData s).state ≠ .loading
            ∧ countryView B countryName staticData
                (getCountryData B A countryName staticData s).settled ≠ .loading) := by
  constructor
  · intro A city country s
    have hl : (loadCityData B A city country s).loading = false := rfl
    refine ⟨hl, by rw [(loadNearbyCities_frame _ _ _).2.1, hl], ?_⟩
    unfold cityView
    rw [hl]
    cases (loadCityData B A city country s).cityInfo <;> simp
  · intro A countryName staticData s
    have h1 := getCountryData_state_loading B A countryName staticData s
    have h2 : (getCountryData B A countryName staticData s).settled.loading = false := by
      unfold CountryRun.settled
      rw [foldl_apply_loading, h1]
    refine ⟨h1, h2, ?_, ?_⟩
    · unfold countryView
      rw [h1]
      split <;> simp
    · unfold countryView
      rw [h2]
      split <;> simp

/-! ## What a committed city model carries (C21, C28) -/

theorem promiseAll_map_eq_ok {α β : Type} {f : α → Except Rejection β} {g : α → β}
    (hfg : ∀ x y, f x = .ok y → y = g x) {l : List α} {r : List β}
    (h : promiseAll (l.map f) = .ok r) : r = l.map g ∧ ∀ x ∈ l, f x = .ok (g x) := by
  induction l generalizing r with
  | nil =>
    simp only [List.map_nil, promiseAll, Except.ok.injEq] at h
    subst h
    simp
  | cons a as ih =>
    cases ha : f a with
    | error e => simp [promiseAll, ha] at h
    | ok y =>
      cases has : promiseAll (as.map f) with
      | error e => simp [promiseAll, ha, has] at h
      | ok ys =>
        simp only [List.map_cons, promiseAll, ha, has, Except.ok.injEq] at h
        subst h
        obtain ⟨h1, h2⟩ := ih has
        have hy := hfg a y ha
        subst hy
        refine ⟨by rw [h1, List.map_cons], ?_⟩
        intro x hx
        rcases List.mem_cons.mp hx with hx | hx
        · subst hx
          exact ha
        · exact h2 x hx

/-- A run of the `try` block that reaches `setCityInfo`: the calls it awaited
resolved, and the model it committed is the initial data with the hero image,
the places and the interests replaced. -/
theorem loadCityDataTry_committed {B : JSBuiltins} {A : CityAdapters} {city : String}
    {country : Option String} {s : CityPageState}
    (h : (loadCityDataTry B A city country s).2 = .ok ()) :
    ∃ mainImage places interests,
      A.getUnsplashImage (city ++ " city landmark") = .ok mainImage
        ∧ promiseAll (templateInterests.map (interestPromise A city)) = .ok interests
        ∧ (loadCityDataTry B A city country s).1.cityInfo = some
            { name := (initialData B city country).name
              identity := (initialData B city country).identity
              image := orElse mainImage (heroPlaceholder city)
              quickFacts := (initialData B city country).quickFacts
              places := places
              interests := interests
              tips := (initialData B city country).tips } := by
  unfold loadCityDataTry at h ⊢
  cases h1 : A.getUnsplashImage (city ++ " city landmark") with
  | error e => simp [h1] at h
  | ok mainImage =>
    cases h2 : A.getCityCoordinates city with
    | error e => simp [h1, h2] at h
    | ok coords =>
      cases h3 : A.fetchPlacesForCity city with
      | error e => simp [h1, h2, h3] at h
      | ok found =>
        cases h5 : promiseAll (templateInterests.map (interestPromise A city)) with
        | error e =>
          simp only [h1, h2, h3, h5] at h
          split at h <;> simp at h
        | ok interests =>
          simp only [h1, h2, h3, h5] at h ⊢
          split at h
          · simp at h
          · rename_i places hplaces
            exact ⟨mainImage, places, interests, rfl, rfl, rfl⟩

theorem interestPromise_eq_ok {A : CityAdapters} {city : String} (t : TemplateEntry)
    (y : Interest) (h : interestPromise A city t = .ok y) :
    y = { name := t.name, query := t.query,
          image := some
            (match A.getUnsplashImage (city ++ " " ++ t.query) with
             | .ok (some u) => if u = "" then interestPlaceholder city t.query else u
             | _ => interestPlaceholder city t.query) } := by
  unfold interestPromise at h
  cases hi : A.getUnsplashImage (city ++ " " ++ t.query) with
  | error e => simp [hi] at h
  | ok img =>
    simp only [hi, Except.ok.injEq] at h
    subst h
    cases img with
    | none => rfl
    | some u =>
      simp only [Interest.mk.injEq, true_and, Option.some.injEq]
      rw [orElse_eq]

/-- C21: in every city resolution that commits a model, the interests of the
model are the four fixed defaults in template order, named "History & Landmarks",
"Food & Dining", "Art & Culture" and "Nightlife" (History, Food, Art, Nightlife
for short); the image call of each has resolved, and the interest carries the
returned image when that is non-empty and the placeholder
"https://loremflickr.com/600x800/{city},{tags of its query}" otherwise. -/
theorem C21_city_interests (B : JSBuiltins) (A : CityAdapters) (city : String)
    (country : Option String) (s : CityPageState)
    (h : (loadCityDataTry B A city country { s with loading := true }).2 = .ok ()) :
    ∃ model, (loadCityData B A city country s).cityInfo = some model
      ∧ model.interests.map Interest.name
        = ["History & Landmarks", "Food & Dining", "Art & Culture", "Nightlife"]
      ∧ List.Forall₂ (fun (label : String) (i : Interest) => label.data <+: i.name.data)
          ["History", "Food", "Art", "Nightlife"] model.interests
      ∧ (∀ t ∈ templateInterests, ∃ img, A.getUnsplashImage (city ++ " " ++ t.query) = .ok img)
      ∧ model.interests = templateInterests.map (fun t =>
          { name := t.name, query := t.query,
            image := some
              (match A.getUnsplashImage (city ++ " " ++ t.query) with
               | .ok (some u) =>
                 if u = "" then
                   "https://loremflickr.com/600x800/" ++ city ++ "," ++ queryTags t.query
                 else u
               | _ => "https://loremflickr.com/600x800/" ++ city ++ "," ++ queryTags t.query) }) := by
  obtain ⟨mainImage, places, interests, -, hI, hm⟩ := loadCityDataTry_committed h
  obtain ⟨hmap, hok⟩ := promiseAll_map_eq_ok (fun t y hy => @interestPromise_eq_ok A city t y hy) hI
  refine ⟨_, hm, ?_, ?_, ?_, ?_⟩
  · simp only [hmap]
    rfl
  · simp only [hmap]
    exact .cons (show "History".data <+: "History & Landmarks".data by decide)
      (.cons (show "Food".data <+: "Food & Dining".data by decide)
        (.cons (show "Art".data <+: "Art & Culture".data by decide)
          (.cons (show "Nightlife".data <+: "Nightlife".data by decide) .nil)))
  · intro t ht
    have := hok t ht
    unfold interestPromise at this
    cases hi : A.getUnsplashImage (city ++ " " ++ t.query) with
    | error e => simp [hi] at this
    | ok img => exact ⟨img, rfl⟩
  · simp only [hmap]
    rfl

/-- Witness of C21: the city "paris" with adapters that all resolve to nothing. -/
theorem C21_city_interests_witness :
    ∃ model, (loadCityData asciiBuiltins emptyAdapters "paris" none .mounted).cityInfo = some model
      ∧ model.interests.map Interest.name
        = ["History & Landmarks", "Food & Dining", "Art & Culture", "Nightlife"]
      ∧ List.Forall₂ (fun (label : String) (i : Interest) => label.data <+: i.name.data)
          ["History", "Food", "Art", "Nightlife"] model.interests
      ∧ (∀ t ∈ templateInterests,
          ∃ img, emptyAdapters.getUnsplashImage ("paris" ++ " " ++ t.query) = .ok img)
      ∧ model.interests = templateInterests.map (fun t =>
          { name := t.name, query := t.query,
            image := some
              (match emptyAdapters.getUnsplashImage ("paris" ++ " " ++ t.query) with
               | .ok (some u) =>
                 if u = "" then
                   "https://loremflickr.com/600x800/" ++ "paris" ++ "," ++ queryTags t.query
                 else u
               | _ =>
                 "https://loremflickr.com/600x800/" ++ "paris" ++ "," ++ queryTags t.query) }) :=
  C21_city_interests asciiBuiltins emptyAdapters "paris" none .mounted rfl

/-- C28, as stated, fails for a slug whose first character lies outside the
Basic Multilingual Plane: the first character of the slug has an upper case,
the resolution commits a model, and the name of the model is the slug
unchanged, not the slug with its first character upper-cased. -/
theorem C28_supplementary_first_character_not_upper_cased :
    deseretSlug.data = [Char.ofNat 0x10437, 'x']
      ∧ deseretBuiltins.toUpperCase ⟨[Char.ofNat 0x10437]⟩ = ⟨[Char.ofNat 0x1040F]⟩
      ∧ ∃ model,
          (loadCityData deseretBuiltins emptyAdapters deseretSlug none .mounted).cityInfo
            = some model
          ∧ model.name = deseretSlug
          ∧ model.name ≠ deseretBuiltins.toUpperCase ⟨[Char.ofNat 0x10437]⟩ ++ ⟨['x']⟩ := by
  obtain ⟨mainImage, places, interests, -, -, hm⟩ :=
    @loadCityDataTry_committed deseretBuiltins emptyAdapters deseretSlug none
      { CityPageState.mounted with loading := true } rfl
  have hn : (initialData deseretBuiltins deseretSlug none).name = deseretSlug := by decide
  have hu : deseretSlug
      ≠ deseretBuiltins.toUpperCase ⟨[Char.ofNat 0x10437]⟩ ++ ⟨['x']⟩ := by decide
  exact ⟨rfl, by decide, _, hm, hn, fun heq => hu (hn.symm.trans heq)⟩

/-- C28: in every city resolution that commits a model, the name, the identity,
the quick facts and the tips of the model are those of the seeded initial data,
whatever the adapters returned, and only image, places and interests are
replaced. The name is the city slug with its first UTF-16 code unit upper-cased:
for a slug whose first character lies in the Basic Multilingual Plane that is
the slug with its first character upper-cased, for a slug whose first character
lies outside it the name is the slug unchanged, and for the empty slug it is
"Destination". -/
theorem C28_committed_model_frame (B : JSBuiltins) (A : CityAdapters) (city : String)
    (country : Option String) (s : CityPageState)
    (h : (loadCityDataTry B A city country { s with loading := true }).2 = .ok ()) :
    ∃ model, (loadCityData B A city country s).cityInfo = some model
      ∧ model.name = (initialData B city country).name
      ∧ model.identity = (initialData B city country).identity
      ∧ model.quickFacts = (initialData B city country).quickFacts
      ∧ model.tips = (initialData B city country).tips
      ∧ (∀ c cs, city.data = c :: cs → c.toNat < 65536 →
          model.name = B.toUpperCase ⟨[c]⟩ ++ ⟨cs⟩)
      ∧ (∀ c cs, city.data = c :: cs → 65536 ≤ c.toNat → model.name = city)
      ∧ (city.data = [] → model.name = "Destination")
      ∧ model = { (initialData B city country) with
          image := model.image, places := model.places, interests := model.interests } := by
  obtain ⟨mainImage, places, interests, -, -, hm⟩ := loadCityDataTry_committed h
  refine ⟨_, hm, rfl, rfl, rfl, rfl, ?_, ?_, ?_, rfl⟩
  · intro c cs hc hlt
    simp only [initialData, cityDisplayName, capitalizeOr, hc, if_pos hlt]
  · intro c cs hc hge
    simp only [initialData, cityDisplayName, capitalizeOr, hc, if_neg (Nat.not_lt.mpr hge)]
  · intro hc
    simp only [initialData, cityDisplayName, capitalizeOr, hc]

/-- Witness of C28: the city "paris" in "france" with adapters that all resolve
to nothing. -/
theorem C28_committed_model_frame_witness :
    ∃ model, (loadCityData asciiBuiltins emptyAdapters "paris" (some "france") .mounted).cityInfo
        = some model
      ∧ model.name = (initialData asciiBuiltins "paris" (some "france")).name
      ∧ model.identity = (initialData asciiBuiltins "paris" (some "france")).identity
      ∧ model.quickFacts = (initialData asciiBuiltins "paris" (some "france")).quickFacts
      ∧ model.tips = (initialData asciiBuiltins "paris" (some "france")).tips
      ∧ (∀ c cs, "paris".data = c :: cs → c.toNat < 65536 →
          model.name = asciiBuiltins.toUpperCase ⟨[c]⟩ ++ ⟨cs⟩)
      ∧ (∀ c cs, "paris".data = c :: cs → 65536 ≤ c.toNat → model.name = "paris")
      ∧ ("paris".data = [] → model.name = "Destination")
      ∧ model = { (initialData asciiBuiltins "paris" (some "france")) with
          image := model.image, places := model.places, interests := model.interests } :=
  C28_committed_model_frame asciiBuiltins emptyAdapters "paris" (some "france") .mounted rfl

/-! ## Overlapping resolutions (C22) -/

theorem PageConfig.step_log {σ W ι : Type} (apply : σ → W → σ) (resolve : ι → Resolution W)
    {c c2 : PageConfig σ W} {e : PageEvent ι} (h : c.step apply resolve e = some c2) :
    ∃ ws, c2.log = c.log ++ ws ∧ c2.state = ws.foldl apply c.state := by
  cases e with
  | start id =>
    simp only [PageConfig.step, Option.some.injEq] at h
    subst h
    exact ⟨_, rfl, rfl⟩
  | respond i =>
    simp only [PageConfig.step] at h
    split at h
    · simp only [Option.some.injEq] at h
      subst h
      exact ⟨_, rfl, rfl⟩
    · simp at h

theorem PageConfig.run_log {σ W ι : Type} (apply : σ → W → σ) (resolve : ι → Resolution W)
    (es : List (PageEvent ι)) {c c2 : PageConfig σ W}
    (h : PageConfig.run apply resolve c es = some c2) :
    ∃ ws, c2.log = c.log ++ ws ∧ c2.state = ws.foldl apply c.state := by
  induction es generalizing c with
  | nil =>
    simp only [PageConfig.run, Option.some.injEq] at h
    subst h
    exact ⟨[], by simp, rfl⟩
  | cons e es ih =>
    simp only [PageConfig.run] at h
    cases hs : c.step apply resolve e with
    | none => simp [hs] at h
    | some c1 =>
      rw [hs] at h
      obtain ⟨w1, hl1, hs1⟩ := PageConfig.step_log apply resolve hs
      obtain ⟨w2, hl2, hs2⟩ := ih h
      refine ⟨w1 ++ w2, ?_, ?_⟩
      · rw [hl2, hl1, List.append_assoc]
      · rw [hs2, hs1, List.foldl_append]

/-- The value of a field after a sequence of writes is the one its last write
gave it. -/
theorem foldl_last_write {σ W φ : Type} (apply : σ → W → σ) (f : σ → φ) (touches : W → Prop)
    (hkeep : ∀ s w, ¬ touches w → f (apply s w) = f s) (w0 : W) (v : φ)
    (hset : ∀ s, f (apply s w0) = v) (pre post : List W) (hpost : ∀ w ∈ post, ¬ touches w)
    (s : σ) : f ((pre ++ w0 :: post).foldl apply s) = v := by
  rw [List.foldl_append, List.foldl_cons]
  have hs1 : ∀ s2, f s2 = v → f (post.foldl apply s2) = v := by
    induction post with
    | nil => intro s2 h2; exact h2
    | cons w ws ih =>
      intro s2 h2
      rw [List.foldl_cons]
      apply ih (fun x hx => hpost x (List.mem_cons_of_mem _ hx))
      rw [hkeep s2 w (hpost w (List.mem_cons_self _ _))]
      exact h2
  exact hs1 _ (hset _)

theorem mem_routineWrites {W : Type} {routines : List (List (Segment W))} {w : W} :
    w ∈ routineWrites routines
      ↔ ∃ r ∈ routines, ∃ seg ∈ r, w ∈ seg.writes ∨ ∃ h ∈ seg.handlers, w ∈ h := by
  unfold routineWrites
  constructor
  · intro hw
    obtain ⟨l, hl, hwl⟩ := List.mem_flatten.mp hw
    obtain ⟨seg, hseg, rfl⟩ := List.mem_map.mp hl
    obtain ⟨r, hr, hsr⟩ := List.mem_flatten.mp hseg
    refine ⟨r, hr, seg, hsr, ?_⟩
    rcases List.mem_append.mp hwl with h1 | h1
    · exact Or.inl h1
    · obtain ⟨h, hh, hwh⟩ := List.mem_flatten.mp h1
      exact Or.inr ⟨h, hh, hwh⟩
  · rintro ⟨r, hr, seg, hsr, hw⟩
    refine List.mem_flatten.mpr ⟨seg.allWrites,
      List.mem_map.mpr ⟨seg, List.mem_flatten.mpr ⟨r, hr, hsr⟩, rfl⟩, ?_⟩
    unfold Segment.allWrites
    apply List.mem_append.mpr
    rcases hw with hw | ⟨h, hh, hwh⟩
    · exact Or.inl hw
    · exact Or.inr (List.mem_flatten.mpr ⟨h, hh, hwh⟩)

theorem PageConfig.step_keeps {σ W ι : Type} (apply : σ → W → σ) (resolve : ι → Resolution W)
    {c c2 : PageConfig σ W} {e : PageEvent ι} (h : c.step apply resolve e = some c2) (w : W)
    (hw : w ∈ c.log ∨ w ∈ routineWrites c.inFlight) :
    w ∈ c2.log ∨ w ∈ routineWrites c2.inFlight := by
  cases e with
  | start id =>
    simp only [PageConfig.step, Option.some.injEq] at h
    subst h
    rcases hw with hw | hw
    · exact Or.inl (List.mem_append_left _ hw)
    · right
      obtain ⟨r, hr, hrest⟩ := mem_routineWrites.mp hw
      exact mem_routineWrites.mpr ⟨r, List.mem_append_left _ hr, hrest⟩
  | respond i =>
    simp only [PageConfig.step] at h
    split at h
    · rename_i seg rest hi
      simp only [Option.some.injEq] at h
      subst h
      rcases hw with hw | hw
      · exact Or.inl (List.mem_append_left _ hw)
      · obtain ⟨r, hr, sg, hsg, hwsg⟩ := mem_routineWrites.mp hw
        obtain ⟨j, hj⟩ := List.mem_iff_getElem?.mp hr
        by_cases hij : i = j
        · subst hij
          rw [hi] at hj
          cases hj
          rcases List.mem_cons.mp hsg with hsg | hsg
          · subst hsg
            rcases hwsg with hwsg | ⟨hd, hhd, hwhd⟩
            · exact Or.inl (List.mem_append_right _ hwsg)
            · right
              refine mem_routineWrites.mpr ⟨[{ writes := hd }], ?_, { writes := hd }, ?_, Or.inl hwhd⟩
              · exact List.mem_append_right _ (List.mem_map.mpr ⟨hd, hhd, rfl⟩)
              · exact List.mem_singleton.mpr rfl
          · right
            refine mem_routineWrites.mpr ⟨rest, ?_, sg, hsg, hwsg⟩
            apply List.mem_append_left
            have hlt : i < c.inFlight.length := (List.getElem?_eq_some.mp hi).1
            exact List.mem_iff_getElem?.mpr ⟨i, List.getElem?_set_self hlt⟩
        · right
          refine mem_routineWrites.mpr ⟨r, ?_, sg, hsg, hwsg⟩
          apply List.mem_append_left
          exact List.mem_iff_getElem?.mpr ⟨j, by rw [List.getElem?_set_ne hij]; exact hj⟩
    · simp at h

theorem PageConfig.run_keeps {σ W ι : Type} (apply : σ → W → σ) (resolve : ι → Resolution W)
    (es : List (PageEvent ι)) {c c2 : PageConfig σ W}
    (h : PageConfig.run apply resolve c es = some c2) (w : W)
    (hw : w ∈ c.log ∨ w ∈ routineWrites c.inFlight) :
    w ∈ c2.log ∨ w ∈ routineWrites c2.inFlight := by
  induction es generalizing c with
  | nil =>
    simp only [PageConfig.run, Option.some.injEq] at h
    subst h
    exact hw
  | cons e es ih =>
    simp only [PageConfig.run] at h
    cases hs : c.step apply resolve e with
    | none => simp [hs] at h
    | some c1 =>
      rw [hs] at h
      exact ih h (PageConfig.step_keeps apply resolve hs w hw)

/-- After a run, every write of every resolution that was started has been made
or is still to be made by a routine in flight: none is discarded. -/
theorem PageConfig.run_started {σ W ι : Type} (apply : σ → W → σ) (resolve : ι → Resolution W)
    (es : List (PageEvent ι)) {c c2 : PageConfig σ W}
    (h : PageConfig.run apply resolve c es = some c2) (id : ι) (hid : .start id ∈ es) (w : W)
    (hw : w ∈ (resolve id).atStart ∨ w ∈ routineWrites (resolve id).routines) :
    w ∈ c2.log ∨ w ∈ routineWrites c2.inFlight := by
  induction es generalizing c with
  | nil => simp at hid
  | cons e es ih =>
    simp only [PageConfig.run] at h
    cases hs : c.step apply resolve e with
    | none => simp [hs] at h
    | some c1 =>
      rw [hs] at h
      rcases List.mem_cons.mp hid with hid | hid
      · subst hid
        apply PageConfig.run_keeps apply resolve es h
        simp only [PageConfig.step, Option.some.injEq] at hs
        subst hs
        rcases hw with hw | hw
        · exact Or.inl (List.mem_append_right _ hw)
        · right
          obtain ⟨r, hr, hrest⟩ := mem_routineWrites.mp hw
          exact mem_routineWrites.mpr ⟨r, List.mem_append_right _ hr, hrest⟩
      · exact ih h hid

theorem routineWrites_of_quiescent {σ W : Type} {c : PageConfig σ W}
    (h : c.quiescent = true) (w : W) : w ∉ routineWrites c.inFlight := by
  intro hw
  obtain ⟨r, hr, seg, hseg, -⟩ := mem_routineWrites.mp hw
  simp only [PageConfig.quiescent, List.all_eq_true] at h
  have := List.isEmpty_iff.mp (h r hr)
  rw [this] at hseg
  simp at hseg


/-- The writes of one city resolution, made in program order with nothing in
between, give the state loadCityData followed by loadNearbyCities gives. -/
theorem cityResolution_sequential (B : JSBuiltins) (A : CityAdapters) (city : String)
    (country : Option String) (s : CityPageState) :
    ((cityResolution B A (city, country)).atStart
        ++ ((loadCityDataSegments B A city country).map Segment.writes).flatten).foldl
        CityWrite.apply s
        = loadCityData B A city country s
      ∧ ((cityResolution B A (city, country)).atStart
        ++ ((loadCityDataSegments B A city country).map Segment.writes).flatten
        ++ ((loadNearbyCitiesSegments A city).map Segment.writes).flatten).foldl
        CityWrite.apply s
        = loadNearbyCities A city (loadCityData B A city country s) := by
  have h1 : ((cityResolution B A (city, country)).atStart
        ++ ((loadCityDataSegments B A city country).map Segment.writes).flatten).foldl
        CityWrite.apply s
        = loadCityData B A city country s := by
    unfold loadCityData loadCityDataTry loadCityDataSegments cityResolution
    cases A.getUnsplashImage (city ++ " city landmark") with
    | error e => rfl
    | ok mainImage =>
      cases A.getCityCoordinates city with
      | error e => rfl
      | ok coords =>
        cases A.fetchPlacesForCity city with
        | error e => cases coords <;> rfl
        | ok found =>
          cases promiseAll (templateInterests.map (interestPromise A city)) with
          | error e =>
            cases promiseAll (templatePlaces.map (placePromise A city)) <;>
              cases coords <;> cases found with
              | none => rfl
              | some l => cases l <;> rfl
          | ok interests =>
            cases promiseAll (templatePlaces.map (placePromise A city)) <;>
              cases coords <;> cases found with
              | none => rfl
              | some l => cases l <;> rfl
  refine ⟨h1, ?_⟩
  rw [List.foldl_append, h1]
  unfold loadNearbyCities loadNearbyCitiesSegments
  cases A.fetchCitiesNearCity city <;> rfl

theorem foldl_update_writes (us : List CountryUpdate) (s : CountryPageState) :
    (us.map (fun u => [CountryWrite.update u])).flatten.foldl CountryWrite.apply s
      = us.foldl CountryUpdate.apply s := by
  induction us generalizing s with
  | nil => rfl
  | cons u us ih =>
    simp only [List.map_cons, List.flatten_cons, List.singleton_append, List.foldl_cons]
    exact ih _

/-- The writes of one country resolution, made in program order with nothing in
between, give the state of getCountryData once its handlers have run. -/
theorem countryResolution_sequential (B : JSBuiltins) (A : CountryAdapters)
    (countryName : String) (staticData : Option StaticCountry) (s : CountryPageState) :
    ((countryResolution B A (countryName, staticData)).atStart
        ++ (getCountryDataSegment B A countryName staticData).writes
        ++ (getCountryDataSegment B A countryName staticData).handlers.flatten).foldl
        CountryWrite.apply s
      = (getCountryData B A countryName staticData s).settled := by
  rw [List.foldl_append]
  cases hf : A.fetchCountry countryName with
  | error e => simp only [getCountryDataSegment, getCountryData, hf, CountryRun.settled]; rfl
  | ok data =>
    cases data with
    | none => simp only [getCountryDataSegment, getCountryData, hf, CountryRun.settled]; rfl
    | some d =>
      cases hr : d.apiData with
      | none => simp only [getCountryDataSegment, getCountryData, hf, hr, CountryRun.settled]; rfl
      | some raw =>
        cases hn : raw.name with
        | none =>
          simp only [getCountryDataSegment, getCountryData, hf, hr, hn, CountryRun.settled]
          rfl
        | some nm =>
          simp only [getCountryDataSegment, getCountryData, hf, hr, hn, CountryRun.settled]
          rw [foldl_update_writes]
          rfl

/-- C22, as stated, fails: "lyon" is started, then "nice" before any response
for "lyon" has arrived; the responses for "nice" arrive first and those for
"lyon" after them. When all responses have arrived the page, which is on
"nice", holds the state the resolution of "lyon" alone gives: the model, the map
centre and the neighbours of "lyon". When instead the responses for "lyon"
arrive before those for "nice", the model is that of "nice" but the map centre
is still that of "lyon", which the resolution of "nice" never overwrites. -/
theorem C22_late_responses_overwrite_newer_resolution :
    (PageConfig.run CityWrite.apply (cityResolution asciiBuiltins lyonNiceAdapters)
        { state := CityPageState.mounted } lyonLate).map (fun c => c.quiescent) = some true
      ∧ (PageConfig.run CityWrite.apply (cityResolution asciiBuiltins lyonNiceAdapters)
          { state := CityPageState.mounted } lyonLate).map (fun c => c.state)
        = some (loadNearbyCities lyonNiceAdapters "lyon"
            (loadCityData asciiBuiltins lyonNiceAdapters "lyon" (some "france") .mounted))
      ∧ (PageConfig.run CityWrite.apply (cityResolution asciiBuiltins lyonNiceAdapters)
          { state := CityPageState.mounted } lyonLate).map
            (fun c => (c.state.cityInfo.map CityInfo.name, c.state.nearbyCities))
        = some (some "Lyon", [{ name := "Vienne" }])
      ∧ (loadCityData asciiBuiltins lyonNiceAdapters "nice" (some "france") .mounted).cityInfo.map
          CityInfo.name = some "Nice"
      ∧ (PageConfig.run CityWrite.apply (cityResolution asciiBuiltins lyonNiceAdapters)
          { state := CityPageState.mounted }
          [.start ("lyon", some "france"), .start ("nice", some "france"),
           .respond 0, .respond 0, .respond 0, .respond 0, .respond 0, .respond 1,
           .respond 2, .respond 2, .respond 2, .respond 2, .respond 2, .respond 3]).map
            (fun c => (c.quiescent, c.state.cityInfo.map CityInfo.name, c.state.mapCenter))
        = some (true, some "Nice", some (.str "45.76", .str "4.83")) := by
  refine ⟨by decide!, by decide!, by decide!, by decide!, by decide!⟩

/-- C22, amended: nothing cancels a resolution or discards a response. For
every sequence of events that starts resolution A, then resolution B, and then
lets responses arrive until none is awaited, on the city page and on the country
page: the state is the result of all writes in arrival order, every write of
the routines of A and of B has been made, and each part of the state (city
model, map centre, neighbour list; country API data, hero image, cities,
categories) holds the value of the last write made to it, whichever resolution
made it. -/
theorem C22_last_write_wins (B : JSBuiltins) :
    (∀ (A : CityAdapters) (idA idB : String × Option String)
        (responses : List (PageEvent (String × Option String))) (s : CityPageState)
        (c : PageConfig CityPageState CityWrite),
        PageConfig.run CityWrite.apply (cityResolution B A) { state := s }
            (.start idA :: .start idB :: responses) = some c →
        c.quiescent = true →
        c.state = c.log.foldl CityWrite.apply s
          ∧ (∀ w, (w ∈ routineWrites (cityResolution B A idA).routines
                ∨ w ∈ routineWrites (cityResolution B A idB).routines) → w ∈ c.log)
          ∧ (∀ pre post m, c.log = pre ++ .setCityInfo m :: post →
              (∀ w ∈ post, ∀ m2, w ≠ .setCityInfo m2) → c.state.cityInfo = some m)
          ∧ (∀ pre post ctr, c.log = pre ++ .setMapCenter ctr :: post →
              (∀ w ∈ post, ∀ ctr2, w ≠ .setMapCenter ctr2) → c.state.mapCenter = some ctr)
          ∧ (∀ pre post l, c.log = pre ++ .setNearbyCities l :: post →
              (∀ w ∈ post, ∀ l2, w ≠ .setNearbyCities l2) → c.state.nearbyCities = l))
      ∧ (∀ (A : CountryAdapters) (idA idB : String × Option StaticCountry)
          (responses : List (PageEvent (String × Option StaticCountry))) (s : CountryPageState)
          (c : PageConfig CountryPageState CountryWrite),
          PageConfig.run CountryWrite.apply (countryResolution B A) { state := s }
              (.start idA :: .start idB :: responses) = some c →
          c.quiescent = true →
          c.state = c.log.foldl CountryWrite.apply s
            ∧ (∀ w, (w ∈ routineWrites (countryResolution B A idA).routines
                  ∨ w ∈ routineWrites (countryResolution B A idB).routines) → w ∈ c.log)
            ∧ (∀ pre post data, c.log = pre ++ .setApiData data :: post →
                (∀ w ∈ post, ∀ d2, w ≠ .setApiData d2) → c.state.apiData = data)
            ∧ (∀ pre post img, c.log = pre ++ .update (.setCountryImage img) :: post →
                (∀ w ∈ post, ∀ i2, w ≠ .update (.setCountryImage i2)) →
                c.state.countryImage = some img)
            ∧ (∀ pre post l, c.log = pre ++ .update (.setDynamicCities l) :: post →
                (∀ w ∈ post, ∀ l2, w ≠ .update (.setDynamicCities l2)) →
                c.state.dynamicCities = l)
            ∧ (∀ pre post l, c.log = pre ++ .update (.setDynamicCategories l) :: post →
                (∀ w ∈ post, ∀ l2, w ≠ .update (.setDynamicCategories l2)) →
                c.state.dynamicCategories = l)) := by
  constructor
  · intro A idA idB responses s c hrun hq
    obtain ⟨ws, hlog, hstate⟩ := PageConfig.run_log CityWrite.apply (cityResolution B A) _ hrun
    simp only [List.nil_append] at hlog
    have hst : c.state = c.log.foldl CityWrite.apply s := by rw [hlog]; exact hstate
    refine ⟨hst, ?_, ?_, ?_, ?_⟩
    · intro w hw
      have hin : w ∈ c.log ∨ w ∈ routineWrites c.inFlight := by
        rcases hw with hw | hw
        · exact PageConfig.run_started CityWrite.apply (cityResolution B A) _ hrun idA
            (List.mem_cons_self _ _) w (Or.inr hw)
        · exact PageConfig.run_started CityWrite.apply (cityResolution B A) _ hrun idB
            (List.mem_cons_of_mem _ (List.mem_cons_self _ _)) w (Or.inr hw)
      exact hin.resolve_right (routineWrites_of_quiescent hq w)
    · intro pre post m hl hpost
      rw [hst, hl]
      apply foldl_last_write CityWrite.apply (fun st => st.cityInfo)
        (fun w => ∃ m2, w = .setCityInfo m2)
      · intro st w hw
        cases w with
        | setCityInfo m2 => exact absurd ⟨m2, rfl⟩ hw
        | _ => rfl
      · intro st; rfl
      · intro w hw ⟨m2, hm2⟩
        exact hpost w hw m2 hm2
    · intro pre post ctr hl hpost
      rw [hst, hl]
      apply foldl_last_write CityWrite.apply (fun st => st.mapCenter)
        (fun w => ∃ c2, w = .setMapCenter c2)
      · intro st w hw
        cases w with
        | setMapCenter c2 => exact absurd ⟨c2, rfl⟩ hw
        | _ => rfl
      · intro st; rfl
      · intro w hw ⟨c2, hc2⟩
        exact hpost w hw c2 hc2
    · intro pre post l hl hpost
      rw [hst, hl]
      apply foldl_last_write CityWrite.apply (fun st => st.nearbyCities)
        (fun w => ∃ l2, w = .setNearbyCities l2)
      · intro st w hw
        cases w with
        | setNearbyCities l2 => exact absurd ⟨l2, rfl⟩ hw
        | _ => rfl
      · intro st; rfl
      · intro w hw ⟨l2, hl2⟩
        exact hpost w hw l2 hl2
  · intro A idA idB responses s c hrun hq
    obtain ⟨ws, hlog, hstate⟩ :=
      PageConfig.run_log CountryWrite.apply (countryResolution B A) _ hrun
    simp only [List.nil_append] at hlog
    have hst : c.state = c.log.foldl CountryWrite.apply s := by rw [hlog]; exact hstate
    refine ⟨hst, ?_, ?_, ?_, ?_, ?_⟩
    · intro w hw
      have hin : w ∈ c.log ∨ w ∈ routineWrites c.inFlight := by
        rcases hw with hw | hw
        · exact PageConfig.run_started CountryWrite.apply (countryResolution B A) _ hrun idA
            (List.mem_cons_self _ _) w (Or.inr hw)
        · exact PageConfig.run_started CountryWrite.apply (countryResolution B A) _ hrun idB
            (List.mem_cons_of_mem _ (List.mem_cons_self _ _)) w (Or.inr hw)
      exact hin.resolve_right (routineWrites_of_quiescent hq w)
    · intro pre post data hl hpost
      rw [hst, hl]
      apply foldl_last_write CountryWrite.apply (fun st => st.apiData)
        (fun w => ∃ d2, w = .setApiData d2)
      · intro st w hw
        cases w with
        | setApiData d2 => exact absurd ⟨d2, rfl⟩ hw
        | update u => cases u <;> rfl
        | _ => rfl
      · intro st; rfl
      · intro w hw ⟨d2, hd2⟩
        exact hpost w hw d2 hd2
    · intro pre post img hl hpost
      rw [hst, hl]
      apply foldl_last_write CountryWrite.apply (fun st => st.countryImage)
        (fun w => ∃ i2, w = .update (.setCountryImage i2))
      · intro st w hw
        cases w with
        | update u =>
          cases u with
          | setCountryImage i2 => exact absurd ⟨i2, rfl⟩ hw
          | _ => rfl
        | _ => rfl
      · intro st; rfl
      · intro w hw ⟨i2, hi2⟩
        exact hpost w hw i2 hi2
    · intro pre post l hl hpost
      rw [hst, hl]
      apply foldl_last_write CountryWrite.apply (fun st => st.dynamicCities)
        (fun w => ∃ l2, w = .update (.setDynamicCities l2))
      · intro st w hw
        cases w with
        | update u =>
          cases u with
          | setDynamicCities l2 => exact absurd ⟨l2, rfl⟩ hw
          | _ => rfl
        | _ => rfl
      · intro st; rfl
      · intro w hw ⟨l2, hl2⟩
        exact hpost w hw l2 hl2
    · intro pre post l hl hpost
      rw [hst, hl]
      apply foldl_last_write CountryWrite.apply (fun st => st.dynamicCategories)
        (fun w => ∃ l2, w = .update (.setDynamicCategories l2))
      · intro st w hw
        cases w with
        | update u =>
          cases u with
          | setDynamicCategories l2 => exact absurd ⟨l2, rfl⟩ hw
          | _ => rfl
        | _ => rfl
      · intro st; rfl
      · intro w hw ⟨l2, hl2⟩
        exact hpost w hw l2 hl2

/-- Witness of C22 (amended): the schedule in which the responses for "lyon"
arrive last is a run to the end, and its state is the result of its writes in
arrival order. -/
theorem C22_last_write_wins_witness :
    ∃ c, PageConfig.run CityWrite.apply (cityResolution asciiBuiltins lyonNiceAdapters)
          { state := CityPageState.mounted } lyonLate = some c
      ∧ c.state = c.log.foldl CityWrite.apply CityPageState.mounted := by
  have hsome : (PageConfig.run CityWrite.apply (cityResolution asciiBuiltins lyonNiceAdapters)
      { state := CityPageState.mounted } lyonLate).isSome = true := by decide!
  have hq : (PageConfig.run CityWrite.apply (cityResolution asciiBuiltins lyonNiceAdapters)
      { state := CityPageState.mounted } lyonLate).map (fun c => c.quiescent) = some true := by
    decide!
  cases h : PageConfig.run CityWrite.apply (cityResolution asciiBuiltins lyonNiceAdapters)
      { state := CityPageState.mounted } lyonLate with
  | none =>
    rw [h] at hsome
    exact absurd hsome (by decide)
  | some c =>
    rw [h] at hq
    exact ⟨c, rfl, ((C22_last_write_wins asciiBuiltins).1 lyonNiceAdapters ("lyon", some "france")
      ("nice", some "france") _ CityPageState.mounted c h (Option.some.inj hq)).1⟩

end TravelGuide
